import Mathlib

/-!
The adapter `tlsio_wolfssl`: a shallow embedding of the TLS transport adapter.

Source: `src/tlsio_wolfssl.c`.  The adapter sits between a byte transport (the `xio_*`
calls) and a TLS engine (the `wolfSSL_*` calls).  Both collaborators are outside the file,
so every call into them is modelled by an explicit *oracle argument*: the value the call
returns together with the callbacks it makes into the adapter before it returns (the
transport delivers events, the engine calls the I/O bridge).  Everything the adapter calls
or invokes is appended to a trace.

Conventions
* pointers, handles, callbacks and contexts are `Nat`s, `0` being `NULL`;
* bytes are `Nat`s (they are only copied, never computed with);
* `size_t` values are `Nat`s; the conversion to the 32-bit `int` is explicit (`toInt`);
* a function whose loop is driven by the environment returns `Option`: `none` means the
  scripted environment ran out before the loop ended;
* the API functions model the branch `tls_io != NULL`.
-/

namespace TlsioWolfssl

/-! ## Constants and types of the headers the file includes -/

abbrev Byte := Nat

/-- Result codes of an open completion (`xio.h`). -/
inductive IO_OPEN_RESULT where
  | IO_OPEN_OK
  | IO_OPEN_ERROR
  | IO_OPEN_CANCELLED
  deriving DecidableEq, Repr

/-- The engine's success code (`wolfssl/ssl.h`). -/
def SSL_SUCCESS : Int := 1

/-- The bridge's would-block code (`wolfssl/ssl.h`). -/
def WOLFSSL_CBIO_ERR_WANT_READ : Int := -2

/-- The bridge's connection-closed code (`wolfssl/ssl.h`). -/
def WOLFSSL_CBIO_ERR_CONN_CLOSE : Int := -5

/-- The macro `__FAILURE__` of `optimize_size.h` expands to `__LINE__`: the failure value
is the number of the source line that produces it. -/
def FAILURE (line : Nat) : Int := (line : Int)

/-- Option name `OPTION_TRUSTED_CERT` (`shared_util_options.h`). -/
def OPTION_TRUSTED_CERT : String := "TrustedCerts"

/-- Option name `SU_OPTION_X509_CERT` (`shared_util_options.h`). -/
def SU_OPTION_X509_CERT : String := "x509certificate"

/-- Option name `SU_OPTION_X509_PRIVATE_KEY` (`shared_util_options.h`). -/
def SU_OPTION_X509_PRIVATE_KEY : String := "x509privatekey"

/-- Option name `OPTION_X509_ECC_CERT` (`shared_util_options.h`). -/
def OPTION_X509_ECC_CERT : String := "x509EccCertificate"

/-- Option name `OPTION_X509_ECC_KEY` (`shared_util_options.h`). -/
def OPTION_X509_ECC_KEY : String := "x509EccAliasKey"

/-- Conversion of a `size_t` to the 32-bit `int`: the low 32 bits, read as two's
complement (`4294967296` is `2 ^ 32`, `2147483648` is `2 ^ 31`). -/
def toInt (n : Nat) : Int :=
  if n % 4294967296 < 2147483648 then ((n % 4294967296 : Nat) : Int)
  else ((n % 4294967296 : Nat) : Int) - 4294967296

/-! ## The data model (lines 19-50) -/

inductive TLSIO_STATE_ENUM where
  | TLSIO_STATE_NOT_OPEN
  | TLSIO_STATE_OPENING_UNDERLYING_IO
  | TLSIO_STATE_IN_HANDSHAKE
  | TLSIO_STATE_OPEN
  | TLSIO_STATE_CLOSING
  | TLSIO_STATE_ERROR
  deriving DecidableEq, Repr

open TLSIO_STATE_ENUM IO_OPEN_RESULT

/-- The session record.  `socket_io_read_bytes` is the heap block (`none` is `NULL`, `some b`
a block holding the bytes `b`); the bytes that count are its first
`socket_io_read_byte_count` ones. -/
structure TLS_IO_INSTANCE where
  socket_io : Nat
  on_bytes_received : Nat
  on_io_open_complete : Nat
  on_io_close_complete : Nat
  on_io_error : Nat
  on_bytes_received_context : Nat
  on_io_open_complete_context : Nat
  on_io_close_complete_context : Nat
  on_io_error_context : Nat
  ssl : Nat
  ssl_context : Nat
  tlsio_state : TLSIO_STATE_ENUM
  socket_io_read_bytes : Option (List Byte)
  socket_io_read_byte_count : Nat
  on_send_complete : Nat
  on_send_complete_callback_context : Nat
  certificate : Option String
  x509certificate : Option String
  x509privatekey : Option String
  deriving DecidableEq, Repr

/-- One entry of the trace: a call the adapter makes into the transport or the engine, a
callback of its user that it invokes, or (the last two) a record the environment keeps of
what it handed to the bridge and got back from it. -/
inductive Effect where
  | xio_open (socket_io : Nat)
  | xio_close (socket_io : Nat)
  | xio_send (socket_io : Nat) (buf : List Byte) (sz : Int) (on_send_complete ctx : Nat)
  | xio_dowork (socket_io : Nat)
  | xio_setoption (socket_io : Nat) (optionName : String) (value : Option String)
  | xio_destroy (socket_io : Nat)
  | wolfSSL_CTX_load_verify_buffer (ssl_context : Nat) (certificate : String)
  | wolfSSL_new (ssl_context : Nat)
  | wolfSSL_use_certificate_chain_buffer (ssl : Nat) (x509certificate : String)
  | wolfSSL_use_PrivateKey_buffer (ssl : Nat) (x509privatekey : String)
  | wolfSSL_free (ssl : Nat)
  | wolfSSL_CTX_free (ssl_context : Nat)
  | wolfSSL_connect (ssl : Nat)
  | wolfSSL_read (ssl : Nat) (sz : Int)
  | wolfSSL_write (ssl : Nat) (buffer : List Byte) (sz : Int)
  | on_io_open_complete (fn ctx : Nat) (open_result : IO_OPEN_RESULT)
  | on_io_error (fn ctx : Nat)
  | on_bytes_received (fn ctx : Nat) (bytes : List Byte)
  | on_io_close_complete (fn ctx : Nat)
  | delivered (chunk : List Byte) (stored : Bool)
  | io_recv_returned (result : Int) (buf : List Byte)
  deriving DecidableEq, Repr

/-- A session together with the trace of what has happened so far. -/
structure Run where
  tls : TLS_IO_INSTANCE
  trace : List Effect
  deriving DecidableEq, Repr

/-- Append one entry to the trace. -/
def Run.emit (w : Run) (e : Effect) : Run := { w with trace := w.trace ++ [e] }

/-- The assignment `tls_io_instance->tlsio_state = st`. -/
def Run.setState (w : Run) (st : TLSIO_STATE_ENUM) : Run :=
  { w with tls := { w.tls with tlsio_state := st } }

/-! ## The environment: what a call into the transport or the engine does before it returns -/

mutual
/-- An event the transport delivers to the adapter through the callbacks registered with
`xio_open` and `xio_close`. -/
inductive TransportEvent where
  /-- Handler `on_underlying_io_open_complete(open_result)`; `connect` is what
  `wolfSSL_connect` does if the handler calls it. -/
  | open_complete (open_result : IO_OPEN_RESULT) (connect : EngineCall)
  /-- Handler `on_underlying_io_bytes_received(buffer, size)`; `realloc_ok` tells whether
  growing the block succeeds. -/
  | bytes_received (buffer : List Byte) (realloc_ok : Bool)
  | error
  | close_complete
/-- One call into the engine (`wolfSSL_connect`, `wolfSSL_read`, `wolfSSL_write`): the bridge
callbacks it makes, in order, and the value it returns. -/
inductive EngineCall where
  | mk (callbacks : List EngineCallback) (ret : Int)
/-- A callback the engine makes into the adapter. -/
inductive EngineCallback where
  /-- Bridge read `on_io_recv(buf, sz)`; `polls` is what each successive `xio_dowork` of the
  wait loop delivers, `realloc_ok` whether shrinking the block succeeds. -/
  | io_recv (sz : Int) (polls : List (List TransportEvent)) (realloc_ok : Bool)
  /-- Bridge write `on_io_send(buf, sz)`; `xio_send_ret` is what the transport's send
  returns. -/
  | io_send (buf : List Byte) (sz : Int) (xio_send_ret : Int)
  | handshake_done
end

/-! ## Memory helpers -/

/-- The block `realloc(p, n)` returns when it succeeds: `n` bytes, the old contents kept up
to the smaller of the two sizes (bytes not yet written are shown as `0`). -/
def realloc (p : Option (List Byte)) (n : Nat) : List Byte :=
  ((p.getD []) ++ List.replicate n 0).take n

/-- The effect of `memcpy(block + off, src, src.length)` (also `memmove`) on the block. -/
def memcpy (block : List Byte) (off : Nat) (src : List Byte) : List Byte :=
  block.take off ++ src ++ block.drop (off + src.length)

/-- The bytes the receive buffer holds: the first `socket_io_read_byte_count` bytes of the
block. -/
def TLS_IO_INSTANCE.buffered (t : TLS_IO_INSTANCE) : List Byte :=
  (t.socket_io_read_bytes.getD []).take t.socket_io_read_byte_count

/-! ## Callback helpers (lines 201-215) -/

def indicate_error (w : Run) : Run :=
  if w.tls.on_io_error ≠ 0 then
    w.emit (.on_io_error w.tls.on_io_error w.tls.on_io_error_context)
  else w

def indicate_open_complete (w : Run) (open_result : IO_OPEN_RESULT) : Run :=
  if w.tls.on_io_open_complete ≠ 0 then
    w.emit (.on_io_open_complete w.tls.on_io_open_complete
      w.tls.on_io_open_complete_context open_result)
  else w

/-! ## Transport event handlers without a nested call (lines 263-325) -/

def on_underlying_io_bytes_received (w : Run) (buffer : List Byte) (realloc_ok : Bool) : Run :=
  let size := buffer.length
  if ¬ realloc_ok then
    indicate_error (w.setState TLSIO_STATE_ERROR)
  else
    let new_socket_io_read_bytes :=
      realloc w.tls.socket_io_read_bytes (w.tls.socket_io_read_byte_count + size)
    { w with tls := { w.tls with
        socket_io_read_bytes :=
          some (memcpy new_socket_io_read_bytes w.tls.socket_io_read_byte_count buffer)
        socket_io_read_byte_count := w.tls.socket_io_read_byte_count + size } }

def on_underlying_io_error (w : Run) : Run :=
  match w.tls.tlsio_state with
  | TLSIO_STATE_NOT_OPEN => w
  | TLSIO_STATE_ERROR => w
  | TLSIO_STATE_OPENING_UNDERLYING_IO =>
    indicate_open_complete (w.setState TLSIO_STATE_ERROR) IO_OPEN_ERROR
  | TLSIO_STATE_IN_HANDSHAKE =>
    indicate_open_complete (w.setState TLSIO_STATE_ERROR) IO_OPEN_ERROR
  | TLSIO_STATE_OPEN =>
    indicate_error (w.setState TLSIO_STATE_ERROR)
  | TLSIO_STATE_CLOSING => w

def on_underlying_io_close_complete (w : Run) : Run :=
  if w.tls.tlsio_state ≠ TLSIO_STATE_CLOSING then w
  else
    let w1 :=
      if w.tls.on_io_close_complete ≠ 0 then
        w.emit (.on_io_close_complete w.tls.on_io_close_complete
          w.tls.on_io_close_complete_context)
      else w
    w1.setState TLSIO_STATE_NOT_OPEN

/-! ## The bridge and the handshake callback (lines 327-417) -/

/-- Lines 343-347 of `on_io_recv`: the number of bytes to hand over. -/
def on_io_recv_result (w : Run) (sz : Int) : Int :=
  let result : Int := toInt w.tls.socket_io_read_byte_count
  if result > sz then sz else result

/-- Lines 351-366 of `on_io_recv`: copy `n` bytes out of the block, move the rest to its
front, and shrink or free it.  Returns the bytes copied into the engine's `buf`. -/
def on_io_recv_take (w : Run) (n : Nat) (realloc_ok : Bool) : List Byte × Run :=
  let block := w.tls.socket_io_read_bytes.getD []
  let buf := block.take n
  let moved := memcpy block 0 ((block.drop n).take (w.tls.socket_io_read_byte_count - n))
  let count := w.tls.socket_io_read_byte_count - n
  if count > 0 then
    if realloc_ok then
      (buf, { w with tls := { w.tls with
        socket_io_read_bytes := some (realloc (some moved) count)
        socket_io_read_byte_count := count } })
    else
      (buf, { w with tls := { w.tls with
        socket_io_read_bytes := some moved
        socket_io_read_byte_count := count } })
  else
    (buf, { w with tls := { w.tls with
      socket_io_read_bytes := none
      socket_io_read_byte_count := count } })

/-- Lines 369-376 of `on_io_recv`: the value returned for the byte count `result` in the
state `st`. -/
def on_io_recv_code (result : Int) (st : TLSIO_STATE_ENUM) : Int :=
  if result = 0 ∧ st = TLSIO_STATE_OPEN then WOLFSSL_CBIO_ERR_WANT_READ
  else if result = 0 ∧ (st = TLSIO_STATE_CLOSING ∨ st = TLSIO_STATE_NOT_OPEN) then
    WOLFSSL_CBIO_ERR_CONN_CLOSE
  else result

/-- Lines 343-378 of `on_io_recv`: what follows the wait loop.  Returns the result and the
bytes copied into the engine's `buf`. -/
def on_io_recv_copy (w : Run) (sz : Int) (realloc_ok : Bool) : (Int × List Byte) × Run :=
  let result := on_io_recv_result w sz
  let r : List Byte × Run :=
    if result > 0 then on_io_recv_take w result.toNat realloc_ok else ([], w)
  ((on_io_recv_code result r.2.tls.tlsio_state, r.1), r.2)

def on_io_send (w : Run) (buf : List Byte) (sz : Int) (xio_send_ret : Int) : Int × Run :=
  let w1 := w.emit (.xio_send w.tls.socket_io buf sz w.tls.on_send_complete
    w.tls.on_send_complete_callback_context)
  if xio_send_ret ≠ 0 then
    (0, indicate_error (w1.setState TLSIO_STATE_ERROR))
  else
    (sz, w1)

def on_handshake_done (w : Run) : Int × Run :=
  if w.tls.tlsio_state ≠ TLSIO_STATE_IN_HANDSHAKE then (0, w)
  else (0, indicate_open_complete (w.setState TLSIO_STATE_OPEN) IO_OPEN_OK)

mutual
/-- Lines 238-261.  The engine's `wolfSSL_connect` is the oracle `connect`. -/
def on_underlying_io_open_complete (w : Run) (open_result : IO_OPEN_RESULT) :
    EngineCall → Option Run
  | .mk callbacks res =>
    if open_result ≠ IO_OPEN_OK then
      some (indicate_open_complete (w.setState TLSIO_STATE_ERROR) IO_OPEN_ERROR)
    else
      let w1 := (w.setState TLSIO_STATE_IN_HANDSHAKE).emit (.wolfSSL_connect w.tls.ssl)
      match engine_callbacks w1 callbacks with
      | none => none
      | some w2 =>
        if res ≠ SSL_SUCCESS then
          some ((indicate_open_complete w2 IO_OPEN_ERROR).setState TLSIO_STATE_ERROR)
        else some w2
/-- The transport invoking the handler that belongs to an event. -/
def transport_event (w : Run) : TransportEvent → Option Run
  | .open_complete open_result connect => on_underlying_io_open_complete w open_result connect
  | .bytes_received buffer realloc_ok =>
    some (on_underlying_io_bytes_received (w.emit (.delivered buffer realloc_ok))
      buffer realloc_ok)
  | .error => some (on_underlying_io_error w)
  | .close_complete => some (on_underlying_io_close_complete w)
/-- The transport delivering a sequence of events during one call into it. -/
def transport_events (w : Run) : List TransportEvent → Option Run
  | [] => some w
  | e :: rest =>
    match transport_event w e with
    | none => none
    | some w1 => transport_events w1 rest
/-- Lines 334-341: the wait loop of `on_io_recv`; each `xio_dowork` takes the next element
of `polls`. -/
def on_io_recv_wait (w : Run) : List (List TransportEvent) → Option Run
  | [] => if w.tls.socket_io_read_byte_count = 0 then none else some w
  | events :: polls =>
    if w.tls.socket_io_read_byte_count = 0 then
      match transport_events (w.emit (.xio_dowork w.tls.socket_io)) events with
      | none => none
      | some w1 =>
        if w1.tls.tlsio_state ≠ TLSIO_STATE_IN_HANDSHAKE then some w1
        else on_io_recv_wait w1 polls
    else some w
/-- The engine invoking a bridge function or the handshake callback. -/
def engine_callback (w : Run) : EngineCallback → Option Run
  | .io_recv sz polls realloc_ok =>
    match on_io_recv_wait w polls with
    | none => none
    | some w1 =>
      let r := on_io_recv_copy w1 sz realloc_ok
      some (r.2.emit (.io_recv_returned r.1.1 r.1.2))
  | .io_send buf sz xio_send_ret => some (on_io_send w buf sz xio_send_ret).2
  | .handshake_done => some (on_handshake_done w).2
/-- The engine making a sequence of callbacks during one call into it. -/
def engine_callbacks (w : Run) : List EngineCallback → Option Run
  | [] => some w
  | cb :: rest =>
    match engine_callback w cb with
    | none => none
    | some w1 => engine_callbacks w1 rest
end

/-- Lines 327-379: the read bridge, the wait loop followed by the copy. -/
def on_io_recv (w : Run) (sz : Int) (polls : List (List TransportEvent)) (realloc_ok : Bool) :
    Option ((Int × List Byte) × Run) :=
  match on_io_recv_wait w polls with
  | none => none
  | some w1 => some (on_io_recv_copy w1 sz realloc_ok)

/-! ## Engine-session construction (lines 419-522) -/

/-- What the engine answers during the construction of a session. -/
structure EngineSetup where
  wolfSSL_CTX_load_verify_buffer : Int
  wolfSSL_new : Nat
  wolfSSL_use_certificate_chain_buffer : Int
  wolfSSL_use_PrivateKey_buffer : Int
  deriving DecidableEq, Repr

def add_certificate_to_store (w : Run) (res : Int) : Int × Run :=
  match w.tls.certificate with
  | some certificate =>
    let w1 := w.emit (.wolfSSL_CTX_load_verify_buffer w.tls.ssl_context certificate)
    if res ≠ SSL_SUCCESS then (FAILURE 428, w1) else (0, w1)
  | none => (0, w)

/-- Lines 442-468, `HAVE_SECURE_RENEGOTIATION` not defined. -/
def x509_wolfssl_add_credentials (w : Run) (ssl : Nat) (x509certificate x509privatekey : String)
    (o : EngineSetup) : Int × Run :=
  let w1 := w.emit (.wolfSSL_use_certificate_chain_buffer ssl x509certificate)
  if o.wolfSSL_use_certificate_chain_buffer ≠ SSL_SUCCESS then (FAILURE 449, w1)
  else
    let w2 := w1.emit (.wolfSSL_use_PrivateKey_buffer ssl x509privatekey)
    if o.wolfSSL_use_PrivateKey_buffer ≠ SSL_SUCCESS then (FAILURE 454, w2)
    else (0, w2)

def destroy_wolfssl_instance (w : Run) : Run :=
  let w1 := w.emit (.wolfSSL_free w.tls.ssl)
  { w1 with tls := { w1.tls with ssl := 0 } }

/-- Lines 476-522.  The calls that only register the bridge with the engine (lines 509-514)
leave no entry in the trace. -/
def create_wolfssl_instance (w : Run) (o : EngineSetup) : Int × Run :=
  let r := add_certificate_to_store w o.wolfSSL_CTX_load_verify_buffer
  if r.1 ≠ 0 then (FAILURE 483, r.2)
  else
    let w1 := r.2.emit (.wolfSSL_new r.2.tls.ssl_context)
    let w2 : Run := { w1 with tls := { w1.tls with ssl := o.wolfSSL_new } }
    if w2.tls.ssl = 0 then (FAILURE 491, w2)
    else
      let c : Bool × Run :=
        match w2.tls.x509certificate, w2.tls.x509privatekey with
        | some x509certificate, some x509privatekey =>
          let a := x509_wolfssl_add_credentials w2 w2.tls.ssl x509certificate x509privatekey o
          (decide (a.1 ≠ 0), a.2)
        | _, _ => (false, w2)
      if c.1 then (FAILURE 500, destroy_wolfssl_instance c.2)
      else
        (0, { c.2 with tls := { c.2.tls with
          socket_io_read_bytes := none
          socket_io_read_byte_count := 0
          on_send_complete := 0
          on_send_complete_callback_context := 0
          tlsio_state := TLSIO_STATE_NOT_OPEN } })

/-! ## The interface functions (lines 536-895) -/

/-- The creation parameters (`tlsio.h`). -/
structure TLSIO_CONFIG where
  hostname : Option String
  port : Int
  underlying_io_interface : Nat
  underlying_io_parameters : Nat
  deriving DecidableEq, Repr

/-- What the allocator, the engine and the transport layer answer during `create`. -/
structure CreateSetup where
  malloc_ok : Bool
  wolfSSL_CTX_new : Nat
  socketio_get_interface_description : Nat
  xio_create : Nat
  deriving DecidableEq, Repr

/-- Lines 536-633: `none` is the `NULL` result. -/
def tlsio_wolfssl_create (io_create_parameters : Option TLSIO_CONFIG) (o : CreateSetup) :
    Option Run :=
  match io_create_parameters with
  | none => none
  | some tls_io_config =>
    if ¬ o.malloc_ok then none
    else if o.wolfSSL_CTX_new = 0 then none
    else
      let underlying_io_interface :=
        if tls_io_config.underlying_io_interface ≠ 0 then tls_io_config.underlying_io_interface
        else o.socketio_get_interface_description
      if underlying_io_interface = 0 then none
      else if o.xio_create = 0 then none
      else
        some
          { tls :=
              { socket_io := o.xio_create
                on_bytes_received := 0
                on_io_open_complete := 0
                on_io_close_complete := 0
                on_io_error := 0
                on_bytes_received_context := 0
                on_io_open_complete_context := 0
                on_io_close_complete_context := 0
                on_io_error_context := 0
                ssl := 0
                ssl_context := o.wolfSSL_CTX_new
                tlsio_state := TLSIO_STATE_NOT_OPEN
                socket_io_read_bytes := none
                socket_io_read_byte_count := 0
                on_send_complete := 0
                on_send_complete_callback_context := 0
                certificate := none
                x509certificate := none
                x509privatekey := none }
            trace := [] }

/-- Lines 635-667: the contents of the record when it is freed, and the calls made. -/
def tlsio_wolfssl_destroy (w : Run) : Run :=
  let w1 : Run := { w with tls := { w.tls with
    socket_io_read_bytes := none
    certificate := none
    x509certificate := none
    x509privatekey := none } }
  let w2 := w1.emit (.wolfSSL_CTX_free w1.tls.ssl_context)
  let w3 : Run := { w2 with tls := { w2.tls with ssl_context := 0 } }
  w3.emit (.xio_destroy w3.tls.socket_io)

/-- Lines 689-698 of `tlsio_wolfssl_open`: the callbacks are stored and the state set. -/
def open_register (w : Run)
    (on_io_open_complete on_io_open_complete_context on_bytes_received
      on_bytes_received_context on_io_error on_io_error_context : Nat) : Run :=
  { w with tls := { w.tls with
    on_bytes_received := on_bytes_received
    on_bytes_received_context := on_bytes_received_context
    on_io_open_complete := on_io_open_complete
    on_io_open_complete_context := on_io_open_complete_context
    on_io_error := on_io_error
    on_io_error_context := on_io_error_context
    tlsio_state := TLSIO_STATE_OPENING_UNDERLYING_IO } }

/-- Lines 669-729.  `xio_open_events` is what the transport delivers before `xio_open`
returns, `xio_open_ret` what it returns. -/
def tlsio_wolfssl_open (w : Run)
    (on_io_open_complete on_io_open_complete_context on_bytes_received
      on_bytes_received_context on_io_error on_io_error_context : Nat)
    (o : EngineSetup) (xio_open_events : List TransportEvent) (xio_open_ret : Int) :
    Option (Int × Run) :=
  if w.tls.tlsio_state ≠ TLSIO_STATE_NOT_OPEN then some (FAILURE 685, w)
  else
    let w1 := open_register w on_io_open_complete on_io_open_complete_context
      on_bytes_received on_bytes_received_context on_io_error on_io_error_context
    let c := create_wolfssl_instance w1 o
    if c.1 ≠ 0 then some (FAILURE 704, c.2.setState TLSIO_STATE_NOT_OPEN)
    else
      match transport_events (c.2.emit (.xio_open c.2.tls.socket_io)) xio_open_events with
      | none => none
      | some w2 =>
        if xio_open_ret ≠ 0 then some (FAILURE 710, w2.setState TLSIO_STATE_NOT_OPEN)
        else if w2.tls.tlsio_state ≠ TLSIO_STATE_OPEN then some (FAILURE 718, w2)
        else some (0, w2)

/-- Lines 752-754 of `tlsio_wolfssl_close`: the state is set and the callback stored. -/
def close_register (w : Run) (on_io_close_complete callback_context : Nat) : Run :=
  { w with tls := { w.tls with
    tlsio_state := TLSIO_STATE_CLOSING
    on_io_close_complete := on_io_close_complete
    on_io_close_complete_context := callback_context } }

/-- Lines 731-770.  `xio_close_events` is what the transport delivers before `xio_close`
returns, `xio_close_ret` what it returns. -/
def tlsio_wolfssl_close (w : Run) (on_io_close_complete callback_context : Nat)
    (xio_close_events : List TransportEvent) (xio_close_ret : Int) : Option (Int × Run) :=
  if w.tls.tlsio_state = TLSIO_STATE_NOT_OPEN ∨ w.tls.tlsio_state = TLSIO_STATE_CLOSING then
    some (FAILURE 748, w)
  else
    let w1 := close_register w on_io_close_complete callback_context
    match transport_events (w1.emit (.xio_close w1.tls.socket_io)) xio_close_events with
    | none => none
    | some w2 =>
      if xio_close_ret ≠ 0 then some (FAILURE 759, w2)
      else some (0, destroy_wolfssl_instance w2)

/-- Lines 792-795 of `tlsio_wolfssl_send`: the callback is stored and `wolfSSL_write`
called. -/
def send_register (w : Run) (buffer : List Byte) (size : Nat)
    (on_send_complete callback_context : Nat) : Run :=
  let w1 : Run := { w with tls := { w.tls with
    on_send_complete := on_send_complete
    on_send_complete_callback_context := callback_context } }
  w1.emit (.wolfSSL_write w1.tls.ssl buffer (toInt size))

/-- Lines 772-809.  `write` is what `wolfSSL_write` does. -/
def tlsio_wolfssl_send (w : Run) (buffer : List Byte) (size : Nat)
    (on_send_complete callback_context : Nat) : EngineCall → Option (Int × Run)
  | .mk callbacks res =>
    if w.tls.tlsio_state ≠ TLSIO_STATE_OPEN then some (FAILURE 788, w)
    else
      match engine_callbacks (send_register w buffer size on_send_complete callback_context)
          callbacks with
      | none => none
      | some w2 =>
        if res < 0 ∨ res.toNat ≠ size then some (FAILURE 799, w2)
        else some (0, w2)

/-- Lines 217-236.  Each element of `reads` is one `wolfSSL_read`: what the engine does and
the bytes it leaves in the 64-byte `buffer`. -/
def decode_ssl_received_bytes (w : Run) : List (EngineCall × List Byte) → Option (Int × Run)
  | [] => none
  | (.mk callbacks rcv_bytes, buffer) :: reads =>
    match engine_callbacks (w.emit (.wolfSSL_read w.tls.ssl 64)) callbacks with
    | none => none
    | some w1 =>
      if rcv_bytes > 0 then
        let w2 :=
          if w1.tls.on_bytes_received ≠ 0 then
            w1.emit (.on_bytes_received w1.tls.on_bytes_received
              w1.tls.on_bytes_received_context (buffer.take rcv_bytes.toNat))
          else w1
        decode_ssl_received_bytes w2 reads
      else some (0, w1)

/-- Lines 811-828.  `poll` is what the transport delivers during `xio_dowork`. -/
def tlsio_wolfssl_dowork (w : Run) (reads : List (EngineCall × List Byte))
    (poll : List TransportEvent) : Option Run :=
  if w.tls.tlsio_state ≠ TLSIO_STATE_NOT_OPEN ∧ w.tls.tlsio_state ≠ TLSIO_STATE_ERROR then
    match decode_ssl_received_bytes w reads with
    | none => none
    | some r => transport_events (r.2.emit (.xio_dowork r.2.tls.socket_io)) poll
  else some w

/-- Modelled from the spec: the string copy `mallocAndStrcpy_s` of `crt_abstractions.h`,
which is not among the sources ("each value is deep-copied on set").  It fails on a `NULL`
source and when the allocation fails, and then leaves the destination alone; `none` is that
failure. -/
def mallocAndStrcpy_s (source : Option String) (malloc_ok : Bool) : Option String :=
  match source with
  | none => none
  | some s => if malloc_ok then some s else none

/-- Lines 835-853: the result and the new value of `*destination`. -/
def process_option (destination : Option String) (value : Option String) (malloc_ok : Bool) :
    Int × Option String :=
  let destination : Option String := if destination ≠ none then none else destination
  match mallocAndStrcpy_s value malloc_ok with
  | none => (FAILURE 846, destination)
  | some copy => (0, some copy)

/-- Lines 855-895.  `malloc_ok` tells whether the copy's allocation succeeds,
`xio_setoption_ret` what the transport's option handler returns. -/
def tlsio_wolfssl_setoption (w : Run) (optionName : Option String) (value : Option String)
    (malloc_ok : Bool) (xio_setoption_ret : Int) : Int × Run :=
  match optionName with
  | none => (FAILURE 862, w)
  | some optionName =>
    if OPTION_TRUSTED_CERT = optionName then
      let r := process_option w.tls.certificate value malloc_ok
      (r.1, { w with tls := { w.tls with certificate := r.2 } })
    else if SU_OPTION_X509_CERT = optionName ∨ OPTION_X509_ECC_CERT = optionName then
      let r := process_option w.tls.x509certificate value malloc_ok
      (r.1, { w with tls := { w.tls with x509certificate := r.2 } })
    else if SU_OPTION_X509_PRIVATE_KEY = optionName ∨ OPTION_X509_ECC_KEY = optionName then
      let r := process_option w.tls.x509privatekey value malloc_ok
      (r.1, { w with tls := { w.tls with x509privatekey := r.2 } })
    else if w.tls.socket_io = 0 then (FAILURE 885, w)
    else (xio_setoption_ret, w.emit (.xio_setoption w.tls.socket_io optionName value))

/-- Lines 53-106: the clone of an option of this layer; `none` is the `NULL` result. -/
def tlsio_wolfssl_CloneOption (name value : Option String) (malloc_ok : Bool) : Option String :=
  match name, value with
  | some name, some value =>
    if name = "TrustedCerts" then mallocAndStrcpy_s (some value) malloc_ok
    else if name = SU_OPTION_X509_CERT then mallocAndStrcpy_s (some value) malloc_ok
    else if name = SU_OPTION_X509_PRIVATE_KEY then mallocAndStrcpy_s (some value) malloc_ok
    else none
  | _, _ => none

/-- Modelled from the spec: the option handler of `optionhandler.h`, which is not among the
sources.  "Options may be retrieved ... as a name→value mapping": the handler is the list of
the name-value pairs added so far. -/
abbrev OPTIONHANDLER := List (String × String)

/-- Modelled from the spec: `OptionHandler_AddOption` of `optionhandler.h` copies the value
with the clone function the handler was created with (`tlsio_wolfssl_CloneOption`, line 141)
and adds the pair to the mapping; when the clone fails it returns non-zero and leaves the
mapping as it was. -/
def OptionHandler_AddOption (handler : OPTIONHANDLER) (name value : String) (malloc_ok : Bool) :
    Int × OPTIONHANDLER :=
  match tlsio_wolfssl_CloneOption (some name) (some value) malloc_ok with
  | none => (1, handler)
  | some copy => (0, handler ++ [(name, copy)])

/-- What the allocator answers during `tlsio_wolfssl_retrieveoptions`: whether the handler
can be created and whether each of the three copies can be made. -/
structure RetrieveSetup where
  OptionHandler_Create_ok : Bool
  x509certificate_malloc_ok : Bool
  x509privatekey_malloc_ok : Bool
  certificate_malloc_ok : Bool
  deriving DecidableEq, Repr

/-- Lines 131-187: `none` is the `NULL` result. -/
def tlsio_wolfssl_retrieveoptions (w : Run) (o : RetrieveSetup) : Option OPTIONHANDLER :=
  if ¬ o.OptionHandler_Create_ok then none
  else
    let result : OPTIONHANDLER := []
    let a : Int × OPTIONHANDLER :=
      match w.tls.x509certificate with
      | some x509certificate =>
        OptionHandler_AddOption result SU_OPTION_X509_CERT x509certificate
          o.x509certificate_malloc_ok
      | none => (0, result)
    if a.1 ≠ 0 then none
    else
      let b : Int × OPTIONHANDLER :=
        match w.tls.x509privatekey with
        | some x509privatekey =>
          OptionHandler_AddOption a.2 SU_OPTION_X509_PRIVATE_KEY x509privatekey
            o.x509privatekey_malloc_ok
        | none => (0, a.2)
      if b.1 ≠ 0 then none
      else
        let c : Int × OPTIONHANDLER :=
          match w.tls.certificate with
          | some certificate =>
            OptionHandler_AddOption b.2 "TrustedCerts" certificate o.certificate_malloc_ok
          | none => (0, b.2)
        if c.1 ≠ 0 then none
        else some c.2

/-! ## An open-complete callback that calls the adapter before it returns -/

/-- `indicate_open_complete` (lines 209-215) when the registered callback calls interface
functions of the adapter before it returns: `callback` is what these calls make of the
session the callback is invoked in. -/
def indicate_open_complete_reentrant (w : Run) (open_result : IO_OPEN_RESULT)
    (callback : Run → Option Run) : Option Run :=
  if w.tls.on_io_open_complete ≠ 0 then
    callback (w.emit (.on_io_open_complete w.tls.on_io_open_complete
      w.tls.on_io_open_complete_context open_result))
  else some w

/-- Lines 238-261 with such a callback. -/
def on_underlying_io_open_complete_reentrant (w : Run) (open_result : IO_OPEN_RESULT)
    (callback : Run → Option Run) : EngineCall → Option Run
  | .mk callbacks res =>
    if open_result ≠ IO_OPEN_OK then
      indicate_open_complete_reentrant (w.setState TLSIO_STATE_ERROR) IO_OPEN_ERROR callback
    else
      let w1 := (w.setState TLSIO_STATE_IN_HANDSHAKE).emit (.wolfSSL_connect w.tls.ssl)
      match engine_callbacks w1 callbacks with
      | none => none
      | some w2 =>
        if res ≠ SSL_SUCCESS then
          match indicate_open_complete_reentrant w2 IO_OPEN_ERROR callback with
          | none => none
          | some w3 => some (w3.setState TLSIO_STATE_ERROR)
        else some w2

/-- Lines 669-729 with such a callback, over a transport that delivers the open completion
(and nothing else) before `xio_open` returns. -/
def tlsio_wolfssl_open_reentrant (w : Run)
    (on_io_open_complete on_io_open_complete_context on_bytes_received
      on_bytes_received_context on_io_error on_io_error_context : Nat)
    (o : EngineSetup) (open_result : IO_OPEN_RESULT) (connect : EngineCall)
    (callback : Run → Option Run) (xio_open_ret : Int) : Option (Int × Run) :=
  if w.tls.tlsio_state ≠ TLSIO_STATE_NOT_OPEN then some (FAILURE 685, w)
  else
    let w1 := open_register w on_io_open_complete on_io_open_complete_context
      on_bytes_received on_bytes_received_context on_io_error on_io_error_context
    let c := create_wolfssl_instance w1 o
    if c.1 ≠ 0 then some (FAILURE 704, c.2.setState TLSIO_STATE_NOT_OPEN)
    else
      match on_underlying_io_open_complete_reentrant (c.2.emit (.xio_open c.2.tls.socket_io))
          open_result callback connect with
      | none => none
      | some w2 =>
        if xio_open_ret ≠ 0 then some (FAILURE 710, w2.setState TLSIO_STATE_NOT_OPEN)
        else if w2.tls.tlsio_state ≠ TLSIO_STATE_OPEN then some (FAILURE 718, w2)
        else some (0, w2)

/-! ## Vocabulary of the properties -/

/-- A property of runs that every step of the event handlers keeps: the steps are the
straight-line pieces the handlers and the dispatchers `transport_event`,
`on_io_recv_wait` and `engine_callback` are made of. -/
structure Preserved (P : Run → Prop) : Prop where
  open_failed : ∀ w, P w →
    P (indicate_open_complete (w.setState TLSIO_STATE_ERROR) IO_OPEN_ERROR)
  connect_call : ∀ w, P w →
    P ((w.setState TLSIO_STATE_IN_HANDSHAKE).emit (.wolfSSL_connect w.tls.ssl))
  connect_failed : ∀ w, P w →
    P ((indicate_open_complete w IO_OPEN_ERROR).setState TLSIO_STATE_ERROR)
  bytes_received : ∀ w b ok, P w →
    P (on_underlying_io_bytes_received (w.emit (.delivered b ok)) b ok)
  error : ∀ w, P w → P (on_underlying_io_error w)
  close_complete : ∀ w, P w → P (on_underlying_io_close_complete w)
  poll : ∀ w, P w → P (w.emit (.xio_dowork w.tls.socket_io))
  io_recv : ∀ w sz ok, P w →
    P ((on_io_recv_copy w sz ok).2.emit
      (.io_recv_returned (on_io_recv_copy w sz ok).1.1 (on_io_recv_copy w sz ok).1.2))
  io_send : ∀ w buf sz ret, P w → P (on_io_send w buf sz ret).2
  handshake_done : ∀ w, P w → P (on_handshake_done w).2

/-- The session with the fields the event handlers write (state, block, count) blanked:
what is left are the handles, callbacks, contexts and credentials. -/
def TLS_IO_INSTANCE.config (t : TLS_IO_INSTANCE) : TLS_IO_INSTANCE :=
  { t with
    tlsio_state := TLSIO_STATE_NOT_OPEN
    socket_io_read_bytes := none
    socket_io_read_byte_count := 0 }

/-- The block is at least as long as the count says. -/
def TLS_IO_INSTANCE.wellFormed (t : TLS_IO_INSTANCE) : Prop :=
  t.socket_io_read_byte_count ≤ (t.socket_io_read_bytes.getD []).length

/-- The bytes an entry of the trace hands to the engine through the read bridge. -/
def Effect.drainedBytes : Effect → List Byte
  | .io_recv_returned _ buf => buf
  | _ => []

/-- The bytes an entry of the trace adds to the receive buffer. -/
def Effect.storedBytes : Effect → List Byte
  | .delivered chunk true => chunk
  | _ => []

/-- All bytes the read bridge has returned, in order. -/
def drained (trace : List Effect) : List Byte := (trace.map Effect.drainedBytes).flatten

/-- All bytes of the chunks delivered with a successful growth of the block, in order. -/
def stored (trace : List Effect) : List Byte := (trace.map Effect.storedBytes).flatten

/-- The receive buffer is a lossless queue between the deliveries and the reads. -/
structure Fifo (w : Run) : Prop where
  wellFormed : w.tls.wellFormed
  lossless : drained w.trace ++ w.tls.buffered = stored w.trace

/-- The step from `w` to `w'` touches neither the buffer nor the bytes the trace accounts
for. -/
structure Quiet (w w' : Run) : Prop where
  bytes : w'.tls.socket_io_read_bytes = w.tls.socket_io_read_bytes
  count : w'.tls.socket_io_read_byte_count = w.tls.socket_io_read_byte_count
  drained : drained w'.trace = drained w.trace
  stored : stored w'.trace = stored w.trace

/-- The step from `w` to `w'` leaves the receive buffer (block and count) as it was. -/
def sameBuffer (w w' : Run) : Prop :=
  w'.tls.socket_io_read_bytes = w.tls.socket_io_read_bytes
  ∧ w'.tls.socket_io_read_byte_count = w.tls.socket_io_read_byte_count

/-- Whether an entry of the trace is a call of the transport's close. -/
def Effect.isXioClose : Effect → Bool
  | .xio_close _ => true
  | _ => false

/-- The number of calls of the transport's close in a trace. -/
def xio_close_calls (trace : List Effect) : Nat := (trace.filter Effect.isXioClose).length

/-- Something the environment does to the adapter on its own: the transport delivers an
event, or the engine makes a callback. -/
inductive Stimulus where
  | transport (e : TransportEvent)
  | engine (cb : EngineCallback)

/-- The adapter handling one stimulus. -/
def stimulus (w : Run) : Stimulus → Option Run
  | .transport e => transport_event w e
  | .engine cb => engine_callback w cb

/-- The adapter handling a sequence of stimuli, one after the other. -/
def stimuli (w : Run) : List Stimulus → Option Run
  | [] => some w
  | s :: rest =>
    match stimulus w s with
    | none => none
    | some w1 => stimuli w1 rest

/-- One step of a session's life: a call of an interface function, or a stimulus. -/
inductive Step : Run → Run → Prop where
  | open (w w' : Run) (r : Int) (on_io_open_complete on_io_open_complete_context
      on_bytes_received on_bytes_received_context on_io_error on_io_error_context : Nat)
      (o : EngineSetup) (xio_open_events : List TransportEvent) (xio_open_ret : Int) :
      tlsio_wolfssl_open w on_io_open_complete on_io_open_complete_context on_bytes_received
        on_bytes_received_context on_io_error on_io_error_context o xio_open_events
        xio_open_ret = some (r, w') → Step w w'
  | close (w w' : Run) (r : Int) (on_io_close_complete callback_context : Nat)
      (xio_close_events : List TransportEvent) (xio_close_ret : Int) :
      tlsio_wolfssl_close w on_io_close_complete callback_context xio_close_events
        xio_close_ret = some (r, w') → Step w w'
  | send (w w' : Run) (r : Int) (buffer : List Byte) (size : Nat)
      (on_send_complete callback_context : Nat) (write : EngineCall) :
      tlsio_wolfssl_send w buffer size on_send_complete callback_context write = some (r, w') →
      Step w w'
  | dowork (w w' : Run) (reads : List (EngineCall × List Byte)) (poll : List TransportEvent) :
      tlsio_wolfssl_dowork w reads poll = some w' → Step w w'
  | setoption (w w' : Run) (r : Int) (optionName value : Option String) (malloc_ok : Bool)
      (xio_setoption_ret : Int) :
      tlsio_wolfssl_setoption w optionName value malloc_ok xio_setoption_ret = (r, w') →
      Step w w'
  | stimulus (w w' : Run) (s : Stimulus) : stimulus w s = some w' → Step w w'

/-- The session states reachable from `tlsio_wolfssl_create`. -/
inductive Reachable : Run → Prop where
  | create (p : Option TLSIO_CONFIG) (o : CreateSetup) (w : Run) :
      tlsio_wolfssl_create p o = some w → Reachable w
  | step (w w' : Run) : Reachable w → Step w w' → Reachable w'

/-- The engine write of the unit-test mock `my_SSL_write` (`ssl_errors.h`, lines 75-97):
a hard failure (`SSL_ERROR__plus__HARD_FAIL`, -4) for a request of
`SSL_FAIL_ME_MESSAGE_SIZE` (1700) bytes, otherwise at most `SSL_WRITE_MAX_TEST_SIZE` (60)
bytes accepted. -/
def my_SSL_write (size : Nat) : Int :=
  if size = 1700 then -4
  else if size > 60 then 60
  else (size : Int)

/-- A call a trace of a session is made of: an interface function with its arguments and
the answers of the environment, or a stimulus. -/
inductive Call where
  | open (on_io_open_complete on_io_open_complete_context on_bytes_received
      on_bytes_received_context on_io_error on_io_error_context : Nat)
      (o : EngineSetup) (xio_open_events : List TransportEvent) (xio_open_ret : Int)
  | close (on_io_close_complete callback_context : Nat)
      (xio_close_events : List TransportEvent) (xio_close_ret : Int)
  | send (buffer : List Byte) (size : Nat) (on_send_complete callback_context : Nat)
      (write : EngineCall)
  | dowork (reads : List (EngineCall × List Byte)) (poll : List TransportEvent)
  | setoption (optionName value : Option String) (malloc_ok : Bool) (xio_setoption_ret : Int)
  | stimulus (s : Stimulus)

/-- The session making one call: the value the call returns (if it returns one) and the
session after it. -/
def call (w : Run) : Call → Option (Option Int × Run)
  | .open a b c d e f o evs ret =>
    (tlsio_wolfssl_open w a b c d e f o evs ret).map fun r => (some r.1, r.2)
  | .close cb ctx evs ret =>
    (tlsio_wolfssl_close w cb ctx evs ret).map fun r => (some r.1, r.2)
  | .send buffer size cb ctx write =>
    (tlsio_wolfssl_send w buffer size cb ctx write).map fun r => (some r.1, r.2)
  | .dowork reads poll => (tlsio_wolfssl_dowork w reads poll).map fun w' => (none, w')
  | .setoption optionName value malloc_ok ret =>
    some (some (tlsio_wolfssl_setoption w optionName value malloc_ok ret).1,
      (tlsio_wolfssl_setoption w optionName value malloc_ok ret).2)
  | .stimulus s => (stimulus w s).map fun w' => (none, w')

/-- The session making a sequence of calls: the values returned and the session at the
end. -/
def calls (w : Run) : List Call → Option (List (Option Int) × Run)
  | [] => some ([], w)
  | c :: rest =>
    match call w c with
    | none => none
    | some r =>
      match calls r.2 rest with
      | none => none
      | some rs => some (r.1 :: rs.1, rs.2)

/-- Whether an entry of the trace is an invocation of the open-complete callback. -/
def Effect.isOnOpen : Effect → Bool
  | .on_io_open_complete _ _ _ => true
  | _ => false

/-- The number of invocations of the open-complete callback in a trace. -/
def on_open_calls (trace : List Effect) : Nat := (trace.filter Effect.isOnOpen).length

/-- Whether an entry of the trace is one of the calls engine-session construction makes. -/
def Effect.isEngineSetup : Effect → Bool
  | .wolfSSL_CTX_load_verify_buffer _ _ => true
  | .wolfSSL_new _ => true
  | .wolfSSL_use_certificate_chain_buffer _ _ => true
  | .wolfSSL_use_PrivateKey_buffer _ _ => true
  | .wolfSSL_free _ => true
  | _ => false

/-- Whether an entry of the trace is one the event handlers and the bridge can add. -/
def Effect.fromHandler : Effect → Bool
  | .on_io_open_complete _ _ _ => true
  | .on_io_error _ _ => true
  | .on_io_close_complete _ _ => true
  | .wolfSSL_connect _ => true
  | .xio_dowork _ => true
  | .xio_send _ _ _ _ _ => true
  | .delivered _ _ => true
  | .io_recv_returned _ _ => true
  | _ => false

/-- Whether an entry of the trace is a call of the engine's read or an invocation of the
receive callback. -/
def Effect.isReadOrReceive : Effect → Bool
  | .wolfSSL_read _ _ => true
  | .on_bytes_received _ _ _ => true
  | _ => false

/-- The value an engine call returns. -/
def EngineCall.ret : EngineCall → Int
  | .mk _ ret => ret

/-- The bridge callbacks an engine call makes. -/
def EngineCall.callbacks : EngineCall → List EngineCallback
  | .mk callbacks _ => callbacks

/-- The calls of the engine's read and the invocations of the receive callback that
draining the reads `reads`, all of them with a positive result, consists of. -/
def decode_trace (t : TLS_IO_INSTANCE) : List (EngineCall × List Byte) → List Effect
  | [] => []
  | (read, buffer) :: reads =>
    Effect.wolfSSL_read t.ssl 64
      :: ((if t.on_bytes_received ≠ 0 then
            [Effect.on_bytes_received t.on_bytes_received t.on_bytes_received_context
              (buffer.take read.ret.toNat)]
          else []) ++ decode_trace t reads)

/-- The three credentials of the option store. -/
inductive Credential where
  | trusted_certificate
  | client_certificate
  | client_private_key
  deriving DecidableEq, Repr

/-- The option names `tlsio_wolfssl_setoption` accepts for a credential. -/
def Credential.names : Credential → List String
  | .trusted_certificate => [OPTION_TRUSTED_CERT]
  | .client_certificate => [SU_OPTION_X509_CERT, OPTION_X509_ECC_CERT]
  | .client_private_key => [SU_OPTION_X509_PRIVATE_KEY, OPTION_X509_ECC_KEY]

/-- The option name `tlsio_wolfssl_retrieveoptions` saves a credential under. -/
def Credential.canonical : Credential → String
  | .trusted_certificate => "TrustedCerts"
  | .client_certificate => SU_OPTION_X509_CERT
  | .client_private_key => SU_OPTION_X509_PRIVATE_KEY

/-- The field of the session a credential is stored in. -/
def Credential.field : Credential → TLS_IO_INSTANCE → Option String
  | .trusted_certificate, t => t.certificate
  | .client_certificate, t => t.x509certificate
  | .client_private_key, t => t.x509privatekey

/-- Whether a call is a `tlsio_wolfssl_setoption` naming the credential. -/
def Call.sets (k : Credential) : Call → Bool
  | .setoption (some optionName) _ _ _ => decide (optionName ∈ k.names)
  | _ => false

/-- Whether a call is a transport error event, a send or a dowork. -/
def Call.isErrorSendOrDowork : Call → Bool
  | .stimulus (.transport .error) => true
  | .send _ _ _ _ _ => true
  | .dowork _ _ => true
  | _ => false

/-- The value a call that is a transport error event, a send or a dowork returns once the
session is in `ERROR`. -/
def Call.silencedResult : Call → Option Int
  | .send _ _ _ _ _ => some (FAILURE 788)
  | _ => none

/-- The trace `tr'` continues the trace `tr` with calls of engine-session construction
only. -/
def SetupOnly (tr tr' : List Effect) : Prop :=
  ∃ es : List Effect, tr' = tr ++ es ∧ ∀ e ∈ es, e.isEngineSetup = true

/-- Loading the trusted certificate into the engine fails. -/
def trustedCertificateFails (t : TLS_IO_INSTANCE) (o : EngineSetup) : Prop :=
  t.certificate ≠ none ∧ o.wolfSSL_CTX_load_verify_buffer ≠ SSL_SUCCESS

/-- Loading the client certificate fails, or loading the client private key fails after
the certificate was loaded; both are attempted only when both options are set. -/
def clientCredentialsFail (t : TLS_IO_INSTANCE) (o : EngineSetup) : Prop :=
  t.x509certificate ≠ none ∧ t.x509privatekey ≠ none
  ∧ (o.wolfSSL_use_certificate_chain_buffer ≠ SSL_SUCCESS
    ∨ o.wolfSSL_use_PrivateKey_buffer ≠ SSL_SUCCESS)

/-- The three stored credentials of a session. -/
def TLS_IO_INSTANCE.credentials (t : TLS_IO_INSTANCE) :
    Option String × Option String × Option String :=
  (t.certificate, t.x509certificate, t.x509privatekey)

/-- The entry `tlsio_wolfssl_retrieveoptions` saves for a credential: none when it is not
set. -/
def Credential.entry (k : Credential) (t : TLS_IO_INSTANCE) : List (String × String) :=
  match k.field t with
  | some value => [(k.canonical, value)]
  | none => []

/-- An allocator that never fails during `tlsio_wolfssl_retrieveoptions`. -/
def allCopiesSucceed : RetrieveSetup :=
  { OptionHandler_Create_ok := true
    x509certificate_malloc_ok := true
    x509privatekey_malloc_ok := true
    certificate_malloc_ok := true }

/-- The session with the field of a credential replaced. -/
def Credential.store : Credential → TLS_IO_INSTANCE → Option String → TLS_IO_INSTANCE
  | .trusted_certificate, t, x => { t with certificate := x }
  | .client_certificate, t, x => { t with x509certificate := x }
  | .client_private_key, t, x => { t with x509privatekey := x }

/-- Whether an entry of the trace is an attempt to load a client credential into the
engine session. -/
def Effect.isClientLoad : Effect → Bool
  | .wolfSSL_use_certificate_chain_buffer _ _ => true
  | .wolfSSL_use_PrivateKey_buffer _ _ => true
  | _ => false

/-- The run with the two client credentials replaced. -/
def Run.setClient (w : Run) (x509certificate x509privatekey : Option String) : Run :=
  { w with tls := { w.tls with
    x509certificate := x509certificate
    x509privatekey := x509privatekey } }

mutual
/-- Whether the engine never makes the handshake callback in what an event sets off. -/
def TransportEvent.handshakeFree : TransportEvent → Bool
  | .open_complete _ connect => connect.handshakeFree
  | .bytes_received _ _ => true
  | .error => true
  | .close_complete => true
/-- Whether the engine never makes the handshake callback during an engine call. -/
def EngineCall.handshakeFree : EngineCall → Bool
  | .mk callbacks _ => handshakeFreeCallbacks callbacks
/-- Whether a callback is not the handshake callback and sets none off. -/
def EngineCallback.handshakeFree : EngineCallback → Bool
  | .io_recv _ polls _ => handshakeFreePolls polls
  | .io_send _ _ _ => true
  | .handshake_done => false
/-- Whether a sequence of callbacks is free of the handshake callback. -/
def handshakeFreeCallbacks : List EngineCallback → Bool
  | [] => true
  | cb :: rest => cb.handshakeFree && handshakeFreeCallbacks rest
/-- Whether the polls of a wait loop are free of the handshake callback. -/
def handshakeFreePolls : List (List TransportEvent) → Bool
  | [] => true
  | events :: polls => handshakeFreeEvents events && handshakeFreePolls polls
/-- Whether a sequence of events is free of the handshake callback. -/
def handshakeFreeEvents : List TransportEvent → Bool
  | [] => true
  | e :: rest => e.handshakeFree && handshakeFreeEvents rest
end

/-- Whether the reads of a dowork are free of the handshake callback. -/
def handshakeFreeReads : List (EngineCall × List Byte) → Bool
  | [] => true
  | r :: reads => r.1.handshakeFree && handshakeFreeReads reads

/-- Whether the engine never makes the handshake callback during a call. -/
def Call.handshakeFree : Call → Bool
  | .open _ _ _ _ _ _ _ xio_open_events _ => handshakeFreeEvents xio_open_events
  | .close _ _ xio_close_events _ => handshakeFreeEvents xio_close_events
  | .send _ _ _ _ write => write.handshakeFree
  | .dowork reads poll => handshakeFreeReads reads && handshakeFreeEvents poll
  | .setoption _ _ _ _ => true
  | .stimulus (.transport e) => e.handshakeFree
  | .stimulus (.engine cb) => cb.handshakeFree

/-! ## Sample sessions -/

/-- A session as `tlsio_wolfssl_create` returns it. -/
def createdRun : Run :=
  { tls :=
      { socket_io := 9
        on_bytes_received := 0
        on_io_open_complete := 0
        on_io_close_complete := 0
        on_io_error := 0
        on_bytes_received_context := 0
        on_io_open_complete_context := 0
        on_io_close_complete_context := 0
        on_io_error_context := 0
        ssl := 0
        ssl_context := 7
        tlsio_state := TLSIO_STATE_NOT_OPEN
        socket_io_read_bytes := none
        socket_io_read_byte_count := 0
        on_send_complete := 0
        on_send_complete_callback_context := 0
        certificate := none
        x509certificate := none
        x509privatekey := none }
    trace := [] }

/-- An engine that constructs the session (handle 5) and accepts every credential. -/
def goodEngine : EngineSetup :=
  { wolfSSL_CTX_load_verify_buffer := 1
    wolfSSL_new := 5
    wolfSSL_use_certificate_chain_buffer := 1
    wolfSSL_use_PrivateKey_buffer := 1 }

/-- A transport that completes the open before `xio_open` returns, with an engine whose
handshake completes at once. -/
def syncOpenEvents : List TransportEvent :=
  [.open_complete IO_OPEN_OK (.mk [.handshake_done] 1)]

/-- The session `createdRun` after an open (callbacks 11, 13, 15 with contexts 12, 14, 16)
that completed inside `xio_open`. -/
def openRun : Run :=
  { tls := { createdRun.tls with
      on_io_open_complete := 11
      on_io_open_complete_context := 12
      on_bytes_received := 13
      on_bytes_received_context := 14
      on_io_error := 15
      on_io_error_context := 16
      ssl := 5
      tlsio_state := TLSIO_STATE_OPEN }
    trace := [.wolfSSL_new 7, .xio_open 9, .wolfSSL_connect 5,
      .on_io_open_complete 11 12 IO_OPEN_OK] }

/-- The session `createdRun` after an open whose transport has not completed the open when
`xio_open` returns. -/
def pendingRun : Run :=
  { tls := { openRun.tls with tlsio_state := TLSIO_STATE_NOT_OPEN }
    trace := [.wolfSSL_new 7, .xio_open 9] }

/-- The session `openRun` after a close (callback 21, context 22) whose `xio_close`
returned 0. -/
def closedRun : Run :=
  { tls := { openRun.tls with
      on_io_close_complete := 21
      on_io_close_complete_context := 22
      ssl := 0
      tlsio_state := TLSIO_STATE_CLOSING }
    trace := openRun.trace ++ [.xio_close 9, .wolfSSL_free 5] }

/-- The session `openRun` after a close whose `xio_close` returned 1. -/
def closeFailedRun : Run :=
  { tls := { openRun.tls with
      on_io_close_complete := 21
      on_io_close_complete_context := 22
      tlsio_state := TLSIO_STATE_CLOSING }
    trace := openRun.trace ++ [.xio_close 9] }

/-- The session `openRun` after the transport delivered the chunk 1, 2, 3. -/
def filledRun : Run :=
  { tls := { openRun.tls with
      socket_io_read_bytes := some [1, 2, 3]
      socket_io_read_byte_count := 3 }
    trace := openRun.trace ++ [.delivered [1, 2, 3] true] }

/-- The session `filledRun` after the transport reported an error. -/
def errorRun : Run :=
  { tls := { filledRun.tls with tlsio_state := TLSIO_STATE_ERROR }
    trace := filledRun.trace ++ [.on_io_error 15 16] }

/-- The session `createdRun` after an open over a transport that completes the open inside
`xio_open`, the engine's connect returning success without having reported the handshake
done: the state is `IN_HANDSHAKE`. -/
def handshakingRun : Run :=
  { tls := { openRun.tls with tlsio_state := TLSIO_STATE_IN_HANDSHAKE }
    trace := [.wolfSSL_new 7, .xio_open 9, .wolfSSL_connect 5] }

/-- A transport that completes the open inside `xio_open` and reports an error while the
engine's connect waits for bytes in the read bridge; the connect then fails. -/
def errorInHandshakeEvents : List TransportEvent :=
  [.open_complete IO_OPEN_OK (.mk [.io_recv 5 [[.error]] true] (-1))]

/-- The session `createdRun` after an open over `errorInHandshakeEvents`. -/
def doubleReportRun : Run :=
  { tls := { openRun.tls with tlsio_state := TLSIO_STATE_ERROR }
    trace := [.wolfSSL_new 7, .xio_open 9, .wolfSSL_connect 5, .xio_dowork 9,
      .on_io_open_complete 11 12 IO_OPEN_ERROR, .io_recv_returned 0 [],
      .on_io_open_complete 11 12 IO_OPEN_ERROR] }

/-- An engine that refuses the trusted certificate. -/
def badCertificateEngine : EngineSetup :=
  { goodEngine with wolfSSL_CTX_load_verify_buffer := 0 }

/-- The session `createdRun` after the trusted certificate was set and an open whose
transport has not completed the open when `xio_open` returns: the state is `NOT_OPEN` and
the engine session of that open is still there. -/
def pendingCertificateRun : Run :=
  { tls := { pendingRun.tls with certificate := some "pem" }
    trace := [.wolfSSL_CTX_load_verify_buffer 7 "pem", .wolfSSL_new 7, .xio_open 9] }

/-- The session `filledRun` after a send (completion callback 31, context 32) of one byte,
a close whose `xio_close` returned 0, and the close completion of the transport: the bytes
and the send-completion callback of the cycle are still in the record. -/
def leftoverRun : Run :=
  { tls := { filledRun.tls with
      on_io_close_complete := 21
      on_io_close_complete_context := 22
      ssl := 0
      tlsio_state := TLSIO_STATE_NOT_OPEN
      on_send_complete := 31
      on_send_complete_callback_context := 32 }
    trace := filledRun.trace
      ++ [.wolfSSL_write 5 [1] 1, .xio_close 9, .wolfSSL_free 5, .on_io_close_complete 21 22] }

/-! ## Shared lemmas -/

mutual
theorem Preserved.open_complete {P : Run → Prop} (hP : Preserved P) :
    ∀ (c : EngineCall) (w w' : Run) (r : IO_OPEN_RESULT), P w →
      on_underlying_io_open_complete w r c = some w' → P w'
  | .mk cbs res, w, w', r, h, hr => by
    simp only [on_underlying_io_open_complete] at hr
    split at hr
    · cases hr; exact hP.open_failed w h
    · split at hr
      · cases hr
      · rename_i w2 hw2
        have h2 := Preserved.engine_callbacks hP cbs _ w2 (hP.connect_call w h) hw2
        split at hr
        · cases hr; exact hP.connect_failed w2 h2
        · cases hr; exact h2
theorem Preserved.transport_event {P : Run → Prop} (hP : Preserved P) :
    ∀ (e : TransportEvent) (w w' : Run), P w → transport_event w e = some w' → P w'
  | .open_complete r c, w, w', h, hr => by
    simp only [TlsioWolfssl.transport_event] at hr
    exact Preserved.open_complete hP c w w' r h hr
  | .bytes_received b ok, w, w', h, hr => by
    simp only [TlsioWolfssl.transport_event, Option.some.injEq] at hr
    subst hr; exact hP.bytes_received w b ok h
  | .error, w, w', h, hr => by
    simp only [TlsioWolfssl.transport_event, Option.some.injEq] at hr
    subst hr; exact hP.error w h
  | .close_complete, w, w', h, hr => by
    simp only [TlsioWolfssl.transport_event, Option.some.injEq] at hr
    subst hr; exact hP.close_complete w h
theorem Preserved.transport_events {P : Run → Prop} (hP : Preserved P) :
    ∀ (es : List TransportEvent) (w w' : Run), P w → transport_events w es = some w' → P w'
  | [], w, w', h, hr => by
    simp only [TlsioWolfssl.transport_events, Option.some.injEq] at hr
    subst hr; exact h
  | e :: rest, w, w', h, hr => by
    simp only [TlsioWolfssl.transport_events] at hr
    split at hr
    · cases hr
    · rename_i w1 hw1
      exact Preserved.transport_events hP rest w1 w'
        (Preserved.transport_event hP e w w1 h hw1) hr
theorem Preserved.on_io_recv_wait {P : Run → Prop} (hP : Preserved P) :
    ∀ (polls : List (List TransportEvent)) (w w' : Run), P w →
      on_io_recv_wait w polls = some w' → P w'
  | [], w, w', h, hr => by
    simp only [TlsioWolfssl.on_io_recv_wait] at hr
    split at hr
    · cases hr
    · cases hr; exact h
  | es :: polls, w, w', h, hr => by
    simp only [TlsioWolfssl.on_io_recv_wait] at hr
    split at hr
    · split at hr
      · cases hr
      · rename_i w1 hw1
        have h1 := Preserved.transport_events hP es _ w1 (hP.poll w h) hw1
        split at hr
        · cases hr; exact h1
        · exact Preserved.on_io_recv_wait hP polls w1 w' h1 hr
    · cases hr; exact h
theorem Preserved.engine_callback {P : Run → Prop} (hP : Preserved P) :
    ∀ (cb : EngineCallback) (w w' : Run), P w → engine_callback w cb = some w' → P w'
  | .io_recv sz polls ok, w, w', h, hr => by
    simp only [TlsioWolfssl.engine_callback] at hr
    split at hr
    · cases hr
    · rename_i w1 hw1
      have hr := Option.some.inj hr
      subst hr
      exact hP.io_recv w1 sz ok (Preserved.on_io_recv_wait hP polls w w1 h hw1)
  | .io_send buf sz ret, w, w', h, hr => by
    simp only [TlsioWolfssl.engine_callback, Option.some.injEq] at hr
    subst hr; exact hP.io_send w buf sz ret h
  | .handshake_done, w, w', h, hr => by
    simp only [TlsioWolfssl.engine_callback, Option.some.injEq] at hr
    subst hr; exact hP.handshake_done w h
theorem Preserved.engine_callbacks {P : Run → Prop} (hP : Preserved P) :
    ∀ (cbs : List EngineCallback) (w w' : Run), P w → engine_callbacks w cbs = some w' → P w'
  | [], w, w', h, hr => by
    simp only [TlsioWolfssl.engine_callbacks, Option.some.injEq] at hr
    subst hr; exact h
  | cb :: rest, w, w', h, hr => by
    simp only [TlsioWolfssl.engine_callbacks] at hr
    split at hr
    · cases hr
    · rename_i w1 hw1
      exact Preserved.engine_callbacks hP rest w1 w'
        (Preserved.engine_callback hP cb w w1 h hw1) hr
end

theorem drained_append (a b : List Effect) : drained (a ++ b) = drained a ++ drained b := by
  simp [drained]

theorem stored_append (a b : List Effect) : stored (a ++ b) = stored a ++ stored b := by
  simp [stored]

theorem toInt_le (n : Nat) : toInt n ≤ (n : Int) := by
  unfold toInt
  split <;> omega

theorem toInt_of_lt (n : Nat) (h : n < 2 ^ 31) : toInt n = (n : Int) := by
  unfold toInt
  split <;> omega

theorem Quiet.fifo {w w' : Run} (q : Quiet w w') (h : Fifo w) : Fifo w' := by
  obtain ⟨hw, hl⟩ := h
  constructor
  · unfold TLS_IO_INSTANCE.wellFormed at *
    rw [q.bytes, q.count]; exact hw
  · unfold TLS_IO_INSTANCE.buffered at *
    rw [q.bytes, q.count, q.drained, q.stored]; exact hl

theorem quiet_indicate_error (w : Run) : Quiet w (indicate_error w) := by
  unfold indicate_error
  split <;> constructor <;> simp [Run.emit, drained, stored, Effect.drainedBytes, Effect.storedBytes]

theorem quiet_indicate_open_complete (w : Run) (r : IO_OPEN_RESULT) :
    Quiet w (indicate_open_complete w r) := by
  unfold indicate_open_complete
  split <;> constructor <;> simp [Run.emit, drained, stored, Effect.drainedBytes, Effect.storedBytes]

theorem quiet_setState (w : Run) (st : TLSIO_STATE_ENUM) : Quiet w (w.setState st) := by
  constructor <;> simp [Run.setState]

theorem Quiet.trans {a b c : Run} (h1 : Quiet a b) (h2 : Quiet b c) : Quiet a c :=
  ⟨h2.bytes.trans h1.bytes, h2.count.trans h1.count, h2.drained.trans h1.drained,
    h2.stored.trans h1.stored⟩

theorem quiet_error (w : Run) : Quiet w (on_underlying_io_error w) := by
  unfold on_underlying_io_error
  split
  · exact ⟨rfl, rfl, rfl, rfl⟩
  · exact ⟨rfl, rfl, rfl, rfl⟩
  · exact (quiet_setState w _).trans (quiet_indicate_open_complete _ _)
  · exact (quiet_setState w _).trans (quiet_indicate_open_complete _ _)
  · exact (quiet_setState w _).trans (quiet_indicate_error _)
  · exact ⟨rfl, rfl, rfl, rfl⟩

theorem quiet_close_complete (w : Run) : Quiet w (on_underlying_io_close_complete w) := by
  unfold on_underlying_io_close_complete
  split
  · exact ⟨rfl, rfl, rfl, rfl⟩
  · split <;> constructor <;>
      simp [Run.emit, Run.setState, drained, stored, Effect.drainedBytes, Effect.storedBytes]

theorem quiet_io_send (w : Run) (buf : List Byte) (sz ret : Int) :
    Quiet w (on_io_send w buf sz ret).2 := by
  have h1 : Quiet w (w.emit (.xio_send w.tls.socket_io buf sz w.tls.on_send_complete
      w.tls.on_send_complete_callback_context)) := by
    constructor <;> simp [Run.emit, drained, stored, Effect.drainedBytes, Effect.storedBytes]
  unfold on_io_send
  split
  · exact h1.trans ((quiet_setState _ _).trans (quiet_indicate_error _))
  · exact h1

theorem quiet_handshake_done (w : Run) : Quiet w (on_handshake_done w).2 := by
  unfold on_handshake_done
  split
  · exact ⟨rfl, rfl, rfl, rfl⟩
  · exact (quiet_setState w _).trans (quiet_indicate_open_complete _ _)

theorem fifo_bytes_received (w : Run) (b : List Byte) (ok : Bool) (h : Fifo w) :
    Fifo (on_underlying_io_bytes_received (w.emit (.delivered b ok)) b ok) := by
  obtain ⟨hw, hl⟩ := h
  unfold TLS_IO_INSTANCE.wellFormed at hw
  cases ok with
  | false =>
    have q : Quiet w (on_underlying_io_bytes_received (w.emit (.delivered b false)) b false) := by
      unfold on_underlying_io_bytes_received
      have h1 : Quiet w (w.emit (.delivered b false)) := by
        constructor <;> simp [Run.emit, drained, stored, Effect.drainedBytes, Effect.storedBytes]
      simpa using h1.trans ((quiet_setState _ _).trans (quiet_indicate_error _))
    exact q.fifo ⟨hw, hl⟩
  | true =>
    have hb : (on_underlying_io_bytes_received (w.emit (.delivered b true)) b true).tls.buffered
        = w.tls.buffered ++ b := by
      simp only [on_underlying_io_bytes_received, TLS_IO_INSTANCE.buffered, Run.emit, realloc,
        memcpy, Option.getD_some]
      simp [List.take_append_eq_append_take, List.take_take, hw]
    have ht : (on_underlying_io_bytes_received (w.emit (.delivered b true)) b true).trace
        = w.trace ++ [.delivered b true] := by
      simp [on_underlying_io_bytes_received, Run.emit]
    constructor
    · simp [TLS_IO_INSTANCE.wellFormed, on_underlying_io_bytes_received, Run.emit, realloc,
        memcpy]
    · rw [hb, ht, drained_append, stored_append, ← hl]
      simp [drained, stored, Effect.drainedBytes, Effect.storedBytes]

theorem recv_result_le (w : Run) (sz : Int) (h : 0 < on_io_recv_result w sz) :
    (on_io_recv_result w sz).toNat ≤ w.tls.socket_io_read_byte_count := by
  have := toInt_le w.tls.socket_io_read_byte_count
  unfold on_io_recv_result at *
  simp only [] at *
  split at h <;> omega

theorem recv_take_spec (w : Run) (n : Nat) (ok : Bool) (hw : w.tls.wellFormed)
    (hn : n ≤ w.tls.socket_io_read_byte_count) :
    (on_io_recv_take w n ok).1 = w.tls.buffered.take n
    ∧ (on_io_recv_take w n ok).2.tls.buffered = w.tls.buffered.drop n
    ∧ (on_io_recv_take w n ok).2.tls.wellFormed
    ∧ (on_io_recv_take w n ok).2.trace = w.trace
    ∧ (on_io_recv_take w n ok).2.tls.config = w.tls.config := by
  unfold TLS_IO_INSTANCE.wellFormed at hw
  unfold on_io_recv_take
  simp only []
  split
  · split
    · refine ⟨?_, ?_, ?_, rfl, rfl⟩
      · simp [TLS_IO_INSTANCE.buffered, List.take_take, hn]
      · simp [TLS_IO_INSTANCE.buffered, realloc, memcpy, List.take_append_eq_append_take,
          List.take_take, List.drop_take]
        omega
      · simp [TLS_IO_INSTANCE.wellFormed, realloc, memcpy]
        omega
    · refine ⟨?_, ?_, ?_, rfl, rfl⟩
      · simp [TLS_IO_INSTANCE.buffered, List.take_take, hn]
      · simp [TLS_IO_INSTANCE.buffered, realloc, memcpy, List.take_append_eq_append_take,
          List.take_take, List.drop_take]
        omega
      · simp [TLS_IO_INSTANCE.wellFormed, realloc, memcpy]
        omega
  · refine ⟨?_, ?_, ?_, rfl, rfl⟩
    · simp [TLS_IO_INSTANCE.buffered, List.take_take, hn]
    · simp [TLS_IO_INSTANCE.buffered, realloc, memcpy, List.take_append_eq_append_take,
          List.take_take, List.drop_take]
      omega
    · simp [TLS_IO_INSTANCE.wellFormed, realloc, memcpy]
      omega

theorem recv_copy_snd (w : Run) (sz : Int) (ok : Bool) :
    (on_io_recv_copy w sz ok).2
      = (if on_io_recv_result w sz > 0 then
          on_io_recv_take w (on_io_recv_result w sz).toNat ok else ([], w)).2 := by
  simp only [on_io_recv_copy]

theorem recv_copy_buf (w : Run) (sz : Int) (ok : Bool) :
    (on_io_recv_copy w sz ok).1.2
      = (if on_io_recv_result w sz > 0 then
          on_io_recv_take w (on_io_recv_result w sz).toNat ok else ([], w)).1 := by
  simp only [on_io_recv_copy]

theorem recv_copy_code (w : Run) (sz : Int) (ok : Bool) :
    (on_io_recv_copy w sz ok).1.1
      = on_io_recv_code (on_io_recv_result w sz) (on_io_recv_copy w sz ok).2.tls.tlsio_state := by
  simp only [on_io_recv_copy]

theorem recv_copy_spec (w : Run) (sz : Int) (ok : Bool) (hw : w.tls.wellFormed) :
    (on_io_recv_copy w sz ok).1.2 ++ (on_io_recv_copy w sz ok).2.tls.buffered = w.tls.buffered
    ∧ (on_io_recv_copy w sz ok).2.tls.wellFormed
    ∧ (on_io_recv_copy w sz ok).2.trace = w.trace := by
  rw [recv_copy_snd, recv_copy_buf]
  split
  · rename_i hpos
    obtain ⟨h1, h2, h3, h4, _⟩ := recv_take_spec w _ ok hw (recv_result_le w sz hpos)
    exact ⟨by rw [h1, h2, List.take_append_drop], h3, h4⟩
  · exact ⟨rfl, hw, rfl⟩

theorem recv_copy_config (w : Run) (sz : Int) (ok : Bool) :
    (on_io_recv_copy w sz ok).2.tls.config = w.tls.config
    ∧ (on_io_recv_copy w sz ok).2.tls.tlsio_state = w.tls.tlsio_state
    ∧ (on_io_recv_copy w sz ok).2.trace = w.trace := by
  rw [recv_copy_snd]
  split
  · unfold on_io_recv_take
    simp only []
    split_ifs <;> exact ⟨rfl, rfl, rfl⟩
  · exact ⟨rfl, rfl, rfl⟩

theorem fifo_io_recv (w : Run) (sz : Int) (ok : Bool) (h : Fifo w) :
    Fifo ((on_io_recv_copy w sz ok).2.emit
      (.io_recv_returned (on_io_recv_copy w sz ok).1.1 (on_io_recv_copy w sz ok).1.2)) := by
  obtain ⟨hw, hl⟩ := h
  obtain ⟨h1, h2, h3⟩ := recv_copy_spec w sz ok hw
  constructor
  · exact h2
  · simp only [Run.emit]
    rw [h3, drained_append, stored_append, ← hl, ← h1]
    simp [drained, stored, Effect.drainedBytes, Effect.storedBytes]

theorem preserved_fifo : Preserved Fifo where
  open_failed w h := ((quiet_setState w _).trans (quiet_indicate_open_complete _ _)).fifo h
  connect_call w h := by
    have q : Quiet w ((w.setState TLSIO_STATE_IN_HANDSHAKE).emit (.wolfSSL_connect w.tls.ssl)) := by
      constructor <;>
        simp [Run.emit, Run.setState, drained, stored, Effect.drainedBytes, Effect.storedBytes]
    exact q.fifo h
  connect_failed w h := ((quiet_indicate_open_complete w _).trans (quiet_setState _ _)).fifo h
  bytes_received w b ok h := fifo_bytes_received w b ok h
  error w h := (quiet_error w).fifo h
  close_complete w h := (quiet_close_complete w).fifo h
  poll w h := by
    refine Quiet.fifo ?_ h
    constructor <;> simp [Run.emit, drained, stored, Effect.drainedBytes, Effect.storedBytes]
  io_recv w sz ok h := fifo_io_recv w sz ok h
  io_send w buf sz ret h := (quiet_io_send w buf sz ret).fifo h
  handshake_done w h := (quiet_handshake_done w).fifo h

theorem wait_of_nonempty (w : Run) (polls : List (List TransportEvent))
    (h : w.tls.socket_io_read_byte_count ≠ 0) : on_io_recv_wait w polls = some w := by
  cases polls <;> simp [on_io_recv_wait, h]

theorem recv_of_nonempty (w : Run) (sz : Int) (polls : List (List TransportEvent)) (ok : Bool)
    (hw : w.tls.wellFormed) (hsz : 0 < sz) (h0 : 0 < w.tls.socket_io_read_byte_count)
    (hint : w.tls.socket_io_read_byte_count < 2 ^ 31) :
    ∃ w', on_io_recv w sz polls ok
        = some ((min (w.tls.socket_io_read_byte_count : Int) sz,
            w.tls.buffered.take (min w.tls.socket_io_read_byte_count sz.toNat)), w')
      ∧ w'.tls.buffered = w.tls.buffered.drop (min w.tls.socket_io_read_byte_count sz.toNat) := by
  have hres : on_io_recv_result w sz = min (w.tls.socket_io_read_byte_count : Int) sz := by
    unfold on_io_recv_result
    simp only [toInt_of_lt _ hint]
    split <;> omega
  have hpos : 0 < on_io_recv_result w sz := by rw [hres]; omega
  have hnat : (on_io_recv_result w sz).toNat = min w.tls.socket_io_read_byte_count sz.toNat := by
    rw [hres]; omega
  obtain ⟨h1, h2, _⟩ := recv_take_spec w _ ok hw (recv_result_le w sz hpos)
  refine ⟨(on_io_recv_copy w sz ok).2, ?_, ?_⟩
  · unfold on_io_recv
    rw [wait_of_nonempty w polls (by omega)]
    have hb := recv_copy_buf w sz ok
    rw [if_pos hpos, h1, hnat] at hb
    have hr : (on_io_recv_copy w sz ok).1.1 = on_io_recv_result w sz := by
      have : ¬ on_io_recv_result w sz = 0 := by omega
      rw [recv_copy_code]
      simp [on_io_recv_code, this]
    simp only [Option.some.injEq]
    ext1
    · ext1
      · rw [hr, hres]
      · exact hb
    · rfl
  · rw [recv_copy_snd, if_pos hpos, h2, hnat]

theorem tls_indicate_error (w : Run) : (indicate_error w).tls = w.tls := by
  unfold indicate_error
  split <;> rfl

theorem tls_indicate_open_complete (w : Run) (r : IO_OPEN_RESULT) :
    (indicate_open_complete w r).tls = w.tls := by
  unfold indicate_open_complete
  split <;> rfl

theorem config_bytes_received (w : Run) (b : List Byte) (ok : Bool) :
    (on_underlying_io_bytes_received w b ok).tls.config = w.tls.config := by
  unfold on_underlying_io_bytes_received
  simp only []
  split
  · rw [tls_indicate_error]; rfl
  · rfl

theorem config_error (w : Run) : (on_underlying_io_error w).tls.config = w.tls.config := by
  unfold on_underlying_io_error
  split <;> first | rfl | (rw [tls_indicate_open_complete]; rfl) | (rw [tls_indicate_error]; rfl)

theorem config_close_complete (w : Run) :
    (on_underlying_io_close_complete w).tls.config = w.tls.config := by
  unfold on_underlying_io_close_complete
  split
  · rfl
  · simp only []
    split <;> rfl

theorem config_io_send (w : Run) (buf : List Byte) (sz ret : Int) :
    (on_io_send w buf sz ret).2.tls.config = w.tls.config := by
  unfold on_io_send
  simp only []
  split
  · rw [tls_indicate_error]; rfl
  · rfl

theorem config_handshake_done (w : Run) : (on_handshake_done w).2.tls.config = w.tls.config := by
  unfold on_handshake_done
  split
  · rfl
  · simp only []
    rw [tls_indicate_open_complete]; rfl

/-- The event handlers write nothing but the state, the block and the count. -/
theorem preserved_config (c : TLS_IO_INSTANCE) : Preserved (fun w => w.tls.config = c) where
  open_failed w h := by
    show (indicate_open_complete _ _).tls.config = c
    rw [tls_indicate_open_complete]; exact h
  connect_call w h := h
  connect_failed w h := by
    show ((indicate_open_complete _ _).setState _).tls.config = c
    simp only [Run.setState, tls_indicate_open_complete]; exact h
  bytes_received w b ok h := (config_bytes_received _ b ok).trans h
  error w h := (config_error w).trans h
  close_complete w h := (config_close_complete w).trans h
  poll w h := h
  io_recv w sz ok h := (recv_copy_config w sz ok).1.trans h
  io_send w buf sz ret h := (config_io_send w buf sz ret).trans h
  handshake_done w h := (config_handshake_done w).trans h

theorem config_stimulus (w w' : Run) (s : Stimulus) (h : stimulus w s = some w') :
    w'.tls.config = w.tls.config := by
  cases s with
  | transport e => exact Preserved.transport_event (preserved_config _) e w w' rfl h
  | engine cb => exact Preserved.engine_callback (preserved_config _) cb w w' rfl h

theorem fifo_stimuli : ∀ (calls : List Stimulus) (w w' : Run), Fifo w →
    stimuli w calls = some w' → Fifo w'
  | [], w, w', h, hr => by
    simp only [stimuli, Option.some.injEq] at hr
    subst hr; exact h
  | s :: rest, w, w', h, hr => by
    simp only [stimuli] at hr
    split at hr
    · cases hr
    · rename_i w1 hw1
      refine fifo_stimuli rest w1 w' ?_ hr
      cases s with
      | transport e => exact Preserved.transport_event preserved_fifo e w w1 h hw1
      | engine cb => exact Preserved.engine_callback preserved_fifo cb w w1 h hw1

/-! ## C1: the receive buffer is a lossless FIFO -/

/-- C1.  Start from a session with an empty receive buffer and an empty trace and let the
environment make any sequence of calls into the adapter, among them the deliveries
`on_underlying_io_bytes_received` and the bridge reads `on_io_recv`, nested in one another
or not.  When the sequence has run, the bytes returned by the reads so far followed by the
bytes still buffered are the chunks stored so far, in delivery order.  Moreover a read with
`sz > 0` that finds `n > 0` bytes buffered (`n` within `int` range) returns without polling
the transport, its result is `min n sz`, the bytes it hands over are the first `min n sz`
buffered ones, and the rest stays buffered. -/
theorem receive_buffer_lossless_fifo (w0 w : Run) (calls : List Stimulus)
    (hempty : w0.tls.socket_io_read_byte_count = 0) (htrace : w0.trace = [])
    (hrun : stimuli w0 calls = some w) :
    drained w.trace ++ w.tls.buffered = stored w.trace
    ∧ ∀ (sz : Int) (polls : List (List TransportEvent)) (realloc_ok : Bool),
        0 < sz → 0 < w.tls.socket_io_read_byte_count →
        w.tls.socket_io_read_byte_count < 2 ^ 31 →
        ∃ w', on_io_recv w sz polls realloc_ok
            = some ((min (w.tls.socket_io_read_byte_count : Int) sz,
                w.tls.buffered.take (min w.tls.socket_io_read_byte_count sz.toNat)), w')
          ∧ w'.tls.buffered
            = w.tls.buffered.drop (min w.tls.socket_io_read_byte_count sz.toNat)
          ∧ w'.trace = w.trace := by
  have h0 : Fifo w0 := by
    constructor
    · unfold TLS_IO_INSTANCE.wellFormed; omega
    · simp [htrace, drained, stored, TLS_IO_INSTANCE.buffered, hempty]
  have hw := fifo_stimuli calls w0 w h0 hrun
  refine ⟨hw.lossless, ?_⟩
  intro sz polls ok hsz hn hint
  obtain ⟨w', h1, h2⟩ := recv_of_nonempty w sz polls ok hw.wellFormed hsz hn hint
  refine ⟨w', h1, h2, ?_⟩
  unfold on_io_recv at h1
  rw [wait_of_nonempty w polls (by omega)] at h1
  simp only [Option.some.injEq] at h1
  have := congrArg Prod.snd h1
  simp only at this
  rw [← this]
  exact (recv_copy_config w sz ok).2.2

/-- The run of the C1 witness: the chunk 1, 2, 3 was delivered and two bytes were read. -/
theorem receive_buffer_lossless_fifo_witness :
    drained (createdRun.trace ++ [.delivered [1, 2, 3] true, .io_recv_returned 2 [1, 2]])
      ++ [3]
      = stored (createdRun.trace ++ [.delivered [1, 2, 3] true, .io_recv_returned 2 [1, 2]]) :=
  (receive_buffer_lossless_fifo createdRun
    { tls := { createdRun.tls with
        socket_io_read_bytes := some [3]
        socket_io_read_byte_count := 1 }
      trace := createdRun.trace ++ [.delivered [1, 2, 3] true, .io_recv_returned 2 [1, 2]] }
    [.transport (.bytes_received [1, 2, 3] true), .engine (.io_recv 2 [] true)]
    (by decide) (by decide) (by decide)).1

theorem reachable_openRun : Reachable openRun :=
  .step createdRun openRun
    (.create (some ⟨some "host", 443, 0, 0⟩) ⟨true, 7, 8, 9⟩ createdRun (by decide))
    (.open createdRun openRun 0 11 12 13 14 15 16 goodEngine syncOpenEvents 0 (by decide))

theorem ssl_of_config {t t' : TLS_IO_INSTANCE} (h : t'.config = t.config) : t'.ssl = t.ssl := by
  have h1 : t'.config.ssl = t.config.ssl := by rw [h]
  exact h1

theorem ssl_stimulus (w w' : Run) (s : Stimulus) (h : stimulus w s = some w') :
    w'.tls.ssl = w.tls.ssl :=
  ssl_of_config (config_stimulus w w' s h)

theorem config_transport_events (w w' : Run) (es : List TransportEvent)
    (h : transport_events w es = some w') : w'.tls.config = w.tls.config :=
  Preserved.transport_events (preserved_config _) es w w' rfl h

theorem config_engine_callbacks (w w' : Run) (cbs : List EngineCallback)
    (h : engine_callbacks w cbs = some w') : w'.tls.config = w.tls.config :=
  Preserved.engine_callbacks (preserved_config _) cbs w w' rfl h

theorem config_decode : ∀ (reads : List (EngineCall × List Byte)) (w : Run) (r : Int × Run),
    decode_ssl_received_bytes w reads = some r → r.2.tls.config = w.tls.config
  | [], w, r, h => by simp [decode_ssl_received_bytes] at h
  | (.mk cbs rcv, buffer) :: reads, w, r, h => by
    simp only [decode_ssl_received_bytes] at h
    split at h
    · cases h
    · rename_i w1 hw1
      have h1 : w1.tls.config = w.tls.config :=
        config_engine_callbacks (w.emit (.wolfSSL_read w.tls.ssl 64)) w1 cbs hw1
      split at h
      · have h2 := config_decode reads _ r h
        rw [h2, ← h1]
        split <;> rfl
      · have h := Option.some.inj h
        subst h; exact h1

theorem config_dowork (w w' : Run) (reads : List (EngineCall × List Byte))
    (poll : List TransportEvent) (h : tlsio_wolfssl_dowork w reads poll = some w') :
    w'.tls.config = w.tls.config := by
  unfold tlsio_wolfssl_dowork at h
  split at h
  · split at h
    · cases h
    · rename_i r hr
      exact (config_transport_events _ w' poll h).trans (config_decode reads w r hr)
  · have h := Option.some.inj h
    subst h; rfl

theorem ssl_send (w w' : Run) (r : Int) (buffer : List Byte) (size cb ctx : Nat)
    (write : EngineCall) (h : tlsio_wolfssl_send w buffer size cb ctx write = some (r, w')) :
    w'.tls.ssl = w.tls.ssl := by
  cases write with
  | mk cbs res =>
    simp only [tlsio_wolfssl_send] at h
    split at h
    · have h := Option.some.inj h
      rw [← (Prod.mk.inj h).2]
    · split at h
      · cases h
      · rename_i w2 hw2
        have hc : w2.tls.ssl = (send_register w buffer size cb ctx).tls.ssl :=
          ssl_of_config (config_engine_callbacks (send_register w buffer size cb ctx) w2 cbs hw2)
        split at h <;>
        · have h := Option.some.inj h
          rw [← (Prod.mk.inj h).2]
          exact hc

theorem ssl_setoption (w : Run) (optionName value : Option String) (malloc_ok : Bool)
    (ret : Int) :
    (tlsio_wolfssl_setoption w optionName value malloc_ok ret).2.tls.ssl = w.tls.ssl
    ∧ (tlsio_wolfssl_setoption w optionName value malloc_ok ret).2.tls.tlsio_state
        = w.tls.tlsio_state := by
  unfold tlsio_wolfssl_setoption
  split
  · exact ⟨rfl, rfl⟩
  · simp only []
    split_ifs <;> exact ⟨rfl, rfl⟩

theorem tls_add_certificate_to_store (w : Run) (res : Int) :
    (add_certificate_to_store w res).2.tls = w.tls := by
  unfold add_certificate_to_store
  split
  · simp only []
    split <;> rfl
  · rfl

theorem tls_add_credentials (w : Run) (ssl : Nat) (c k : String) (o : EngineSetup) :
    (x509_wolfssl_add_credentials w ssl c k o).2.tls = w.tls := by
  unfold x509_wolfssl_add_credentials
  simp only []
  split_ifs <;> rfl

theorem failure_ne_zero (line : Nat) (h : line ≠ 0) : FAILURE line ≠ 0 := by
  unfold FAILURE
  exact_mod_cast h

/-- What a successful engine-session construction leaves behind (lines 502-517). -/
theorem create_wolfssl_instance_ok (w : Run) (o : EngineSetup)
    (h : (create_wolfssl_instance w o).1 = 0) :
    (create_wolfssl_instance w o).2.tls
      = { w.tls with
          ssl := o.wolfSSL_new
          socket_io_read_bytes := none
          socket_io_read_byte_count := 0
          on_send_complete := 0
          on_send_complete_callback_context := 0
          tlsio_state := TLSIO_STATE_NOT_OPEN }
    ∧ o.wolfSSL_new ≠ 0 := by
  unfold create_wolfssl_instance at h ⊢
  simp only [] at h ⊢
  split at h
  · exact absurd h (failure_ne_zero _ (by decide))
  · rename_i h1
    rw [if_neg h1]
    split at h
    · exact absurd h (failure_ne_zero _ (by decide))
    · rename_i h2
      rw [if_neg h2]
      split at h
      · exact absurd h (failure_ne_zero _ (by decide))
      · rename_i h3
        rw [if_neg h3]
        refine ⟨?_, h2⟩
        simp only []
        split
        · simp only [tls_add_credentials, tls_add_certificate_to_store, Run.emit]
        · simp only [tls_add_certificate_to_store, Run.emit]

theorem xio_close_calls_emit (w : Run) (e : Effect) (h : e.isXioClose = false) :
    xio_close_calls (w.emit e).trace = xio_close_calls w.trace := by
  simp [xio_close_calls, Run.emit, List.filter_append, h]

theorem xio_close_calls_indicate_error (w : Run) :
    xio_close_calls (indicate_error w).trace = xio_close_calls w.trace := by
  unfold indicate_error
  split
  · exact xio_close_calls_emit w _ (by rfl)
  · rfl

theorem xio_close_calls_indicate_open_complete (w : Run) (r : IO_OPEN_RESULT) :
    xio_close_calls (indicate_open_complete w r).trace = xio_close_calls w.trace := by
  unfold indicate_open_complete
  split
  · exact xio_close_calls_emit w _ (by rfl)
  · rfl

/-- No event handler calls the transport's close. -/
theorem preserved_xio_close_calls (k : Nat) :
    Preserved (fun w => xio_close_calls w.trace = k) where
  open_failed w h := (xio_close_calls_indicate_open_complete _ _).trans h
  connect_call w h := (xio_close_calls_emit (w.setState _) _ (by rfl)).trans h
  connect_failed w h := (xio_close_calls_indicate_open_complete _ _).trans h
  bytes_received w b ok h := by
    have h1 : xio_close_calls (w.emit (.delivered b ok)).trace = k :=
      (xio_close_calls_emit w _ (by rfl)).trans h
    unfold on_underlying_io_bytes_received
    simp only []
    split
    · exact (xio_close_calls_indicate_error _).trans h1
    · exact h1
  error w h := by
    unfold on_underlying_io_error
    split <;> first
      | exact h
      | exact (xio_close_calls_indicate_open_complete _ _).trans h
      | exact (xio_close_calls_indicate_error _).trans h
  close_complete w h := by
    unfold on_underlying_io_close_complete
    split
    · exact h
    · simp only []
      split
      · exact (xio_close_calls_emit w _ (by rfl)).trans h
      · exact h
  poll w h := (xio_close_calls_emit w _ (by rfl)).trans h
  io_recv w sz ok h := by
    rw [xio_close_calls_emit _ _ (by rfl), (recv_copy_config w sz ok).2.2]; exact h
  io_send w buf sz ret h := by
    have h1 := (xio_close_calls_emit w (.xio_send w.tls.socket_io buf sz w.tls.on_send_complete
      w.tls.on_send_complete_callback_context) (by rfl)).trans h
    unfold on_io_send
    simp only []
    split
    · exact (xio_close_calls_indicate_error _).trans h1
    · exact h1
  handshake_done w h := by
    unfold on_handshake_done
    split
    · exact h
    · exact (xio_close_calls_indicate_open_complete _ _).trans h

/-- What `tlsio_wolfssl_close` does in a state that accepts it, once the events the
transport delivers inside `xio_close` have run. -/
theorem close_accepted (w w2 : Run) (cb ctx : Nat) (evs : List TransportEvent) (ret : Int)
    (h1 : w.tls.tlsio_state ≠ TLSIO_STATE_NOT_OPEN)
    (h2 : w.tls.tlsio_state ≠ TLSIO_STATE_CLOSING)
    (hev : transport_events ((close_register w cb ctx).emit (.xio_close w.tls.socket_io)) evs
      = some w2) :
    tlsio_wolfssl_close w cb ctx evs ret
      = some (if ret = 0 then (0, destroy_wolfssl_instance w2) else (FAILURE 759, w2)) := by
  unfold tlsio_wolfssl_close
  rw [if_neg (by simp [h1, h2])]
  simp only []
  have hev' : transport_events ((close_register w cb ctx).emit
      (.xio_close (close_register w cb ctx).tls.socket_io)) evs = some w2 := hev
  rw [hev']
  simp only []
  split_ifs <;> simp_all

/-- What `tlsio_wolfssl_open` does in `NOT_OPEN` when the engine session is constructed,
once the events the transport delivers inside `xio_open` have run. -/
theorem open_constructed (w w2 : Run) (a b c d e f : Nat) (o : EngineSetup)
    (evs : List TransportEvent) (ret : Int)
    (hs : w.tls.tlsio_state = TLSIO_STATE_NOT_OPEN)
    (hc : (create_wolfssl_instance (open_register w a b c d e f) o).1 = 0)
    (hev : transport_events ((create_wolfssl_instance (open_register w a b c d e f) o).2.emit
      (.xio_open w.tls.socket_io)) evs = some w2) :
    tlsio_wolfssl_open w a b c d e f o evs ret
      = some (if ret ≠ 0 then (FAILURE 710, w2.setState TLSIO_STATE_NOT_OPEN)
          else if w2.tls.tlsio_state ≠ TLSIO_STATE_OPEN then (FAILURE 718, w2)
          else (0, w2)) := by
  have hsock : (create_wolfssl_instance (open_register w a b c d e f) o).2.tls.socket_io
      = w.tls.socket_io := by
    rw [(create_wolfssl_instance_ok _ o hc).1]; rfl
  unfold tlsio_wolfssl_open
  rw [if_neg (by simp [hs])]
  simp only []
  rw [if_neg (by simp [hc]), hsock, hev]
  simp only []
  split_ifs <;> rfl

theorem reachable_closedRun : Reachable closedRun :=
  .step openRun closedRun reachable_openRun
    (.close openRun closedRun 0 21 22 [] 0 (by decide))

theorem reachable_errorRun : Reachable errorRun :=
  .step filledRun errorRun
    (.step openRun filledRun reachable_openRun
      (.stimulus openRun filledRun (.transport (.bytes_received [1, 2, 3] true)) (by decide)))
    (.stimulus filledRun errorRun (.transport .error) (by decide))

theorem sameBuffer_of_quiet {w w' : Run} (q : Quiet w w') : sameBuffer w w' := ⟨q.bytes, q.count⟩

theorem create_fields (p : Option TLSIO_CONFIG) (o : CreateSetup) (w : Run)
    (h : tlsio_wolfssl_create p o = some w) :
    w.tls.ssl = 0 ∧ w.tls.tlsio_state = TLSIO_STATE_NOT_OPEN
    ∧ w.tls.socket_io_read_bytes = none ∧ w.tls.socket_io_read_byte_count = 0 := by
  unfold tlsio_wolfssl_create at h
  split at h
  · cases h
  · simp only [] at h
    split_ifs at h
    all_goals
      have h := Option.some.inj h
      subst h
      exact ⟨rfl, rfl, rfl, rfl⟩

theorem create_failed_buffer (w : Run) (o : EngineSetup)
    (h : (create_wolfssl_instance w o).1 ≠ 0) :
    sameBuffer w (create_wolfssl_instance w o).2 := by
  unfold create_wolfssl_instance at h ⊢
  simp only [] at h ⊢
  split
  · unfold sameBuffer; rw [tls_add_certificate_to_store]; exact ⟨rfl, rfl⟩
  · rename_i h1
    rw [if_neg h1] at h
    split
    · unfold sameBuffer
      simp only [Run.emit, tls_add_certificate_to_store]
      exact ⟨trivial, trivial⟩
    · rename_i h2
      rw [if_neg h2] at h
      split
      · unfold sameBuffer destroy_wolfssl_instance
        simp only [Run.emit]
        split
        · simp only [tls_add_credentials, tls_add_certificate_to_store]
          exact ⟨trivial, trivial⟩
        · simp only [tls_add_certificate_to_store]
          exact ⟨trivial, trivial⟩
      · rename_i h3
        rw [if_neg h3] at h
        exact absurd rfl h

/-! ## C2: the engine session and the state -/

/-- C2, counterexample.  Create a session, open it over a transport that completes the open
inside `xio_open` (the state is `OPEN`, `ssl` is 5), then close it with `xio_close`
returning 0: the session reached is in `CLOSING` and its `ssl` is null, so `ssl` non-null
is not equivalent to the state being `IN_HANDSHAKE`, `OPEN` or `CLOSING`. -/
theorem engine_session_invariant_counterexample :
    Reachable closedRun
    ∧ ¬ (closedRun.tls.ssl ≠ 0 ↔
          (closedRun.tls.tlsio_state = TLSIO_STATE_IN_HANDSHAKE
            ∨ closedRun.tls.tlsio_state = TLSIO_STATE_OPEN
            ∨ closedRun.tls.tlsio_state = TLSIO_STATE_CLOSING)) :=
  ⟨reachable_closedRun, by decide⟩

/-- C2, amended.  The engine session handle is null after `tlsio_wolfssl_create`; no
transport event, engine callback, send, dowork or setoption changes it, whatever state they
leave the session in; an open from `NOT_OPEN` whose engine-session construction succeeds
leaves it non-null (the handle `wolfSSL_new` returned); a close from a state other than
`NOT_OPEN` and `CLOSING` leaves it null when the transport's close returns 0 and unchanged
otherwise, and the state it leaves is `CLOSING` when the transport delivers nothing inside
`xio_close`. -/
theorem engine_session_set_by_open_cleared_by_close :
    (∀ (p : Option TLSIO_CONFIG) (o : CreateSetup) (w : Run),
      tlsio_wolfssl_create p o = some w →
      w.tls.ssl = 0 ∧ w.tls.tlsio_state = TLSIO_STATE_NOT_OPEN)
    ∧ (∀ (w w' : Run) (s : Stimulus), stimulus w s = some w' → w'.tls.ssl = w.tls.ssl)
    ∧ (∀ (w w' : Run) (r : Int) (buffer : List Byte) (size cb ctx : Nat) (write : EngineCall),
        tlsio_wolfssl_send w buffer size cb ctx write = some (r, w') → w'.tls.ssl = w.tls.ssl)
    ∧ (∀ (w w' : Run) (reads : List (EngineCall × List Byte)) (poll : List TransportEvent),
        tlsio_wolfssl_dowork w reads poll = some w' → w'.tls.ssl = w.tls.ssl)
    ∧ (∀ (w : Run) (optionName value : Option String) (malloc_ok : Bool) (ret : Int),
        (tlsio_wolfssl_setoption w optionName value malloc_ok ret).2.tls.ssl = w.tls.ssl)
    ∧ (∀ (w w' : Run) (r : Int) (a b c d e f : Nat) (o : EngineSetup)
        (evs : List TransportEvent) (ret : Int),
        w.tls.tlsio_state = TLSIO_STATE_NOT_OPEN →
        (create_wolfssl_instance (open_register w a b c d e f) o).1 = 0 →
        tlsio_wolfssl_open w a b c d e f o evs ret = some (r, w') →
        w'.tls.ssl = o.wolfSSL_new ∧ w'.tls.ssl ≠ 0)
    ∧ (∀ (w w' : Run) (r : Int) (cb ctx : Nat) (evs : List TransportEvent) (ret : Int),
        w.tls.tlsio_state ≠ TLSIO_STATE_NOT_OPEN →
        w.tls.tlsio_state ≠ TLSIO_STATE_CLOSING →
        tlsio_wolfssl_close w cb ctx evs ret = some (r, w') →
        (ret = 0 → w'.tls.ssl = 0) ∧ (ret ≠ 0 → w'.tls.ssl = w.tls.ssl)
        ∧ (evs = [] → w'.tls.tlsio_state = TLSIO_STATE_CLOSING)) := by
  refine ⟨?_, ssl_stimulus, ssl_send, ?_, ?_, ?_, ?_⟩
  · intro p o w h
    exact ⟨(create_fields p o w h).1, (create_fields p o w h).2.1⟩
  · intro w w' reads poll h
    exact ssl_of_config (config_dowork w w' reads poll h)
  · intro w n v ok ret
    exact (ssl_setoption w n v ok ret).1
  · intro w w' r a b c d e f o evs ret hs hc h
    have hok := create_wolfssl_instance_ok _ o hc
    cases hte : transport_events ((create_wolfssl_instance (open_register w a b c d e f) o).2.emit
        (.xio_open w.tls.socket_io)) evs with
    | none =>
      have hsock : (create_wolfssl_instance (open_register w a b c d e f) o).2.tls.socket_io
          = w.tls.socket_io := by rw [hok.1]; rfl
      unfold tlsio_wolfssl_open at h
      rw [if_neg (by simp [hs])] at h
      simp only [] at h
      rw [if_neg (by simp [hc]), hsock, hte] at h
      cases h
    | some w2 =>
      rw [open_constructed w w2 a b c d e f o evs ret hs hc hte] at h
      have h2 : w2.tls.ssl = o.wolfSSL_new := by
        have := ssl_of_config (config_transport_events _ w2 evs hte)
        rw [this]
        show (create_wolfssl_instance (open_register w a b c d e f) o).2.tls.ssl = _
        rw [hok.1]
      have h := Option.some.inj h
      have hw' : w'.tls.ssl = w2.tls.ssl := by
        split_ifs at h <;> (rw [← (Prod.mk.inj h).2]; try rfl)
      rw [hw', h2]
      exact ⟨rfl, hok.2⟩
  · intro w w' r cb ctx evs ret h1 h2 h
    cases hte : transport_events ((close_register w cb ctx).emit (.xio_close w.tls.socket_io))
        evs with
    | none =>
      unfold tlsio_wolfssl_close at h
      rw [if_neg (by simp [h1, h2])] at h
      simp only [] at h
      have hte' : transport_events ((close_register w cb ctx).emit
          (.xio_close (close_register w cb ctx).tls.socket_io)) evs = none := hte
      rw [hte'] at h
      cases h
    | some w2 =>
      rw [close_accepted w w2 cb ctx evs ret h1 h2 hte] at h
      have h := Option.some.inj h
      have hssl : w2.tls.ssl = w.tls.ssl :=
        ssl_of_config (t := ((close_register w cb ctx).emit (.xio_close w.tls.socket_io)).tls)
          (config_transport_events _ w2 evs hte)
      refine ⟨?_, ?_, ?_⟩
      · intro hr
        rw [if_pos hr] at h
        rw [← (Prod.mk.inj h).2]; rfl
      · intro hr
        rw [if_neg hr] at h
        rw [← (Prod.mk.inj h).2]; exact hssl
      · intro he
        subst he
        simp only [transport_events, Option.some.injEq] at hte
        subst hte
        split_ifs at h <;> (rw [← (Prod.mk.inj h).2]; rfl)

/-- The C2 witness: the open of the sample session leaves `ssl` equal to 5. -/
theorem engine_session_set_by_open_cleared_by_close_witness :
    openRun.tls.ssl = goodEngine.wolfSSL_new ∧ openRun.tls.ssl ≠ 0 :=
  engine_session_set_by_open_cleared_by_close.2.2.2.2.2.1 createdRun openRun 0 11 12 13 14 15 16
    goodEngine syncOpenEvents 0 (by decide) (by decide) (by decide)

/-! ## C3: the receive buffer in `NOT_OPEN` and `ERROR` -/

/-- C3, counterexample.  Create and open a session, let the transport deliver the chunk
1, 2, 3 and then report an error: the session reached is in `ERROR` and its receive buffer
still holds three bytes. -/
theorem receive_buffer_invariant_counterexample :
    Reachable errorRun
    ∧ ¬ ((errorRun.tls.tlsio_state = TLSIO_STATE_NOT_OPEN
          ∨ errorRun.tls.tlsio_state = TLSIO_STATE_ERROR) →
        errorRun.tls.socket_io_read_byte_count = 0) :=
  ⟨reachable_errorRun, by decide⟩

/-- C3, amended.  The receive buffer is empty after `tlsio_wolfssl_create` and after a
successful engine-session construction inside open; a failed construction and every
handler step that enters `NOT_OPEN` or `ERROR` (transport error, close-complete, failed
transport open, failed bridge send, failed buffer growth) leave block and count as they
were. -/
theorem receive_buffer_emptied_only_by_construction :
    (∀ (p : Option TLSIO_CONFIG) (o : CreateSetup) (w : Run),
      tlsio_wolfssl_create p o = some w →
      w.tls.socket_io_read_bytes = none ∧ w.tls.socket_io_read_byte_count = 0)
    ∧ (∀ (w : Run) (o : EngineSetup), (create_wolfssl_instance w o).1 = 0 →
        (create_wolfssl_instance w o).2.tls.socket_io_read_bytes = none
        ∧ (create_wolfssl_instance w o).2.tls.socket_io_read_byte_count = 0)
    ∧ (∀ (w : Run) (o : EngineSetup), (create_wolfssl_instance w o).1 ≠ 0 →
        sameBuffer w (create_wolfssl_instance w o).2)
    ∧ (∀ w : Run, sameBuffer w (on_underlying_io_error w))
    ∧ (∀ w : Run, sameBuffer w (on_underlying_io_close_complete w))
    ∧ (∀ (w : Run) (open_result : IO_OPEN_RESULT) (connect : EngineCall),
        open_result ≠ IO_OPEN_OK →
        ∃ w', on_underlying_io_open_complete w open_result connect = some w'
          ∧ w'.tls.tlsio_state = TLSIO_STATE_ERROR ∧ sameBuffer w w')
    ∧ (∀ (w : Run) (buf : List Byte) (sz ret : Int), sameBuffer w (on_io_send w buf sz ret).2)
    ∧ (∀ (w : Run) (buffer : List Byte),
        (on_underlying_io_bytes_received w buffer false).tls.tlsio_state = TLSIO_STATE_ERROR
        ∧ sameBuffer w (on_underlying_io_bytes_received w buffer false)) := by
  refine ⟨?_, ?_, create_failed_buffer, ?_, ?_, ?_, ?_, ?_⟩
  · intro p o w h
    exact (create_fields p o w h).2.2
  · intro w o h
    rw [(create_wolfssl_instance_ok w o h).1]
    exact ⟨rfl, rfl⟩
  · intro w
    exact sameBuffer_of_quiet (quiet_error w)
  · intro w
    exact sameBuffer_of_quiet (quiet_close_complete w)
  · intro w r c hr
    cases c with
    | mk cbs res =>
      refine ⟨indicate_open_complete (w.setState TLSIO_STATE_ERROR) IO_OPEN_ERROR, ?_, ?_, ?_⟩
      · simp only [on_underlying_io_open_complete, if_pos hr]
      · rw [tls_indicate_open_complete]; rfl
      · exact sameBuffer_of_quiet
          ((quiet_setState w _).trans (quiet_indicate_open_complete _ _))
  · intro w buf sz ret
    exact sameBuffer_of_quiet (quiet_io_send w buf sz ret)
  · intro w b
    have h : on_underlying_io_bytes_received w b false
        = indicate_error (w.setState TLSIO_STATE_ERROR) := by
      simp [on_underlying_io_bytes_received]
    rw [h]
    refine ⟨?_, sameBuffer_of_quiet ((quiet_setState w _).trans (quiet_indicate_error _))⟩
    rw [tls_indicate_error]; rfl

/-- The C3 witness: constructing the engine session for the sample session that still
holds three bytes empties the buffer. -/
theorem receive_buffer_emptied_only_by_construction_witness :
    (create_wolfssl_instance errorRun goodEngine).2.tls.socket_io_read_bytes = none
    ∧ (create_wolfssl_instance errorRun goodEngine).2.tls.socket_io_read_byte_count = 0 :=
  receive_buffer_emptied_only_by_construction.2.1 errorRun goodEngine (by decide)

/-! ## C4: open outside `NOT_OPEN` -/

/-- C4.  In every state other than `NOT_OPEN`, `tlsio_wolfssl_open` returns the non-zero
`__FAILURE__` of line 685 and hands back the session as it was: no field is written and the
trace gets no entry, so neither the engine session is constructed nor the transport's open
called. -/
theorem open_rejected_outside_not_open (w : Run) (a b c d e f : Nat) (o : EngineSetup)
    (evs : List TransportEvent) (ret : Int)
    (h : w.tls.tlsio_state ≠ TLSIO_STATE_NOT_OPEN) :
    tlsio_wolfssl_open w a b c d e f o evs ret = some (FAILURE 685, w) ∧ FAILURE 685 ≠ 0 := by
  refine ⟨?_, failure_ne_zero _ (by decide)⟩
  unfold tlsio_wolfssl_open
  rw [if_pos h]

/-- The C4 witness: a second open of the open sample session. -/
theorem open_rejected_outside_not_open_witness :
    tlsio_wolfssl_open openRun 31 32 33 34 35 36 goodEngine syncOpenEvents 0
      = some (FAILURE 685, openRun) ∧ FAILURE 685 ≠ 0 :=
  open_rejected_outside_not_open openRun 31 32 33 34 35 36 goodEngine syncOpenEvents 0
    (by decide)

/-! ## C5: the value open returns -/

/-- C5, counterexample.  The created sample session is in `NOT_OPEN`, the engine session
is constructed, and `xio_open` returns 0 without the transport having completed the open:
`tlsio_wolfssl_open` returns the non-zero `__FAILURE__` of line 718. -/
theorem open_return_value_counterexample :
    createdRun.tls.tlsio_state = TLSIO_STATE_NOT_OPEN
    ∧ (create_wolfssl_instance (open_register createdRun 11 12 13 14 15 16) goodEngine).1 = 0
    ∧ tlsio_wolfssl_open createdRun 11 12 13 14 15 16 goodEngine [] 0
        = some (FAILURE 718, pendingRun)
    ∧ FAILURE 718 ≠ 0 := by
  decide

/-- C5, amended.  For a session in `NOT_OPEN`, if the engine session is constructed and
the transport's open returns 0, then `tlsio_wolfssl_open` returns 0 exactly when the state
is `OPEN` by the time `xio_open` returns (the open completion and the handshake happened
inside the call); in every other state it returns the non-zero `__FAILURE__` of line 718.
The session it leaves is the one the transport's events left. -/
theorem open_returns_zero_iff_open_on_return (w w2 : Run) (a b c d e f : Nat)
    (o : EngineSetup) (evs : List TransportEvent)
    (hs : w.tls.tlsio_state = TLSIO_STATE_NOT_OPEN)
    (hc : (create_wolfssl_instance (open_register w a b c d e f) o).1 = 0)
    (hev : transport_events ((create_wolfssl_instance (open_register w a b c d e f) o).2.emit
      (.xio_open w.tls.socket_io)) evs = some w2) :
    tlsio_wolfssl_open w a b c d e f o evs 0
      = some (if w2.tls.tlsio_state = TLSIO_STATE_OPEN then 0 else FAILURE 718, w2)
    ∧ FAILURE 718 ≠ 0 := by
  refine ⟨?_, failure_ne_zero _ (by decide)⟩
  rw [open_constructed w w2 a b c d e f o evs 0 hs hc hev]
  by_cases h : w2.tls.tlsio_state = TLSIO_STATE_OPEN <;> simp [h]

/-- The C5 witness: the open of the sample session over the transport that completes the
open inside `xio_open`. -/
theorem open_returns_zero_iff_open_on_return_witness :
    tlsio_wolfssl_open createdRun 11 12 13 14 15 16 goodEngine syncOpenEvents 0
      = some (if openRun.tls.tlsio_state = TLSIO_STATE_OPEN then 0 else FAILURE 718, openRun)
    ∧ FAILURE 718 ≠ 0 :=
  open_returns_zero_iff_open_on_return createdRun openRun 11 12 13 14 15 16 goodEngine
    syncOpenEvents (by decide) (by decide) (by decide)

/-! ## C6: send outside `OPEN` -/

/-- C6.  In every state other than `OPEN`, `tlsio_wolfssl_send` returns the non-zero
`__FAILURE__` of line 788 and hands back the session as it was: the stored send-completion
callback and context are not overwritten and the trace gets no entry, so the engine's
write is not called. -/
theorem send_rejected_outside_open (w : Run) (buffer : List Byte) (size cb ctx : Nat)
    (write : EngineCall) (h : w.tls.tlsio_state ≠ TLSIO_STATE_OPEN) :
    tlsio_wolfssl_send w buffer size cb ctx write = some (FAILURE 788, w)
    ∧ FAILURE 788 ≠ 0 := by
  refine ⟨?_, failure_ne_zero _ (by decide)⟩
  cases write with
  | mk callbacks res =>
    simp only [tlsio_wolfssl_send]
    rw [if_pos h]

/-- The C6 witness: a send on the closing sample session. -/
theorem send_rejected_outside_open_witness :
    tlsio_wolfssl_send closedRun [1, 2] 2 41 42 (.mk [.io_send [9, 9] 2 0] 2)
      = some (FAILURE 788, closedRun) ∧ FAILURE 788 ≠ 0 :=
  send_rejected_outside_open closedRun [1, 2] 2 41 42 (.mk [.io_send [9, 9] 2 0] 2) (by decide)

/-! ## C7: partial sends -/

theorem send_in_open (w w2 : Run) (buffer : List Byte) (size cb ctx : Nat)
    (callbacks : List EngineCallback) (res : Int)
    (hs : w.tls.tlsio_state = TLSIO_STATE_OPEN)
    (hcb : engine_callbacks (send_register w buffer size cb ctx) callbacks = some w2) :
    tlsio_wolfssl_send w buffer size cb ctx (.mk callbacks res)
      = some (if res = (size : Int) then 0 else FAILURE 799, w2) := by
  simp only [tlsio_wolfssl_send]
  rw [if_neg (by simp [hs]), hcb]
  simp only []
  by_cases h : res = (size : Int)
  · have : ¬ (res < 0 ∨ res.toNat ≠ size) := by omega
    rw [if_neg this, if_pos h]
  · have : res < 0 ∨ res.toNat ≠ size := by omega
    rw [if_pos this, if_neg h]

/-- C7.  For a session in `OPEN`: once the bridge callbacks the engine makes inside
`wolfSSL_write` have run, `tlsio_wolfssl_send` returns 0 if the engine returns exactly
`size`, and the non-zero `__FAILURE__` of line 799 for every other value, negative ones
included.  With the engine write of the test mock `my_SSL_write`, a send of 1700 bytes and
every send of more than 60 bytes fail, and a send of at most 60 bytes succeeds. -/
theorem send_succeeds_iff_engine_wrote_all (w : Run) (buffer : List Byte) (size cb ctx : Nat)
    (hs : w.tls.tlsio_state = TLSIO_STATE_OPEN) :
    (∀ (w2 : Run) (callbacks : List EngineCallback) (res : Int),
      engine_callbacks (send_register w buffer size cb ctx) callbacks = some w2 →
      tlsio_wolfssl_send w buffer size cb ctx (.mk callbacks res)
        = some (if res = (size : Int) then 0 else FAILURE 799, w2))
    ∧ FAILURE 799 ≠ 0
    ∧ (size = 1700 ∨ 60 < size →
        tlsio_wolfssl_send w buffer size cb ctx (.mk [] (my_SSL_write size))
          = some (FAILURE 799, send_register w buffer size cb ctx))
    ∧ (size ≤ 60 →
        tlsio_wolfssl_send w buffer size cb ctx (.mk [] (my_SSL_write size))
          = some (0, send_register w buffer size cb ctx)) := by
  refine ⟨fun w2 callbacks res h => send_in_open w w2 buffer size cb ctx callbacks res hs h,
    failure_ne_zero _ (by decide), ?_, ?_⟩
  · intro h
    rw [send_in_open w (send_register w buffer size cb ctx) buffer size cb ctx [] _ hs
      (by simp only [engine_callbacks])]
    have : my_SSL_write size ≠ (size : Int) := by
      unfold my_SSL_write
      split_ifs <;> omega
    rw [if_neg this]
  · intro h
    rw [send_in_open w (send_register w buffer size cb ctx) buffer size cb ctx [] _ hs
      (by simp only [engine_callbacks])]
    have : my_SSL_write size = (size : Int) := by
      unfold my_SSL_write
      split_ifs <;> omega
    rw [if_pos this]

/-- The C7 witness: on the open sample session a two-byte send that the engine writes
through the bridge in full. -/
theorem send_succeeds_iff_engine_wrote_all_witness :
    tlsio_wolfssl_send openRun [1, 2] 2 41 42 (.mk [.io_send [9, 9] 2 0] 2)
      = some (if (2 : Int) = ((2 : Nat) : Int) then 0 else FAILURE 799,
          (on_io_send (send_register openRun [1, 2] 2 41 42) [9, 9] 2 0).2) :=
  (send_succeeds_iff_engine_wrote_all openRun [1, 2] 2 41 42 (by decide)).1
    (on_io_send (send_register openRun [1, 2] 2 41 42) [9, 9] 2 0).2
    [.io_send [9, 9] 2 0] 2 (by decide)

/-! ## C8: close in a state that accepts it -/

/-- C8, counterexample.  The open sample session is closed and the transport's close
returns 1: `tlsio_wolfssl_close` returns the `__FAILURE__` of line 759 and the engine
session is still there (`ssl` is 5), the state being `CLOSING`. -/
theorem close_destroys_engine_counterexample :
    openRun.tls.tlsio_state = TLSIO_STATE_OPEN
    ∧ tlsio_wolfssl_close openRun 21 22 [] 1 = some (FAILURE 759, closeFailedRun)
    ∧ closeFailedRun.tls.tlsio_state = TLSIO_STATE_CLOSING
    ∧ closeFailedRun.tls.ssl ≠ 0 := by
  decide

/-- C8, amended.  For a session whose state is neither `NOT_OPEN` nor `CLOSING`,
`tlsio_wolfssl_close` sets the state to `CLOSING`, stores the caller's callback and context
and calls the transport's close once; `w2` is the session when `xio_close` returns.  If
the transport's close returns 0, close returns 0 and the engine session is destroyed
(`ssl` null); if it returns anything else, close returns the non-zero `__FAILURE__` of
line 759 and the engine session is kept.  In both cases the stored callback and context
are the caller's, the transport's close has been called exactly once, and the state is
`CLOSING` when the transport delivers nothing inside `xio_close`. -/
theorem close_moves_to_closing (w w2 : Run) (cb ctx : Nat) (evs : List TransportEvent)
    (ret : Int)
    (h1 : w.tls.tlsio_state ≠ TLSIO_STATE_NOT_OPEN)
    (h2 : w.tls.tlsio_state ≠ TLSIO_STATE_CLOSING)
    (hev : transport_events ((close_register w cb ctx).emit (.xio_close w.tls.socket_io)) evs
      = some w2) :
    tlsio_wolfssl_close w cb ctx evs ret
      = some (if ret = 0 then (0, destroy_wolfssl_instance w2) else (FAILURE 759, w2))
    ∧ FAILURE 759 ≠ 0
    ∧ (close_register w cb ctx).tls.tlsio_state = TLSIO_STATE_CLOSING
    ∧ w2.tls.on_io_close_complete = cb ∧ w2.tls.on_io_close_complete_context = ctx
    ∧ (destroy_wolfssl_instance w2).tls.on_io_close_complete = cb
    ∧ (destroy_wolfssl_instance w2).tls.on_io_close_complete_context = ctx
    ∧ xio_close_calls w2.trace = xio_close_calls w.trace + 1
    ∧ xio_close_calls (destroy_wolfssl_instance w2).trace = xio_close_calls w.trace + 1
    ∧ (destroy_wolfssl_instance w2).tls.ssl = 0
    ∧ w2.tls.ssl = w.tls.ssl
    ∧ (evs = [] → w2.tls.tlsio_state = TLSIO_STATE_CLOSING
        ∧ (destroy_wolfssl_instance w2).tls.tlsio_state = TLSIO_STATE_CLOSING) := by
  have hcfg : w2.tls.config
      = ((close_register w cb ctx).emit (.xio_close w.tls.socket_io)).tls.config :=
    config_transport_events _ w2 evs hev
  have hcb : w2.tls.on_io_close_complete = cb := by
    have : w2.tls.config.on_io_close_complete = cb := by rw [hcfg]; rfl
    exact this
  have hctx : w2.tls.on_io_close_complete_context = ctx := by
    have : w2.tls.config.on_io_close_complete_context = ctx := by rw [hcfg]; rfl
    exact this
  have hcalls : xio_close_calls w2.trace = xio_close_calls w.trace + 1 := by
    refine Preserved.transport_events (preserved_xio_close_calls _) evs _ w2 ?_ hev
    simp [xio_close_calls, Run.emit, close_register, List.filter_append, Effect.isXioClose]
  refine ⟨close_accepted w w2 cb ctx evs ret h1 h2 hev, failure_ne_zero _ (by decide), rfl,
    hcb, hctx, hcb, hctx, hcalls, ?_, rfl, ?_, ?_⟩
  · have : xio_close_calls (destroy_wolfssl_instance w2).trace = xio_close_calls w2.trace :=
      xio_close_calls_emit w2 _ (by rfl)
    rw [this, hcalls]
  · exact ssl_of_config
      (t := ((close_register w cb ctx).emit (.xio_close w.tls.socket_io)).tls) hcfg
  · intro he
    subst he
    simp only [transport_events, Option.some.injEq] at hev
    subst hev
    exact ⟨rfl, rfl⟩

/-- The C8 witness: the close of the open sample session with `xio_close` returning 0. -/
theorem close_moves_to_closing_witness :
    tlsio_wolfssl_close openRun 21 22 [] 0
      = some (if (0 : Int) = 0 then
          (0, destroy_wolfssl_instance ((close_register openRun 21 22).emit (.xio_close 9)))
          else (FAILURE 759, (close_register openRun 21 22).emit (.xio_close 9))) :=
  (close_moves_to_closing openRun ((close_register openRun 21 22).emit (.xio_close 9)) 21 22
    [] 0 (by decide) (by decide) (by decide)).1

/-! ## C9: close in `NOT_OPEN` and `CLOSING` -/

/-- C9.  In `NOT_OPEN` and in `CLOSING`, `tlsio_wolfssl_close` returns the non-zero
`__FAILURE__` of line 748 and hands back the session as it was: the stored close-complete
callback is not overwritten and the trace gets no entry, so the transport's close is not
called. -/
theorem close_rejected_in_not_open_and_closing (w : Run) (cb ctx : Nat)
    (evs : List TransportEvent) (ret : Int)
    (h : w.tls.tlsio_state = TLSIO_STATE_NOT_OPEN ∨ w.tls.tlsio_state = TLSIO_STATE_CLOSING) :
    tlsio_wolfssl_close w cb ctx evs ret = some (FAILURE 748, w) ∧ FAILURE 748 ≠ 0 := by
  refine ⟨?_, failure_ne_zero _ (by decide)⟩
  unfold tlsio_wolfssl_close
  rw [if_pos h]

/-- The C9 witness: a second close of the closing sample session. -/
theorem close_rejected_in_not_open_and_closing_witness :
    tlsio_wolfssl_close closedRun 51 52 [.close_complete] 0 = some (FAILURE 748, closedRun)
    ∧ FAILURE 748 ≠ 0 :=
  close_rejected_in_not_open_and_closing closedRun 51 52 [.close_complete] 0 (by decide)

/-! ## C10: operations in `ERROR` -/

/-- C10, counterexample.  The sample session in `ERROR` accepts a close (it returns 0 when
the transport's close does) and a set of the trusted-certificate option (it returns 0). -/
theorem error_dead_end_counterexample :
    errorRun.tls.tlsio_state = TLSIO_STATE_ERROR
    ∧ (tlsio_wolfssl_close errorRun 21 22 [] 0).map Prod.fst = some 0
    ∧ (tlsio_wolfssl_setoption errorRun (some "TrustedCerts") (some "pem") true 0).1 = 0 := by
  decide

theorem setoption_ignores_state (w : Run) (st : TLSIO_STATE_ENUM)
    (optionName value : Option String) (malloc_ok : Bool) (ret : Int) :
    (tlsio_wolfssl_setoption (w.setState st) optionName value malloc_ok ret).1
      = (tlsio_wolfssl_setoption w optionName value malloc_ok ret).1 := by
  unfold tlsio_wolfssl_setoption
  split
  · rfl
  · simp only []
    split_ifs <;> first | rfl | simp_all [Run.setState]

/-- C10, amended.  For a session in `ERROR`: `tlsio_wolfssl_open` and `tlsio_wolfssl_send`
return non-zero and hand back the session as it was; `tlsio_wolfssl_setoption` does not
look at the state (it returns what it returns in any other state) and leaves the state
`ERROR`; `tlsio_wolfssl_close` is accepted: it sets the state to `CLOSING` and calls the
transport's close, and whatever the transport delivers inside `xio_close` (`w2` is the
session when `xio_close` returns) it returns 0 and destroys the engine session when the
transport's close returns 0 and returns the non-zero `__FAILURE__` of line 759 otherwise;
the state on return is `CLOSING` when the transport delivers nothing inside `xio_close`
and `NOT_OPEN` when it delivers the close completion there; `tlsio_wolfssl_destroy` is
accepted as well and tears the session down. -/
theorem error_state_operations (w : Run) (h : w.tls.tlsio_state = TLSIO_STATE_ERROR) :
    (∀ (a b c d e f : Nat) (o : EngineSetup) (evs : List TransportEvent) (ret : Int),
      tlsio_wolfssl_open w a b c d e f o evs ret = some (FAILURE 685, w))
    ∧ (∀ (buffer : List Byte) (size cb ctx : Nat) (write : EngineCall),
        tlsio_wolfssl_send w buffer size cb ctx write = some (FAILURE 788, w))
    ∧ FAILURE 685 ≠ 0 ∧ FAILURE 788 ≠ 0
    ∧ (∀ (st : TLSIO_STATE_ENUM) (optionName value : Option String) (malloc_ok : Bool)
        (ret : Int),
        (tlsio_wolfssl_setoption w optionName value malloc_ok ret).1
          = (tlsio_wolfssl_setoption (w.setState st) optionName value malloc_ok ret).1
        ∧ (tlsio_wolfssl_setoption w optionName value malloc_ok ret).2.tls.tlsio_state
          = TLSIO_STATE_ERROR)
    ∧ (∀ (cb ctx : Nat) (evs : List TransportEvent) (ret : Int) (w2 : Run),
        transport_events ((close_register w cb ctx).emit (.xio_close w.tls.socket_io)) evs
          = some w2 →
        tlsio_wolfssl_close w cb ctx evs ret
          = some (if ret = 0 then (0, destroy_wolfssl_instance w2) else (FAILURE 759, w2))
        ∧ (close_register w cb ctx).tls.tlsio_state = TLSIO_STATE_CLOSING
        ∧ FAILURE 759 ≠ 0
        ∧ (evs = [] → w2.tls.tlsio_state = TLSIO_STATE_CLOSING
            ∧ (destroy_wolfssl_instance w2).tls.tlsio_state = TLSIO_STATE_CLOSING)
        ∧ (evs = [.close_complete] → w2.tls.tlsio_state = TLSIO_STATE_NOT_OPEN
            ∧ (destroy_wolfssl_instance w2).tls.tlsio_state = TLSIO_STATE_NOT_OPEN))
    ∧ (tlsio_wolfssl_destroy w).trace
        = w.trace ++ [.wolfSSL_CTX_free w.tls.ssl_context, .xio_destroy w.tls.socket_io] := by
  have hno : w.tls.tlsio_state ≠ TLSIO_STATE_NOT_OPEN := by rw [h]; decide
  have hnc : w.tls.tlsio_state ≠ TLSIO_STATE_CLOSING := by rw [h]; decide
  have hnop : w.tls.tlsio_state ≠ TLSIO_STATE_OPEN := by rw [h]; decide
  refine ⟨?_, ?_, failure_ne_zero _ (by decide), failure_ne_zero _ (by decide), ?_, ?_, ?_⟩
  · intro a b c d e f o evs ret
    unfold tlsio_wolfssl_open
    rw [if_pos hno]
  · intro buffer size cb ctx write
    cases write with
    | mk callbacks res =>
      simp only [tlsio_wolfssl_send]
      rw [if_pos hnop]
  · intro st n v ok ret
    exact ⟨(setoption_ignores_state w st n v ok ret).symm,
      (ssl_setoption w n v ok ret).2.trans h⟩
  · intro cb ctx evs ret w2 hev
    refine ⟨close_accepted w w2 cb ctx evs ret hno hnc hev, rfl,
      failure_ne_zero _ (by decide), ?_, ?_⟩
    · intro he
      subst he
      simp only [transport_events, Option.some.injEq] at hev
      subst hev
      exact ⟨rfl, rfl⟩
    · intro he
      subst he
      simp only [transport_events, transport_event, Option.some.injEq] at hev
      subst hev
      have hst : (on_underlying_io_close_complete
          ((close_register w cb ctx).emit (.xio_close w.tls.socket_io))).tls.tlsio_state
          = TLSIO_STATE_NOT_OPEN := by
        unfold on_underlying_io_close_complete
        rw [if_neg (by simp [close_register, Run.emit])]
        rfl
      exact ⟨hst, hst⟩
  · simp [tlsio_wolfssl_destroy, Run.emit]

/-- The C10 witness: an open on the sample session in `ERROR` is rejected, and a close
over a transport that delivers the close completion inside `xio_close` is accepted. -/
theorem error_state_operations_witness :
    errorRun.tls.tlsio_state = TLSIO_STATE_ERROR
    ∧ tlsio_wolfssl_open errorRun 31 32 33 34 35 36 goodEngine syncOpenEvents 0
        = some (FAILURE 685, errorRun)
    ∧ tlsio_wolfssl_close errorRun 21 22 [.close_complete] 0
        = some (if (0 : Int) = 0 then
            (0, destroy_wolfssl_instance
              (on_underlying_io_close_complete
                ((close_register errorRun 21 22).emit (.xio_close errorRun.tls.socket_io))))
            else
              (FAILURE 759,
                on_underlying_io_close_complete
                  ((close_register errorRun 21 22).emit
                    (.xio_close errorRun.tls.socket_io)))) :=
  ⟨by decide,
    (error_state_operations errorRun (by decide)).1 31 32 33 34 35 36 goodEngine
      syncOpenEvents 0,
    ((error_state_operations errorRun (by decide)).2.2.2.2.2.1 21 22 [.close_complete] 0
      (on_underlying_io_close_complete
        ((close_register errorRun 21 22).emit (.xio_close errorRun.tls.socket_io)))
      rfl).1⟩

theorem indicate_error_eq (w : Run) :
    indicate_error w
      = { w with trace := w.trace ++
            (if w.tls.on_io_error ≠ 0 then
              [.on_io_error w.tls.on_io_error w.tls.on_io_error_context] else []) } := by
  unfold indicate_error
  split <;> simp [Run.emit]

theorem indicate_open_complete_eq (w : Run) (r : IO_OPEN_RESULT) :
    indicate_open_complete w r
      = { w with trace := w.trace ++
            (if w.tls.on_io_open_complete ≠ 0 then
              [.on_io_open_complete w.tls.on_io_open_complete
                w.tls.on_io_open_complete_context r] else []) } := by
  unfold indicate_open_complete
  split <;> simp [Run.emit]

theorem error_in_open (w : Run) (h : w.tls.tlsio_state = TLSIO_STATE_OPEN) :
    on_underlying_io_error w
      = { tls := { w.tls with tlsio_state := TLSIO_STATE_ERROR }
          trace := w.trace ++
            (if w.tls.on_io_error ≠ 0 then
              [.on_io_error w.tls.on_io_error w.tls.on_io_error_context] else []) } := by
  unfold on_underlying_io_error
  rw [h]
  simp only [indicate_error_eq, Run.setState]

theorem error_in_opening (w : Run)
    (h : w.tls.tlsio_state = TLSIO_STATE_OPENING_UNDERLYING_IO
      ∨ w.tls.tlsio_state = TLSIO_STATE_IN_HANDSHAKE) :
    on_underlying_io_error w
      = { tls := { w.tls with tlsio_state := TLSIO_STATE_ERROR }
          trace := w.trace ++
            (if w.tls.on_io_open_complete ≠ 0 then
              [.on_io_open_complete w.tls.on_io_open_complete
                w.tls.on_io_open_complete_context IO_OPEN_ERROR] else []) } := by
  unfold on_underlying_io_error
  rcases h with h | h <;> rw [h] <;> simp only [indicate_open_complete_eq, Run.setState]

theorem error_ignored (w : Run)
    (h : w.tls.tlsio_state = TLSIO_STATE_NOT_OPEN ∨ w.tls.tlsio_state = TLSIO_STATE_ERROR
      ∨ w.tls.tlsio_state = TLSIO_STATE_CLOSING) :
    on_underlying_io_error w = w := by
  unfold on_underlying_io_error
  rcases h with h | h | h <;> rw [h]

theorem call_silenced (w : Run) (h : w.tls.tlsio_state = TLSIO_STATE_ERROR) (c : Call)
    (hc : c.isErrorSendOrDowork = true) : call w c = some (c.silencedResult, w) := by
  cases c with
  | stimulus s =>
    cases s with
    | transport e =>
      cases e with
      | error =>
        simp only [call, stimulus, transport_event, Option.map, error_ignored w (Or.inr (Or.inl h)),
          Call.silencedResult]
      | _ => simp [Call.isErrorSendOrDowork] at hc
    | engine cb => simp [Call.isErrorSendOrDowork] at hc
  | send buffer size cb ctx write =>
    cases write with
    | mk callbacks res =>
      simp only [call, tlsio_wolfssl_send]
      rw [if_pos (by rw [h]; decide)]
      rfl
  | dowork reads poll =>
    simp only [call, tlsio_wolfssl_dowork]
    rw [if_neg (by rw [h]; simp)]
    rfl
  | _ => simp [Call.isErrorSendOrDowork] at hc

theorem calls_silenced (w : Run) (h : w.tls.tlsio_state = TLSIO_STATE_ERROR) :
    ∀ cs : List Call, (∀ c ∈ cs, c.isErrorSendOrDowork = true) →
      calls w cs = some (cs.map Call.silencedResult, w)
  | [], _ => rfl
  | c :: rest, hcs => by
    simp only [calls]
    rw [call_silenced w h c (hcs c (List.mem_cons_self _ _))]
    simp only []
    rw [calls_silenced w h rest (fun c hc => hcs c (List.mem_cons_of_mem _ hc))]
    rfl

/-! ## C11: close before the handshake completes -/

/-- A callback that returns without calling the adapter: the handler of the open completion
is the one of the event scripts. -/
theorem open_complete_reentrant_some (w : Run) (r : IO_OPEN_RESULT) (c : EngineCall) :
    on_underlying_io_open_complete_reentrant w r some c = on_underlying_io_open_complete w r c := by
  cases c with
  | mk cbs res =>
    simp only [on_underlying_io_open_complete_reentrant, on_underlying_io_open_complete,
      indicate_open_complete_reentrant, indicate_open_complete]
    split
    · split <;> rfl
    · cases engine_callbacks
          ((w.setState TLSIO_STATE_IN_HANDSHAKE).emit (.wolfSSL_connect w.tls.ssl)) cbs with
      | none => rfl
      | some w2 =>
        simp only []
        by_cases hres : res ≠ SSL_SUCCESS
        · rw [if_pos hres, if_pos hres]
          by_cases hcb : w2.tls.on_io_open_complete ≠ 0
          · rw [if_pos hcb, if_pos hcb]
          · rw [if_neg hcb, if_neg hcb]
        · rw [if_neg hres, if_neg hres]

/-- A callback that returns without calling the adapter: the open is the open over the
transport that delivers the one open completion. -/
theorem open_reentrant_some (w : Run) (a b c d e f : Nat) (o : EngineSetup)
    (r : IO_OPEN_RESULT) (connect : EngineCall) (ret : Int) :
    tlsio_wolfssl_open_reentrant w a b c d e f o r connect some ret
      = tlsio_wolfssl_open w a b c d e f o [.open_complete r connect] ret := by
  unfold tlsio_wolfssl_open_reentrant tlsio_wolfssl_open
  simp only [transport_events, transport_event, open_complete_reentrant_some]
  split
  · rfl
  · split
    · rfl
    · cases on_underlying_io_open_complete
          ((create_wolfssl_instance (open_register w a b c d e f) o).2.emit
            (.xio_open (create_wolfssl_instance (open_register w a b c d e f) o).2.tls.socket_io))
          r connect with
      | none => rfl
      | some w2 => rfl

/-- C12.  For a session in `OPEN`, `on_underlying_io_error` sets the state to `ERROR`,
writes no other field and invokes the registered error callback once with its registered
context (nothing is invoked when no callback is registered).  Thereafter every sequence of
transport error events, sends and doworks returns with the session, trace included, exactly
as the first error left it: no callback is invoked, the engine's write and read and the
transport's poll are not called, and every send returns the non-zero `__FAILURE__` of
line 788. -/
theorem transport_failure_in_open_reported_once (w : Run)
    (h : w.tls.tlsio_state = TLSIO_STATE_OPEN) :
    on_underlying_io_error w
      = { tls := { w.tls with tlsio_state := TLSIO_STATE_ERROR }
          trace := w.trace ++
            (if w.tls.on_io_error ≠ 0 then
              [.on_io_error w.tls.on_io_error w.tls.on_io_error_context] else []) }
    ∧ (∀ cs : List Call, (∀ c ∈ cs, c.isErrorSendOrDowork = true) →
        calls (on_underlying_io_error w) cs
          = some (cs.map Call.silencedResult, on_underlying_io_error w))
    ∧ FAILURE 788 ≠ 0 := by
  refine ⟨error_in_open w h, ?_, failure_ne_zero _ (by decide)⟩
  intro cs hcs
  refine calls_silenced _ ?_ cs hcs
  rw [error_in_open w h]

/-- The C12 witness: the open sample session after a transport error, then a second
error, a send and a dowork. -/
theorem transport_failure_in_open_reported_once_witness :
    calls (on_underlying_io_error openRun)
        [.stimulus (.transport .error), .send [1, 2] 2 41 42 (.mk [] 2),
          .dowork [(.mk [] 3, [7, 8, 9])] [.bytes_received [1] true]]
      = some ([none, some (FAILURE 788), none], on_underlying_io_error openRun) :=
  (transport_failure_in_open_reported_once openRun (by decide)).2.1
    [.stimulus (.transport .error), .send [1, 2] 2 41 42 (.mk [] 2),
      .dowork [(.mk [] 3, [7, 8, 9])] [.bytes_received [1] true]]
    (by decide)

/-! ## C13: the transport's open completion -/

theorem callbacks_of_config {t t' : TLS_IO_INSTANCE} (h : t'.config = t.config) :
    t'.on_io_open_complete = t.on_io_open_complete
    ∧ t'.on_io_open_complete_context = t.on_io_open_complete_context
    ∧ t'.on_bytes_received = t.on_bytes_received
    ∧ t'.on_bytes_received_context = t.on_bytes_received_context
    ∧ t'.on_io_error = t.on_io_error
    ∧ t'.on_io_error_context = t.on_io_error_context
    ∧ t'.socket_io = t.socket_io := by
  have h1 : t'.config.on_io_open_complete = t.config.on_io_open_complete := by rw [h]
  have h2 : t'.config.on_io_open_complete_context = t.config.on_io_open_complete_context := by
    rw [h]
  have h3 : t'.config.on_bytes_received = t.config.on_bytes_received := by rw [h]
  have h4 : t'.config.on_bytes_received_context = t.config.on_bytes_received_context := by
    rw [h]
  have h5 : t'.config.on_io_error = t.config.on_io_error := by rw [h]
  have h6 : t'.config.on_io_error_context = t.config.on_io_error_context := by rw [h]
  have h7 : t'.config.socket_io = t.config.socket_io := by rw [h]
  exact ⟨h1, h2, h3, h4, h5, h6, h7⟩

/-- C13.  With a result other than `IO_OPEN_OK`, `on_underlying_io_open_complete` sets the
state to `ERROR`, writes no other field, invokes the registered open-complete callback once
with `IO_OPEN_ERROR` (nothing when none is registered) and does not call the engine's
connect.  With `IO_OPEN_OK` the state is `IN_HANDSHAKE` when the engine's connect is
called; once the callbacks the engine makes inside the connect have run (`w2` is the
session then), a result other than `SSL_SUCCESS` makes the handler invoke the registered
open-complete callback with `IO_OPEN_ERROR` and leave the state `ERROR`, while
`SSL_SUCCESS` leaves the session as the connect left it. -/
theorem open_complete_handling (w : Run) :
    (∀ (open_result : IO_OPEN_RESULT) (connect : EngineCall), open_result ≠ IO_OPEN_OK →
      on_underlying_io_open_complete w open_result connect
        = some
          { tls := { w.tls with tlsio_state := TLSIO_STATE_ERROR }
            trace := w.trace ++
              (if w.tls.on_io_open_complete ≠ 0 then
                [.on_io_open_complete w.tls.on_io_open_complete
                  w.tls.on_io_open_complete_context IO_OPEN_ERROR] else []) })
    ∧ (∀ (callbacks : List EngineCallback) (res : Int) (w2 : Run),
        engine_callbacks
            ({ tls := { w.tls with tlsio_state := TLSIO_STATE_IN_HANDSHAKE }
               trace := w.trace ++ [.wolfSSL_connect w.tls.ssl] } : Run) callbacks = some w2 →
        on_underlying_io_open_complete w IO_OPEN_OK (.mk callbacks res)
          = some (if res ≠ SSL_SUCCESS then
              { tls := { w2.tls with tlsio_state := TLSIO_STATE_ERROR }
                trace := w2.trace ++
                  (if w.tls.on_io_open_complete ≠ 0 then
                    [.on_io_open_complete w.tls.on_io_open_complete
                      w.tls.on_io_open_complete_context IO_OPEN_ERROR] else []) }
              else w2)) := by
  constructor
  · intro r c hr
    cases c with
    | mk cbs res =>
      simp only [on_underlying_io_open_complete, if_pos hr, indicate_open_complete_eq,
        Run.setState]
  · intro cbs res w2 h2
    have hcfg := callbacks_of_config (config_engine_callbacks _ w2 cbs h2)
    have hcb : w2.tls.on_io_open_complete = w.tls.on_io_open_complete := hcfg.1
    have hctx : w2.tls.on_io_open_complete_context = w.tls.on_io_open_complete_context :=
      hcfg.2.1
    have h2' : engine_callbacks
        ((w.setState TLSIO_STATE_IN_HANDSHAKE).emit (.wolfSSL_connect w.tls.ssl)) cbs
        = some w2 := h2
    simp only [on_underlying_io_open_complete]
    rw [if_neg (by simp), h2']
    simp only []
    split
    · simp only [indicate_open_complete_eq, Run.setState, hcb, hctx]
    · rfl

/-- The C13 witness: the open sample session receiving a
cancelled open completion. -/
theorem open_complete_handling_witness :
    on_underlying_io_open_complete openRun IO_OPEN_CANCELLED (.mk [.handshake_done] 1)
      = some
        { tls := { openRun.tls with tlsio_state := TLSIO_STATE_ERROR }
          trace := openRun.trace ++
            (if openRun.tls.on_io_open_complete ≠ 0 then
              [.on_io_open_complete openRun.tls.on_io_open_complete
                openRun.tls.on_io_open_complete_context IO_OPEN_ERROR] else []) } :=
  (open_complete_handling openRun).1 IO_OPEN_CANCELLED (.mk [.handshake_done] 1) (by decide)

/-! ## C14: how often a failed open is reported -/

/-- C14, the code at the failing input.  The sample session is opened over a transport
that completes the open inside `xio_open` and reports an error while the engine's connect
waits in the read bridge's poll loop; the connect then fails.  The one open attempt ends in
`ERROR` with the open-complete callback (11, 12) invoked twice with `IO_OPEN_ERROR`: once
by `on_underlying_io_error`, once more by `on_underlying_io_open_complete` after the
connect returned. -/
theorem failed_open_is_reported_twice :
    calls createdRun [.open 11 12 13 14 15 16 goodEngine errorInHandshakeEvents 0]
      = some ([some (FAILURE 718)], doubleReportRun)
    ∧ doubleReportRun.tls.tlsio_state = TLSIO_STATE_ERROR
    ∧ doubleReportRun.trace.filter Effect.isOnOpen
        = [.on_io_open_complete 11 12 IO_OPEN_ERROR, .on_io_open_complete 11 12 IO_OPEN_ERROR]
    ∧ on_open_calls doubleReportRun.trace = 2 := by
  decide

/-! ## C19: the transport's error report -/

/-- C19.  In `OPENING_UNDERLYING_IO` and `IN_HANDSHAKE`, `on_underlying_io_error` sets the
state to `ERROR` and invokes the registered open-complete callback once with
`IO_OPEN_ERROR`; in `OPEN` it sets the state to `ERROR` and invokes the registered error
callback once; in `NOT_OPEN`, `ERROR` and `CLOSING` it hands back the session as it was.
In each case nothing else is written: the other fields are as before and the trace gets
that one entry, or none when no callback is registered. -/
theorem transport_error_transition_table (w : Run) :
    ((w.tls.tlsio_state = TLSIO_STATE_OPENING_UNDERLYING_IO
        ∨ w.tls.tlsio_state = TLSIO_STATE_IN_HANDSHAKE) →
      on_underlying_io_error w
        = { tls := { w.tls with tlsio_state := TLSIO_STATE_ERROR }
            trace := w.trace ++
              (if w.tls.on_io_open_complete ≠ 0 then
                [.on_io_open_complete w.tls.on_io_open_complete
                  w.tls.on_io_open_complete_context IO_OPEN_ERROR] else []) })
    ∧ (w.tls.tlsio_state = TLSIO_STATE_OPEN →
        on_underlying_io_error w
          = { tls := { w.tls with tlsio_state := TLSIO_STATE_ERROR }
              trace := w.trace ++
                (if w.tls.on_io_error ≠ 0 then
                  [.on_io_error w.tls.on_io_error w.tls.on_io_error_context] else []) })
    ∧ ((w.tls.tlsio_state = TLSIO_STATE_NOT_OPEN ∨ w.tls.tlsio_state = TLSIO_STATE_ERROR
          ∨ w.tls.tlsio_state = TLSIO_STATE_CLOSING) →
        on_underlying_io_error w = w) :=
  ⟨error_in_opening w, error_in_open w, error_ignored w⟩

/-- The C19 witness: the sample session in `IN_HANDSHAKE` receiving a transport error. -/
theorem transport_error_transition_table_witness :
    on_underlying_io_error handshakingRun
      = { tls := { handshakingRun.tls with tlsio_state := TLSIO_STATE_ERROR }
          trace := handshakingRun.trace ++
            (if handshakingRun.tls.on_io_open_complete ≠ 0 then
              [.on_io_open_complete handshakingRun.tls.on_io_open_complete
                handshakingRun.tls.on_io_open_complete_context IO_OPEN_ERROR] else []) } :=
  (transport_error_transition_table handshakingRun).1 (by decide)

/-! ## C20: the transport's close completion -/

/-- C20.  In `CLOSING`, `on_underlying_io_close_complete` invokes the registered
close-complete callback once with its registered context (nothing when none is
registered), sets the state to `NOT_OPEN` and writes nothing else; a subsequent
`tlsio_wolfssl_open` then passes the state check, constructs the engine session and calls
the transport's open.  In every other state the handler hands back the session as it
was. -/
theorem close_complete_returns_to_not_open (w : Run) :
    (w.tls.tlsio_state = TLSIO_STATE_CLOSING →
      on_underlying_io_close_complete w
        = { tls := { w.tls with tlsio_state := TLSIO_STATE_NOT_OPEN }
            trace := w.trace ++
              (if w.tls.on_io_close_complete ≠ 0 then
                [.on_io_close_complete w.tls.on_io_close_complete
                  w.tls.on_io_close_complete_context] else []) }
      ∧ ∀ (a b c d e f : Nat) (o : EngineSetup) (evs : List TransportEvent) (ret : Int)
          (w2 : Run),
          (create_wolfssl_instance
            (open_register (on_underlying_io_close_complete w) a b c d e f) o).1 = 0 →
          transport_events
            ((create_wolfssl_instance
              (open_register (on_underlying_io_close_complete w) a b c d e f) o).2.emit
              (.xio_open w.tls.socket_io)) evs = some w2 →
          tlsio_wolfssl_open (on_underlying_io_close_complete w) a b c d e f o evs ret
            = some (if ret ≠ 0 then (FAILURE 710, w2.setState TLSIO_STATE_NOT_OPEN)
                else if w2.tls.tlsio_state ≠ TLSIO_STATE_OPEN then (FAILURE 718, w2)
                else (0, w2)))
    ∧ (w.tls.tlsio_state ≠ TLSIO_STATE_CLOSING → on_underlying_io_close_complete w = w) := by
  constructor
  · intro h
    have heq : on_underlying_io_close_complete w
        = { tls := { w.tls with tlsio_state := TLSIO_STATE_NOT_OPEN }
            trace := w.trace ++
              (if w.tls.on_io_close_complete ≠ 0 then
                [.on_io_close_complete w.tls.on_io_close_complete
                  w.tls.on_io_close_complete_context] else []) } := by
      unfold on_underlying_io_close_complete
      rw [if_neg (by simp [h])]
      simp only []
      split <;> simp [Run.emit, Run.setState]
    refine ⟨heq, ?_⟩
    intro a b c d e f o evs ret w2 hc hev
    have hs : (on_underlying_io_close_complete w).tls.tlsio_state = TLSIO_STATE_NOT_OPEN := by
      rw [heq]
    have hsock : (on_underlying_io_close_complete w).tls.socket_io = w.tls.socket_io := by
      rw [heq]
    exact open_constructed _ w2 a b c d e f o evs ret hs hc (by rw [hsock]; exact hev)
  · intro h
    unfold on_underlying_io_close_complete
    rw [if_pos h]

/-- The C20 witness: the closing sample session receiving the close completion. -/
theorem close_complete_returns_to_not_open_witness :
    on_underlying_io_close_complete closedRun
      = { tls := { closedRun.tls with tlsio_state := TLSIO_STATE_NOT_OPEN }
          trace := closedRun.trace ++
            (if closedRun.tls.on_io_close_complete ≠ 0 then
              [.on_io_close_complete closedRun.tls.on_io_close_complete
                closedRun.tls.on_io_close_complete_context] else []) } :=
  ((close_complete_returns_to_not_open closedRun).1 (by decide)).1

theorem SetupOnly.refl (tr : List Effect) : SetupOnly tr tr := ⟨[], by simp, by simp⟩

theorem SetupOnly.emit {tr : List Effect} {w : Run} (h : SetupOnly tr w.trace) (e : Effect)
    (he : e.isEngineSetup = true) : SetupOnly tr (w.emit e).trace := by
  obtain ⟨es, h1, h2⟩ := h
  refine ⟨es ++ [e], ?_, ?_⟩
  · simp [Run.emit, h1]
  · intro x hx
    rcases List.mem_append.mp hx with hx | hx
    · exact h2 x hx
    · rw [List.mem_singleton.mp hx]; exact he

theorem setupOnly_add_certificate_to_store (w : Run) (res : Int) :
    SetupOnly w.trace (add_certificate_to_store w res).2.trace := by
  unfold add_certificate_to_store
  split
  · simp only []
    split <;> exact (SetupOnly.refl _).emit _ (by rfl)
  · exact SetupOnly.refl _

theorem setupOnly_add_credentials {tr : List Effect} (w : Run) (ssl : Nat) (c k : String)
    (o : EngineSetup) (h : SetupOnly tr w.trace) :
    SetupOnly tr (x509_wolfssl_add_credentials w ssl c k o).2.trace := by
  unfold x509_wolfssl_add_credentials
  simp only []
  split
  · exact h.emit _ (by rfl)
  · split <;> exact (h.emit _ (by rfl)).emit _ (by rfl)

theorem setupOnly_destroy {tr : List Effect} (w : Run) (h : SetupOnly tr w.trace) :
    SetupOnly tr (destroy_wolfssl_instance w).trace :=
  h.emit (.wolfSSL_free w.tls.ssl) (by rfl)

theorem add_credentials_failed (w : Run) (ssl : Nat) (c k : String) (o : EngineSetup)
    (hfail : o.wolfSSL_use_certificate_chain_buffer ≠ SSL_SUCCESS
      ∨ o.wolfSSL_use_PrivateKey_buffer ≠ SSL_SUCCESS) :
    (x509_wolfssl_add_credentials w ssl c k o).1 ≠ 0 := by
  unfold x509_wolfssl_add_credentials
  simp only []
  split
  · exact failure_ne_zero _ (by decide)
  · rename_i hcc
    split
    · exact failure_ne_zero _ (by decide)
    · rename_i hkk
      rcases hfail with hfail | hfail
      · exact absurd hfail hcc
      · exact absurd hfail hkk

/-- A failed engine-session construction: the result is non-zero, the trace gets calls of
the construction only, and `ssl` is left alone when the trusted certificate is what failed
and null otherwise. -/
theorem create_wolfssl_instance_failed (w : Run) (o : EngineSetup)
    (hf : trustedCertificateFails w.tls o ∨ o.wolfSSL_new = 0 ∨ clientCredentialsFail w.tls o) :
    (create_wolfssl_instance w o).1 ≠ 0
    ∧ SetupOnly w.trace (create_wolfssl_instance w o).2.trace
    ∧ (trustedCertificateFails w.tls o → (create_wolfssl_instance w o).2.tls.ssl = w.tls.ssl)
    ∧ (¬ trustedCertificateFails w.tls o → (create_wolfssl_instance w o).2.tls.ssl = 0) := by
  have hstore := setupOnly_add_certificate_to_store w o.wolfSSL_CTX_load_verify_buffer
  have htls := tls_add_certificate_to_store w o.wolfSSL_CTX_load_verify_buffer
  have hres : (add_certificate_to_store w o.wolfSSL_CTX_load_verify_buffer).1 ≠ 0
      ↔ trustedCertificateFails w.tls o := by
    unfold add_certificate_to_store trustedCertificateFails
    split
    · rename_i c hc
      simp only []
      split
      · rename_i hl
        simp [hc, hl, FAILURE]
      · rename_i hl
        simp [hl]
    · rename_i hc
      simp [hc]
  unfold create_wolfssl_instance
  simp only []
  split
  · rename_i h1
    refine ⟨failure_ne_zero _ (by decide), hstore, fun _ => by rw [htls], fun hn => ?_⟩
    exact absurd (hres.mp h1) hn
  · rename_i h1
    have hnt : ¬ trustedCertificateFails w.tls o := fun ht => h1 (hres.mpr ht)
    have hnew : SetupOnly w.trace
        ((add_certificate_to_store w o.wolfSSL_CTX_load_verify_buffer).2.emit
          (.wolfSSL_new
            (add_certificate_to_store w o.wolfSSL_CTX_load_verify_buffer).2.tls.ssl_context)).trace :=
      hstore.emit _ (by rfl)
    split
    · exact ⟨failure_ne_zero _ (by decide), hnew, fun ht => absurd ht hnt, fun _ => by assumption⟩
    · rename_i h2
      have h2' : ¬ o.wolfSSL_new = 0 := h2
      have hcl : clientCredentialsFail w.tls o := by
        rcases hf with hf | hf | hf
        · exact absurd hf hnt
        · exact absurd hf h2'
        · exact hf
      obtain ⟨hc, hk, hfail⟩ := hcl
      obtain ⟨c, hc⟩ := Option.ne_none_iff_exists'.mp hc
      obtain ⟨k, hk⟩ := Option.ne_none_iff_exists'.mp hk
      have hc' : (add_certificate_to_store w o.wolfSSL_CTX_load_verify_buffer).2.tls.x509certificate
          = some c := by rw [htls]; exact hc
      have hk' : (add_certificate_to_store w o.wolfSSL_CTX_load_verify_buffer).2.tls.x509privatekey
          = some k := by rw [htls]; exact hk
      simp only [Run.emit, hc', hk']
      split
      · refine ⟨failure_ne_zero _ (by decide), ?_, fun ht => absurd ht hnt, fun _ => rfl⟩
        exact setupOnly_destroy _ (setupOnly_add_credentials _ _ c k o hnew)
      · rename_i hno
        exact absurd (by simpa using add_credentials_failed _ _ c k o hfail) hno

/-! ## C15: credential failure -/

/-- C15, counterexample.  The sample session gets a trusted certificate and is opened over
a transport that has not completed the open when `xio_open` returns: it is in `NOT_OPEN`
and holds the engine session 5.  A second open in which the engine refuses the trusted
certificate returns the `__FAILURE__` of line 704 in `NOT_OPEN`, and `ssl` is still 5, not
null. -/
theorem credential_failure_counterexample :
    calls createdRun
        [.setoption (some "TrustedCerts") (some "pem") true 0,
          .open 11 12 13 14 15 16 goodEngine [] 0]
      = some ([some 0, some (FAILURE 718)], pendingCertificateRun)
    ∧ pendingCertificateRun.tls.tlsio_state = TLSIO_STATE_NOT_OPEN
    ∧ pendingCertificateRun.tls.certificate ≠ none
    ∧ badCertificateEngine.wolfSSL_CTX_load_verify_buffer ≠ SSL_SUCCESS
    ∧ (tlsio_wolfssl_open pendingCertificateRun 11 12 13 14 15 16 badCertificateEngine [] 0).map
          (fun r => (r.1, r.2.tls.tlsio_state, r.2.tls.ssl))
        = some (FAILURE 704, TLSIO_STATE_NOT_OPEN, 5) := by
  decide

/-- C15, amended.  For a session in `NOT_OPEN`, if loading the trusted certificate,
creating the engine session, or loading the client certificate or the client private key
fails, then `tlsio_wolfssl_open` returns the non-zero `__FAILURE__` of line 704 in
`NOT_OPEN`; the only calls made are those of engine-session construction, so the
transport's open is not called and the open-complete callback is not invoked.  The engine
session handle is null when creating the session or loading the client credentials failed;
when the trusted certificate failed to load, `ssl` is not touched and is what it was before
the call. -/
theorem credential_failure_fails_open (w : Run) (a b c d e f : Nat) (o : EngineSetup)
    (evs : List TransportEvent) (ret : Int)
    (hs : w.tls.tlsio_state = TLSIO_STATE_NOT_OPEN)
    (hf : trustedCertificateFails w.tls o ∨ o.wolfSSL_new = 0
      ∨ clientCredentialsFail w.tls o) :
    ∃ w', tlsio_wolfssl_open w a b c d e f o evs ret = some (FAILURE 704, w')
      ∧ FAILURE 704 ≠ 0
      ∧ w'.tls.tlsio_state = TLSIO_STATE_NOT_OPEN
      ∧ SetupOnly w.trace w'.trace
      ∧ (trustedCertificateFails w.tls o → w'.tls.ssl = w.tls.ssl)
      ∧ (¬ trustedCertificateFails w.tls o → w'.tls.ssl = 0) := by
  obtain ⟨h1, h2, h3, h4⟩ := create_wolfssl_instance_failed (open_register w a b c d e f) o hf
  refine ⟨(create_wolfssl_instance (open_register w a b c d e f) o).2.setState
    TLSIO_STATE_NOT_OPEN, ?_, failure_ne_zero _ (by decide), rfl, h2, h3, h4⟩
  unfold tlsio_wolfssl_open
  rw [if_neg (by simp [hs])]
  simp only []
  rw [if_pos h1]

/-- The C15 witness: an open of the created sample session in which the engine cannot
create the session. -/
theorem credential_failure_fails_open_witness :
    ∃ w', tlsio_wolfssl_open createdRun 11 12 13 14 15 16
          { goodEngine with wolfSSL_new := 0 } syncOpenEvents 0 = some (FAILURE 704, w')
      ∧ FAILURE 704 ≠ 0
      ∧ w'.tls.tlsio_state = TLSIO_STATE_NOT_OPEN
      ∧ SetupOnly createdRun.trace w'.trace
      ∧ (trustedCertificateFails createdRun.tls { goodEngine with wolfSSL_new := 0 } →
          w'.tls.ssl = createdRun.tls.ssl)
      ∧ (¬ trustedCertificateFails createdRun.tls { goodEngine with wolfSSL_new := 0 } →
          w'.tls.ssl = 0) :=
  credential_failure_fails_open createdRun 11 12 13 14 15 16
    { goodEngine with wolfSSL_new := 0 } syncOpenEvents 0 (by decide) (Or.inr (Or.inl rfl))

/-! ## C17: options of the transport -/

/-- C17.  For an option name that is none of the five names of the credentials,
`tlsio_wolfssl_setoption` on a session with a transport handle calls the transport's
set-option once with that name and value and returns what it returns; on a session without
a transport handle it returns the non-zero `__FAILURE__` of line 885 and calls nothing.  In
both cases no field of the session is written, the three credentials included. -/
theorem unrecognised_option_forwarded (w : Run) (optionName : String) (value : Option String)
    (malloc_ok : Bool) (ret : Int)
    (h1 : optionName ≠ OPTION_TRUSTED_CERT)
    (h2 : optionName ≠ SU_OPTION_X509_CERT) (h3 : optionName ≠ OPTION_X509_ECC_CERT)
    (h4 : optionName ≠ SU_OPTION_X509_PRIVATE_KEY) (h5 : optionName ≠ OPTION_X509_ECC_KEY) :
    (w.tls.socket_io ≠ 0 →
      tlsio_wolfssl_setoption w (some optionName) value malloc_ok ret
        = (ret, { w with trace := w.trace ++ [.xio_setoption w.tls.socket_io optionName value] }))
    ∧ (w.tls.socket_io = 0 →
        tlsio_wolfssl_setoption w (some optionName) value malloc_ok ret = (FAILURE 885, w))
    ∧ FAILURE 885 ≠ 0 := by
  have e1 : ¬ OPTION_TRUSTED_CERT = optionName := fun h => h1 h.symm
  have e2 : ¬ (SU_OPTION_X509_CERT = optionName ∨ OPTION_X509_ECC_CERT = optionName) := by
    rintro (h | h)
    · exact h2 h.symm
    · exact h3 h.symm
  have e3 : ¬ (SU_OPTION_X509_PRIVATE_KEY = optionName ∨ OPTION_X509_ECC_KEY = optionName) := by
    rintro (h | h)
    · exact h4 h.symm
    · exact h5 h.symm
  refine ⟨?_, ?_, failure_ne_zero _ (by decide)⟩
  · intro hs
    simp only [tlsio_wolfssl_setoption]
    rw [if_neg e1, if_neg e2, if_neg e3, if_neg hs]
    rfl
  · intro hs
    simp only [tlsio_wolfssl_setoption]
    rw [if_neg e1, if_neg e2, if_neg e3, if_pos hs]

/-- The C17 witness: an option of the transport set on the open sample session. -/
theorem unrecognised_option_forwarded_witness :
    tlsio_wolfssl_setoption openRun (some "tcp_keepalive") (some "1") true 0
      = (0, { openRun with
          trace := openRun.trace ++ [.xio_setoption openRun.tls.socket_io "tcp_keepalive"
            (some "1")] }) :=
  (unrecognised_option_forwarded openRun "tcp_keepalive" (some "1") true 0 (by decide)
    (by decide) (by decide) (by decide) (by decide)).1 (by decide)

theorem credentials_of_config {t t' : TLS_IO_INSTANCE} (h : t'.config = t.config) :
    t'.credentials = t.credentials := by
  have h1 : t'.config.credentials = t.config.credentials := by rw [h]
  exact h1

theorem field_of_credentials {t t' : TLS_IO_INSTANCE} (h : t'.credentials = t.credentials)
    (k : Credential) : k.field t' = k.field t := by
  unfold TLS_IO_INSTANCE.credentials at h
  have h1 := (Prod.mk.inj h).1
  have h2 := (Prod.mk.inj (Prod.mk.inj h).2).1
  have h3 := (Prod.mk.inj (Prod.mk.inj h).2).2
  cases k <;> simp only [Credential.field] <;> assumption

theorem credentials_create (w : Run) (o : EngineSetup) :
    (create_wolfssl_instance w o).2.tls.credentials = w.tls.credentials := by
  have htls := tls_add_certificate_to_store w o.wolfSSL_CTX_load_verify_buffer
  unfold create_wolfssl_instance
  simp only []
  split
  · rw [htls]
  · split
    · simp only [Run.emit, htls]; rfl
    · split
      · simp only [destroy_wolfssl_instance, Run.emit]
        split
        · simp only [tls_add_credentials, htls]; rfl
        · simp only [htls]; rfl
      · simp only [Run.emit]
        split
        · simp only [tls_add_credentials, htls]; rfl
        · simp only [htls]; rfl

theorem credentials_open (w w' : Run) (r : Int) (a b c d e f : Nat) (o : EngineSetup)
    (evs : List TransportEvent) (ret : Int)
    (h : tlsio_wolfssl_open w a b c d e f o evs ret = some (r, w')) :
    w'.tls.credentials = w.tls.credentials := by
  have hc : (create_wolfssl_instance (open_register w a b c d e f) o).2.tls.credentials
      = w.tls.credentials := credentials_create _ o
  unfold tlsio_wolfssl_open at h
  split at h
  · have h := Option.some.inj h
    rw [← (Prod.mk.inj h).2]
  · simp only [] at h
    split at h
    · have h := Option.some.inj h
      rw [← (Prod.mk.inj h).2]
      exact hc
    · split at h
      · cases h
      · rename_i w2 hw2
        have h2 : w2.tls.credentials = w.tls.credentials :=
          (credentials_of_config (config_transport_events _ w2 evs hw2)).trans hc
        split at h
        · have h := Option.some.inj h
          rw [← (Prod.mk.inj h).2]; exact h2
        · split at h <;>
          · have h := Option.some.inj h
            rw [← (Prod.mk.inj h).2]; exact h2

theorem credentials_close (w w' : Run) (r : Int) (cb ctx : Nat) (evs : List TransportEvent)
    (ret : Int) (h : tlsio_wolfssl_close w cb ctx evs ret = some (r, w')) :
    w'.tls.credentials = w.tls.credentials := by
  unfold tlsio_wolfssl_close at h
  split at h
  · have h := Option.some.inj h
    rw [← (Prod.mk.inj h).2]
  · simp only [] at h
    split at h
    · cases h
    · rename_i w2 hw2
      have h2 : w2.tls.credentials = (close_register w cb ctx).tls.credentials :=
        credentials_of_config (config_transport_events
          ((close_register w cb ctx).emit (.xio_close (close_register w cb ctx).tls.socket_io))
          w2 evs hw2)
      split at h <;>
      · have h := Option.some.inj h
        rw [← (Prod.mk.inj h).2]; exact h2

theorem credentials_send (w w' : Run) (r : Int) (buffer : List Byte) (size cb ctx : Nat)
    (write : EngineCall) (h : tlsio_wolfssl_send w buffer size cb ctx write = some (r, w')) :
    w'.tls.credentials = w.tls.credentials := by
  cases write with
  | mk cbs res =>
    simp only [tlsio_wolfssl_send] at h
    split at h
    · have h := Option.some.inj h
      rw [← (Prod.mk.inj h).2]
    · split at h
      · cases h
      · rename_i w2 hw2
        have h2 : w2.tls.credentials = (send_register w buffer size cb ctx).tls.credentials :=
          credentials_of_config (config_engine_callbacks _ w2 cbs hw2)
        split at h <;>
        · have h := Option.some.inj h
          rw [← (Prod.mk.inj h).2]; exact h2

theorem field_setoption_other (w : Run) (k : Credential) (optionName value : Option String)
    (malloc_ok : Bool) (ret : Int)
    (h : (Call.setoption optionName value malloc_ok ret).sets k = false) :
    k.field (tlsio_wolfssl_setoption w optionName value malloc_ok ret).2.tls = k.field w.tls := by
  cases optionName with
  | none => rfl
  | some name =>
    simp only [Call.sets, decide_eq_false_iff_not] at h
    simp only [tlsio_wolfssl_setoption]
    split_ifs with h1 h2 h3 h4
    · cases k
      · exact absurd (by simp [Credential.names, h1]) h
      · rfl
      · rfl
    · cases k
      · rfl
      · exact absurd (by rcases h2 with h2 | h2 <;> simp [Credential.names, ← h2]) h
      · rfl
    · cases k
      · rfl
      · rfl
      · exact absurd (by rcases h3 with h3 | h3 <;> simp [Credential.names, ← h3]) h
    · rfl
    · rfl

theorem field_call (w : Run) (k : Credential) (c : Call) (r : Option Int × Run)
    (hc : c.sets k = false) (h : call w c = some r) : k.field r.2.tls = k.field w.tls := by
  cases c with
  | «open» a b c d e f o evs ret =>
    simp only [call, Option.map_eq_some'] at h
    obtain ⟨x, hx, rfl⟩ := h
    exact field_of_credentials (credentials_open w x.2 x.1 a b c d e f o evs ret hx) k
  | close cb ctx evs ret =>
    simp only [call, Option.map_eq_some'] at h
    obtain ⟨x, hx, rfl⟩ := h
    exact field_of_credentials (credentials_close w x.2 x.1 cb ctx evs ret hx) k
  | send buffer size cb ctx write =>
    simp only [call, Option.map_eq_some'] at h
    obtain ⟨x, hx, rfl⟩ := h
    exact field_of_credentials (credentials_send w x.2 x.1 buffer size cb ctx write hx) k
  | dowork reads poll =>
    simp only [call, Option.map_eq_some'] at h
    obtain ⟨x, hx, rfl⟩ := h
    exact field_of_credentials (credentials_of_config (config_dowork w x reads poll hx)) k
  | setoption n v ok ret =>
    simp only [call, Option.some.injEq] at h
    subst h
    exact field_setoption_other w k n v ok ret hc
  | stimulus s =>
    simp only [call, Option.map_eq_some'] at h
    obtain ⟨x, hx, rfl⟩ := h
    exact field_of_credentials (credentials_of_config (config_stimulus w x s hx)) k

theorem field_calls (k : Credential) : ∀ (cs : List Call) (w : Run)
    (rs : List (Option Int) × Run), (∀ c ∈ cs, c.sets k = false) → calls w cs = some rs →
    k.field rs.2.tls = k.field w.tls
  | [], w, rs, _, h => by
    simp only [calls, Option.some.injEq] at h
    subst h; rfl
  | c :: rest, w, rs, hcs, h => by
    simp only [calls] at h
    split at h
    · cases h
    · rename_i r hr
      split at h
      · cases h
      · rename_i rs' hrs'
        have h := Option.some.inj h
        subst h
        exact (field_calls k rest r.2 rs' (fun c hc => hcs c (List.mem_cons_of_mem _ hc))
          hrs').trans (field_call w k c r (hcs c (List.mem_cons_self _ _)) hr)

theorem process_option_ok (destination value : Option String) (malloc_ok : Bool)
    (h : (process_option destination value malloc_ok).1 = 0) :
    ∃ v, value = some v ∧ (process_option destination value malloc_ok).2 = some v := by
  unfold process_option mallocAndStrcpy_s at *
  cases value with
  | none => exact absurd h (failure_ne_zero _ (by decide))
  | some v =>
    cases malloc_ok with
    | false => exact absurd h (failure_ne_zero _ (by decide))
    | true => exact ⟨v, rfl, rfl⟩

theorem field_setoption_set (w : Run) (k : Credential) (name : String) (value : Option String)
    (malloc_ok : Bool) (ret : Int) (hname : name ∈ k.names)
    (h : (tlsio_wolfssl_setoption w (some name) value malloc_ok ret).1 = 0) :
    ∃ v, value = some v
      ∧ k.field (tlsio_wolfssl_setoption w (some name) value malloc_ok ret).2.tls = some v := by
  cases k with
  | trusted_certificate =>
    have hn : name = OPTION_TRUSTED_CERT := by simpa [Credential.names] using hname
    subst hn
    simp only [tlsio_wolfssl_setoption, if_true] at h ⊢
    exact process_option_ok _ _ _ h
  | client_certificate =>
    have hn : name = SU_OPTION_X509_CERT ∨ name = OPTION_X509_ECC_CERT := by
      simpa [Credential.names] using hname
    have e1 : ¬ OPTION_TRUSTED_CERT = name := by rcases hn with hn | hn <;> subst hn <;> decide
    have e2 : SU_OPTION_X509_CERT = name ∨ OPTION_X509_ECC_CERT = name := by
      rcases hn with hn | hn
      · exact Or.inl hn.symm
      · exact Or.inr hn.symm
    simp only [tlsio_wolfssl_setoption, if_neg e1, if_pos e2] at h ⊢
    exact process_option_ok _ _ _ h
  | client_private_key =>
    have hn : name = SU_OPTION_X509_PRIVATE_KEY ∨ name = OPTION_X509_ECC_KEY := by
      simpa [Credential.names] using hname
    have e1 : ¬ OPTION_TRUSTED_CERT = name := by rcases hn with hn | hn <;> subst hn <;> decide
    have e2 : ¬ (SU_OPTION_X509_CERT = name ∨ OPTION_X509_ECC_CERT = name) := by
      rcases hn with hn | hn <;> subst hn <;> decide
    have e3 : SU_OPTION_X509_PRIVATE_KEY = name ∨ OPTION_X509_ECC_KEY = name := by
      rcases hn with hn | hn
      · exact Or.inl hn.symm
      · exact Or.inr hn.symm
    simp only [tlsio_wolfssl_setoption, if_neg e1, if_neg e2, if_pos e3] at h ⊢
    exact process_option_ok _ _ _ h

theorem addOption_ok (handler : OPTIONHANDLER) (k : Credential) (value : String) :
    OptionHandler_AddOption handler k.canonical value true
      = (0, handler ++ [(k.canonical, value)]) := by
  cases k <;> rfl

theorem retrieveoptions_all_ok (w : Run) :
    tlsio_wolfssl_retrieveoptions w allCopiesSucceed
      = some (Credential.client_certificate.entry w.tls
          ++ Credential.client_private_key.entry w.tls
          ++ Credential.trusted_certificate.entry w.tls) := by
  have a1 := fun h v => addOption_ok h .client_certificate v
  have a2 := fun h v => addOption_ok h .client_private_key v
  have a3 := fun h v => addOption_ok h .trusted_certificate v
  simp only [Credential.canonical] at a1 a2 a3
  unfold tlsio_wolfssl_retrieveoptions
  simp only [allCopiesSucceed, Credential.entry, Credential.field, Credential.canonical]
  cases w.tls.x509certificate <;> cases w.tls.x509privatekey <;> cases w.tls.certificate <;>
    simp [a1, a2, a3]

theorem mem_entries (t : TLS_IO_INSTANCE) (k : Credential) (v : String) :
    (k.canonical, v) ∈ Credential.client_certificate.entry t
        ++ Credential.client_private_key.entry t ++ Credential.trusted_certificate.entry t
      ↔ k.field t = some v := by
  have n1 : SU_OPTION_X509_CERT ≠ SU_OPTION_X509_PRIVATE_KEY := by decide
  have n2 : SU_OPTION_X509_CERT ≠ "TrustedCerts" := by decide
  have n3 : SU_OPTION_X509_PRIVATE_KEY ≠ "TrustedCerts" := by decide
  cases k <;> simp only [Credential.entry, Credential.field, Credential.canonical] <;>
    cases t.x509certificate <;> cases t.x509privatekey <;> cases t.certificate <;>
    simp [n1, n2, n3, n1.symm, n2.symm, n3.symm, eq_comm]

theorem entries_canonical (t : TLS_IO_INSTANCE) (p : String × String)
    (h : p ∈ Credential.client_certificate.entry t
        ++ Credential.client_private_key.entry t ++ Credential.trusted_certificate.entry t) :
    ∃ k : Credential, p = (k.canonical, p.2) ∧ k.field t = some p.2 := by
  simp only [List.mem_append] at h
  rcases h with (h | h) | h
  · refine ⟨.client_certificate, ?_⟩
    unfold Credential.entry at h
    split at h
    · rename_i v hv
      rw [List.mem_singleton.mp h]; exact ⟨rfl, hv⟩
    · simp at h
  · refine ⟨.client_private_key, ?_⟩
    unfold Credential.entry at h
    split at h
    · rename_i v hv
      rw [List.mem_singleton.mp h]; exact ⟨rfl, hv⟩
    · simp at h
  · refine ⟨.trusted_certificate, ?_⟩
    unfold Credential.entry at h
    split at h
    · rename_i v hv
      rw [List.mem_singleton.mp h]; exact ⟨rfl, hv⟩
    · simp at h

/-! ## C16: the options set are the options retrieved -/

/-- C16.  Let `tlsio_wolfssl_setoption` succeed for one of the three credentials, under
any of the names it accepts for it, with the value `v`; let any calls follow (opens,
closes, sends, doworks, events, sets of other options) except a set of the same
credential.  Then `tlsio_wolfssl_retrieveoptions`, all its copies succeeding, returns a
mapping that holds `v` under the credential's canonical name, and whose entries are
exactly the credentials that are set at that time, each under its canonical name with its
stored value. -/
theorem option_round_trip (w w' : Run) (k : Credential) (name : String)
    (value : Option String) (malloc_ok : Bool) (ret : Int) (cs : List Call)
    (rs : List (Option Int))
    (hname : name ∈ k.names)
    (hset : (tlsio_wolfssl_setoption w (some name) value malloc_ok ret).1 = 0)
    (hcs : ∀ c ∈ cs, c.sets k = false)
    (hrun : calls (tlsio_wolfssl_setoption w (some name) value malloc_ok ret).2 cs
      = some (rs, w')) :
    ∃ (v : String) (m : OPTIONHANDLER), value = some v
      ∧ tlsio_wolfssl_retrieveoptions w' allCopiesSucceed = some m
      ∧ (k.canonical, v) ∈ m
      ∧ (∀ (k' : Credential) (v' : String), (k'.canonical, v') ∈ m ↔ k'.field w'.tls = some v')
      ∧ (∀ p ∈ m, ∃ k' : Credential, p = (k'.canonical, p.2) ∧ k'.field w'.tls = some p.2) := by
  obtain ⟨v, hv, hfield⟩ := field_setoption_set w k name value malloc_ok ret hname hset
  have hkeep : k.field w'.tls = some v :=
    (field_calls k cs _ (rs, w') hcs hrun).trans hfield
  exact ⟨v, _, hv, retrieveoptions_all_ok w', (mem_entries w'.tls k v).mpr hkeep,
    fun k' v' => mem_entries w'.tls k' v', fun p hp => entries_canonical w'.tls p hp⟩

/-- The C16 witness: the client certificate is set under its alias on the created sample
session, the session is opened and closed, and the options are retrieved. -/
theorem option_round_trip_witness :
    ∃ (v : String) (m : OPTIONHANDLER), some "cert" = some v
      ∧ tlsio_wolfssl_retrieveoptions
          { closedRun with tls := { closedRun.tls with x509certificate := some "cert" } }
          allCopiesSucceed = some m
      ∧ (Credential.client_certificate.canonical, v) ∈ m
      ∧ (∀ (k' : Credential) (v' : String), (k'.canonical, v') ∈ m ↔
          k'.field ({ closedRun.tls with x509certificate := some "cert" }) = some v')
      ∧ (∀ p ∈ m, ∃ k' : Credential, p = (k'.canonical, p.2)
          ∧ k'.field ({ closedRun.tls with x509certificate := some "cert" }) = some p.2) :=
  option_round_trip createdRun
    { closedRun with tls := { closedRun.tls with x509certificate := some "cert" } }
    .client_certificate "x509EccCertificate" (some "cert") true 0
    [.open 11 12 13 14 15 16 goodEngine syncOpenEvents 0, .close 21 22 [] 0]
    [some 0, some 0] (by decide) (by decide) (by decide) (by decide)

theorem filter_emit (p : Effect → Bool) (w : Run) (e : Effect) (h : p e = false) :
    (w.emit e).trace.filter p = w.trace.filter p := by
  simp [Run.emit, List.filter_append, h]

theorem filter_indicate_error (p : Effect → Bool)
    (hp : ∀ e : Effect, e.fromHandler = true → p e = false) (w : Run) :
    (indicate_error w).trace.filter p = w.trace.filter p := by
  unfold indicate_error
  split
  · exact filter_emit p w _ (hp _ (by rfl))
  · rfl

theorem filter_indicate_open_complete (p : Effect → Bool)
    (hp : ∀ e : Effect, e.fromHandler = true → p e = false) (w : Run) (r : IO_OPEN_RESULT) :
    (indicate_open_complete w r).trace.filter p = w.trace.filter p := by
  unfold indicate_open_complete
  split
  · exact filter_emit p w _ (hp _ (by rfl))
  · rfl

/-- The event handlers and the bridge add to the trace only entries of the kinds listed in
`Effect.fromHandler`. -/
theorem preserved_filter (p : Effect → Bool)
    (hp : ∀ e : Effect, e.fromHandler = true → p e = false) (l : List Effect) :
    Preserved (fun w => w.trace.filter p = l) where
  open_failed w h := (filter_indicate_open_complete p hp _ _).trans h
  connect_call w h := (filter_emit p (w.setState _) _ (hp _ (by rfl))).trans h
  connect_failed w h := (filter_indicate_open_complete p hp _ _).trans h
  bytes_received w b ok h := by
    have h1 : (w.emit (.delivered b ok)).trace.filter p = l :=
      (filter_emit p w _ (hp _ (by rfl))).trans h
    unfold on_underlying_io_bytes_received
    simp only []
    split
    · exact (filter_indicate_error p hp _).trans h1
    · exact h1
  error w h := by
    unfold on_underlying_io_error
    split <;> first
      | exact h
      | exact (filter_indicate_open_complete p hp _ _).trans h
      | exact (filter_indicate_error p hp _).trans h
  close_complete w h := by
    unfold on_underlying_io_close_complete
    split
    · exact h
    · simp only []
      split
      · exact (filter_emit p w _ (hp _ (by rfl))).trans h
      · exact h
  poll w h := (filter_emit p w _ (hp _ (by rfl))).trans h
  io_recv w sz ok h := by
    rw [filter_emit p _ _ (hp _ (by rfl)), (recv_copy_config w sz ok).2.2]; exact h
  io_send w buf sz ret h := by
    have h1 := (filter_emit p w (.xio_send w.tls.socket_io buf sz w.tls.on_send_complete
      w.tls.on_send_complete_callback_context) (hp _ (by rfl))).trans h
    unfold on_io_send
    simp only []
    split
    · exact (filter_indicate_error p hp _).trans h1
    · exact h1
  handshake_done w h := by
    unfold on_handshake_done
    split
    · exact h
    · exact (filter_indicate_open_complete p hp _ _).trans h

theorem readOrReceive_not_fromHandler (e : Effect) (h : e.fromHandler = true) :
    e.isReadOrReceive = false := by
  cases e <;> first | rfl | simp [Effect.fromHandler] at h

theorem decode_trace_congr {t t' : TLS_IO_INSTANCE} (h : t'.config = t.config) :
    ∀ reads : List (EngineCall × List Byte), decode_trace t' reads = decode_trace t reads
  | [] => rfl
  | (read, buffer) :: reads => by
    have hc := callbacks_of_config h
    simp only [decode_trace, decode_trace_congr h reads, ssl_of_config h, hc.2.2.1, hc.2.2.2.1]

/-- The read loop of `decode_ssl_received_bytes` on a script whose first reads `pos` return
a positive count and whose next read `last` does not: what it returns and which reads and
receive callbacks it makes. -/
theorem decode_spec : ∀ (pos : List (EngineCall × List Byte)) (last : EngineCall × List Byte)
    (rest : List (EngineCall × List Byte)) (w : Run) (r : Int × Run),
    (∀ x ∈ pos, 0 < x.1.ret) → last.1.ret ≤ 0 →
    decode_ssl_received_bytes w (pos ++ last :: rest) = some r →
    r.1 = 0 ∧ r.2.tls.config = w.tls.config
    ∧ r.2.trace.filter Effect.isReadOrReceive
      = w.trace.filter Effect.isReadOrReceive
        ++ (decode_trace w.tls pos ++ [.wolfSSL_read w.tls.ssl 64])
  | [], (.mk cbs rcv, buffer), rest, w, r, _, hlast, h => by
    simp only [List.nil_append, decode_ssl_received_bytes] at h
    split at h
    · cases h
    · rename_i w1 hw1
      have hlast' : ¬ rcv > 0 := by simpa [EngineCall.ret] using hlast
      rw [if_neg hlast'] at h
      have h := Option.some.inj h
      subst h
      refine ⟨rfl, config_engine_callbacks (w.emit (.wolfSSL_read w.tls.ssl 64)) w1 cbs hw1, ?_⟩
      have := Preserved.engine_callbacks
        (preserved_filter Effect.isReadOrReceive readOrReceive_not_fromHandler _) cbs _ w1 rfl hw1
      rw [this]
      simp [Run.emit, List.filter_append, Effect.isReadOrReceive, decode_trace]
  | (.mk cbs rcv, buffer) :: pos, last, rest, w, r, hpos, hlast, h => by
    simp only [List.cons_append, decode_ssl_received_bytes] at h
    split at h
    · cases h
    · rename_i w1 hw1
      have hrcv : rcv > 0 := hpos (.mk cbs rcv, buffer) (List.mem_cons_self _ _)
      rw [if_pos hrcv] at h
      have hcfg1 : w1.tls.config = w.tls.config :=
        config_engine_callbacks (w.emit (.wolfSSL_read w.tls.ssl 64)) w1 cbs hw1
      have hf1 : w1.trace.filter Effect.isReadOrReceive
          = w.trace.filter Effect.isReadOrReceive ++ [.wolfSSL_read w.tls.ssl 64] := by
        have := Preserved.engine_callbacks
          (preserved_filter Effect.isReadOrReceive readOrReceive_not_fromHandler _) cbs _ w1
          rfl hw1
        rw [this]
        simp [Run.emit, List.filter_append, Effect.isReadOrReceive]
      have hc := callbacks_of_config hcfg1
      obtain ⟨h1, h2, h3⟩ := decode_spec pos last rest _ r
        (fun x hx => hpos x (List.mem_cons_of_mem _ hx)) hlast h
      refine ⟨h1, ?_, ?_⟩
      · rw [h2, ← hcfg1]
        split <;> rfl
      · rw [h3]
        have hcfg2 : ∀ x : Run, x.tls = w1.tls → decode_trace x.tls pos = decode_trace w.tls pos :=
          fun x hx => by rw [hx]; exact decode_trace_congr hcfg1 pos
        have hssl : w1.tls.ssl = w.tls.ssl := ssl_of_config hcfg1
        split
        · rename_i hcb
          have hcb' : w.tls.on_bytes_received ≠ 0 := by rw [← hc.2.2.1]; exact hcb
          simp only [Run.emit, List.filter_append, hf1, decode_trace, EngineCall.ret,
            if_pos hcb', hcfg2 _ rfl, hssl, hc.2.2.1, hc.2.2.2.1]
          simp [Effect.isReadOrReceive]
        · rename_i hcb
          have hcb' : ¬ w.tls.on_bytes_received ≠ 0 := by rw [← hc.2.2.1]; exact hcb
          simp only [hf1, decode_trace, if_neg hcb', hcfg2 _ rfl, hssl]
          simp

/-- The read loop of `decode_ssl_received_bytes` when the engine makes no bridge callback
inside its reads: it returns, and the trace gets exactly the reads and the receive
callbacks. -/
theorem decode_exact : ∀ (pos : List (EngineCall × List Byte)) (last : EngineCall × List Byte)
    (rest : List (EngineCall × List Byte)) (w : Run),
    (∀ x ∈ pos, 0 < x.1.ret) → last.1.ret ≤ 0 →
    (∀ x ∈ pos, x.1.callbacks = []) → last.1.callbacks = [] →
    decode_ssl_received_bytes w (pos ++ last :: rest)
      = some (0, { w with trace := w.trace
          ++ (decode_trace w.tls pos ++ [.wolfSSL_read w.tls.ssl 64]) })
  | [], (.mk cbs rcv, buffer), rest, w, _, hlast, _, hcl => by
    have hcbs : cbs = [] := hcl
    subst hcbs
    have hlast' : ¬ rcv > 0 := by simpa [EngineCall.ret] using hlast
    simp only [List.nil_append, decode_ssl_received_bytes, engine_callbacks, if_neg hlast',
      decode_trace, Run.emit]
  | (.mk cbs rcv, buffer) :: pos, last, rest, w, hpos, hlast, hcp, hcl => by
    have hcbs : cbs = [] := hcp (.mk cbs rcv, buffer) (List.mem_cons_self _ _)
    subst hcbs
    have hrcv : rcv > 0 := hpos (.mk [] rcv, buffer) (List.mem_cons_self _ _)
    simp only [List.cons_append, decode_ssl_received_bytes, engine_callbacks, if_pos hrcv,
      List.append_eq]
    rw [decode_exact pos last rest _ (fun x hx => hpos x (List.mem_cons_of_mem _ hx)) hlast
      (fun x hx => hcp x (List.mem_cons_of_mem _ hx)) hcl]
    split <;> simp_all [Run.emit, decode_trace, EngineCall.ret]

/-! ## C18: the poll step -/

/-- C18.  In `NOT_OPEN` and `ERROR`, `tlsio_wolfssl_dowork` hands back the session as it
was: no field is written and nothing is called.  In every other state it calls the
engine's read with a 64-byte request again and again until the first result that is not
positive, here the read `last` after the reads `pos`; after each positive result it
invokes the registered receive callback with the bytes of that result, so that the reads
and receive callbacks it makes are, in order, those of `decode_trace` followed by the last
read; then it calls the transport's poll once and returns when the events the transport
delivers have run.  When the engine makes no bridge callback inside its reads these are
all entries the trace gets before the poll's events. -/
theorem dowork_poll_step (w : Run) (poll : List TransportEvent) :
    ((w.tls.tlsio_state = TLSIO_STATE_NOT_OPEN ∨ w.tls.tlsio_state = TLSIO_STATE_ERROR) →
      ∀ reads : List (EngineCall × List Byte), tlsio_wolfssl_dowork w reads poll = some w)
    ∧ (w.tls.tlsio_state ≠ TLSIO_STATE_NOT_OPEN → w.tls.tlsio_state ≠ TLSIO_STATE_ERROR →
        ∀ (pos : List (EngineCall × List Byte)) (last : EngineCall × List Byte)
          (rest : List (EngineCall × List Byte)),
          (∀ x ∈ pos, 0 < x.1.ret) → last.1.ret ≤ 0 →
          (∀ r : Int × Run, decode_ssl_received_bytes w (pos ++ last :: rest) = some r →
            r.2.trace.filter Effect.isReadOrReceive
              = w.trace.filter Effect.isReadOrReceive
                ++ (decode_trace w.tls pos ++ [.wolfSSL_read w.tls.ssl 64])
            ∧ tlsio_wolfssl_dowork w (pos ++ last :: rest) poll
              = transport_events (r.2.emit (.xio_dowork w.tls.socket_io)) poll)
          ∧ ((∀ x ∈ pos, x.1.callbacks = []) → last.1.callbacks = [] →
              tlsio_wolfssl_dowork w (pos ++ last :: rest) poll
                = transport_events
                  { w with trace := w.trace
                      ++ (decode_trace w.tls pos
                        ++ [.wolfSSL_read w.tls.ssl 64, .xio_dowork w.tls.socket_io]) }
                  poll)) := by
  constructor
  · intro h reads
    unfold tlsio_wolfssl_dowork
    rw [if_neg (by rcases h with h | h <;> simp [h])]
  · intro h1 h2 pos last rest hpos hlast
    constructor
    · intro r hr
      obtain ⟨_, hcfg, hf⟩ := decode_spec pos last rest w r hpos hlast hr
      refine ⟨hf, ?_⟩
      unfold tlsio_wolfssl_dowork
      rw [if_pos ⟨h1, h2⟩, hr]
      simp only []
      rw [(callbacks_of_config hcfg).2.2.2.2.2.2]
    · intro hcp hcl
      unfold tlsio_wolfssl_dowork
      rw [if_pos ⟨h1, h2⟩, decode_exact pos last rest w hpos hlast hcp hcl]
      simp [Run.emit]

/-- The C18 witness: a dowork on the open sample session in which the engine returns three
bytes and then nothing, and the transport delivers nothing. -/
theorem dowork_poll_step_witness :
    tlsio_wolfssl_dowork openRun ([(.mk [] 3, [7, 8, 9, 10])] ++ (.mk [] 0, []) :: []) []
      = transport_events
        { openRun with trace := openRun.trace
            ++ (decode_trace openRun.tls [(.mk [] 3, [7, 8, 9, 10])]
              ++ [.wolfSSL_read openRun.tls.ssl 64, .xio_dowork openRun.tls.socket_io]) }
        [] :=
  ((dowork_poll_step openRun []).2 (by decide) (by decide) [(.mk [] 3, [7, 8, 9, 10])]
    (.mk [] 0, []) [] (by decide) (by decide)).2 (by simp [EngineCall.callbacks]) rfl

/-! ## C23: the write bridge -/

/-- C23: the write bridge `on_io_send` calls the transport's send once, with the buffer,
`sz` and the send-completion callback and context registered at that moment.  If the send
returns 0 the bridge returns `sz` and changes nothing else; otherwise the state becomes
`ERROR`, the error callback is invoked once (there is nothing to invoke when none is
registered) and the bridge returns 0, which differs from `sz` for every write of at least
one byte. -/
theorem write_bridge (w : Run) (buf : List Byte) (sz xio_send_ret : Int) :
    (xio_send_ret = 0 →
      on_io_send w buf sz xio_send_ret
        = (sz, { w with trace := w.trace ++
            [.xio_send w.tls.socket_io buf sz w.tls.on_send_complete
              w.tls.on_send_complete_callback_context] }))
    ∧ (xio_send_ret ≠ 0 →
      on_io_send w buf sz xio_send_ret
        = (0, { tls := { w.tls with tlsio_state := TLSIO_STATE_ERROR }
                trace := w.trace ++
                  [.xio_send w.tls.socket_io buf sz w.tls.on_send_complete
                    w.tls.on_send_complete_callback_context] ++
                  (if w.tls.on_io_error ≠ 0 then
                    [.on_io_error w.tls.on_io_error w.tls.on_io_error_context] else []) })
      ∧ (sz ≠ 0 → (on_io_send w buf sz xio_send_ret).1 ≠ sz)) := by
  constructor
  · intro h
    unfold on_io_send
    simp [h, Run.emit]
  · intro h
    have e : on_io_send w buf sz xio_send_ret
        = (0, { tls := { w.tls with tlsio_state := TLSIO_STATE_ERROR }
                trace := w.trace ++
                  [.xio_send w.tls.socket_io buf sz w.tls.on_send_complete
                    w.tls.on_send_complete_callback_context] ++
                  (if w.tls.on_io_error ≠ 0 then
                    [.on_io_error w.tls.on_io_error w.tls.on_io_error_context] else []) }) := by
      unfold on_io_send
      simp only []
      rw [if_pos h, indicate_error_eq]
      simp [Run.emit, Run.setState]
    refine ⟨e, ?_⟩
    intro hsz
    rw [e]
    exact fun h0 => hsz h0.symm

/-- The C23 witness: on the open sample session a write of three bytes whose transport send
fails (returns 1) puts the session in `ERROR`, reports the error once and returns 0. -/
theorem write_bridge_witness :
    (1 : Int) ≠ 0
    ∧ on_io_send openRun [1, 2, 3] 3 1
        = (0, { tls := { openRun.tls with tlsio_state := TLSIO_STATE_ERROR }
                trace := openRun.trace ++ [.xio_send 9 [1, 2, 3] 3 0 0] ++ [.on_io_error 15 16] })
    ∧ (on_io_send openRun [1, 2, 3] 3 1).1 ≠ 3 :=
  ⟨by decide, ((write_bridge openRun [1, 2, 3] 3 1).2 (by decide)).1,
    ((write_bridge openRun [1, 2, 3] 3 1).2 (by decide)).2 (by decide)⟩

/-! ## C24: the bytes-received handler -/

theorem wellFormed_of_sameBuffer {w w' : Run} (s : sameBuffer w w') (h : w.tls.wellFormed) :
    w'.tls.wellFormed := by
  unfold TLS_IO_INSTANCE.wellFormed at *
  rw [s.1, s.2]; exact h

theorem wellFormed_bytes_received (w : Run) (b : List Byte) (ok : Bool)
    (h : w.tls.wellFormed) : (on_underlying_io_bytes_received w b ok).tls.wellFormed := by
  cases ok
  · have e : on_underlying_io_bytes_received w b false
        = indicate_error (w.setState TLSIO_STATE_ERROR) := by
      simp [on_underlying_io_bytes_received]
    rw [e]
    exact wellFormed_of_sameBuffer
      (sameBuffer_of_quiet ((quiet_setState w _).trans (quiet_indicate_error _))) h
  · simp [TLS_IO_INSTANCE.wellFormed, on_underlying_io_bytes_received, realloc, memcpy]

theorem preserved_wellFormed : Preserved (fun w => w.tls.wellFormed) where
  open_failed w h := wellFormed_of_sameBuffer
    (sameBuffer_of_quiet ((quiet_setState w _).trans (quiet_indicate_open_complete _ _))) h
  connect_call _ h := h
  connect_failed w h := wellFormed_of_sameBuffer
    (sameBuffer_of_quiet ((quiet_indicate_open_complete w _).trans (quiet_setState _ _))) h
  bytes_received w b ok h := wellFormed_bytes_received (w.emit (.delivered b ok)) b ok h
  error w h := wellFormed_of_sameBuffer (sameBuffer_of_quiet (quiet_error w)) h
  close_complete w h := wellFormed_of_sameBuffer (sameBuffer_of_quiet (quiet_close_complete w)) h
  poll _ h := h
  io_recv w sz ok h := (recv_copy_spec w sz ok h).2.1
  io_send w buf sz ret h :=
    wellFormed_of_sameBuffer (sameBuffer_of_quiet (quiet_io_send w buf sz ret)) h
  handshake_done w h := wellFormed_of_sameBuffer (sameBuffer_of_quiet (quiet_handshake_done w)) h

theorem wellFormed_decode : ∀ (reads : List (EngineCall × List Byte)) (w : Run) (r : Int × Run),
    w.tls.wellFormed → decode_ssl_received_bytes w reads = some r → r.2.tls.wellFormed
  | [], _, r, _, hr => by simp [decode_ssl_received_bytes] at hr
  | (.mk cbs rcv, buffer) :: reads, w, r, h, hr => by
    simp only [decode_ssl_received_bytes] at hr
    split at hr
    · cases hr
    · rename_i w1 hw1
      have h1 : w1.tls.wellFormed :=
        Preserved.engine_callbacks preserved_wellFormed cbs _ w1 (by exact h) hw1
      split at hr
      · refine wellFormed_decode reads _ r ?_ hr
        split
        · exact h1
        · exact h1
      · have hr := Option.some.inj hr
        subst hr; exact h1

theorem wellFormed_step (w w' : Run) (s : Step w w') (h : w.tls.wellFormed) :
    w'.tls.wellFormed := by
  cases s with
  | «open» r a b c d e f o evs ret hx =>
    unfold tlsio_wolfssl_open at hx
    split at hx
    · have hx := Option.some.inj hx
      cases hx; exact h
    · simp only [] at hx
      split at hx
      · rename_i hc
        have hx := Option.some.inj hx
        cases hx
        exact wellFormed_of_sameBuffer (create_failed_buffer _ o hc) h
      · rename_i hc
        have hc : (create_wolfssl_instance (open_register w a b c d e f) o).1 = 0 := by
          simpa using hc
        have ht := (create_wolfssl_instance_ok _ o hc).1
        split at hx
        · cases hx
        · rename_i w2 hw2
          have h2 : w2.tls.wellFormed :=
            Preserved.transport_events preserved_wellFormed evs _ w2
              (by
                show ((create_wolfssl_instance (open_register w a b c d e f) o).2).tls.wellFormed
                rw [ht]
                simp [TLS_IO_INSTANCE.wellFormed]) hw2
          split_ifs at hx <;>
          · have hx := Option.some.inj hx
            cases hx
            exact h2
  | close r cb ctx evs ret hx =>
    unfold tlsio_wolfssl_close at hx
    split at hx
    · have hx := Option.some.inj hx
      cases hx; exact h
    · simp only [] at hx
      split at hx
      · cases hx
      · rename_i w2 hw2
        have h2 : w2.tls.wellFormed :=
          Preserved.transport_events preserved_wellFormed evs _ w2 (by exact h) hw2
        split_ifs at hx <;>
        · have hx := Option.some.inj hx
          cases hx
          exact h2
  | send r buffer size cb ctx write hx =>
    cases write with
    | mk cbs res =>
      simp only [tlsio_wolfssl_send] at hx
      split at hx
      · have hx := Option.some.inj hx
        cases hx; exact h
      · split at hx
        · cases hx
        · rename_i w2 hw2
          have h2 : w2.tls.wellFormed :=
            Preserved.engine_callbacks preserved_wellFormed cbs _ w2 (by exact h) hw2
          split_ifs at hx <;>
          · have hx := Option.some.inj hx
            cases hx
            exact h2
  | dowork reads poll hx =>
    unfold tlsio_wolfssl_dowork at hx
    split at hx
    · split at hx
      · cases hx
      · rename_i r1 hr1
        exact Preserved.transport_events preserved_wellFormed poll _ w'
          (by exact wellFormed_decode reads w r1 h hr1) hx
    · have hx := Option.some.inj hx
      subst hx; exact h
  | setoption r optionName value malloc_ok ret hx =>
    have e : w' = (tlsio_wolfssl_setoption w optionName value malloc_ok ret).2 := by rw [hx]
    subst e
    unfold tlsio_wolfssl_setoption
    split
    · exact h
    · split_ifs <;> exact h
  | stimulus s hx =>
    cases s with
    | transport e => exact Preserved.transport_event preserved_wellFormed e w w' h hx
    | engine cb => exact Preserved.engine_callback preserved_wellFormed cb w w' h hx

/-- Every session reachable from `tlsio_wolfssl_create` is well formed. -/
theorem reachable_wellFormed (w : Run) (h : Reachable w) : w.tls.wellFormed := by
  induction h with
  | create p o w hw =>
    have hf := create_fields p o w hw
    unfold TLS_IO_INSTANCE.wellFormed
    rw [hf.2.2.2]
    exact Nat.zero_le _
  | step w w' _ s ih => exact wellFormed_step w w' s ih

/-- C24: in a well-formed session, as every reachable session is, when growing the block
succeeds `on_underlying_io_bytes_received` leaves the receive buffer equal to the old buffer
followed by the chunk and the count increased by the length of the chunk, touches neither
the state nor any other field, and invokes no callback; when growing fails, the state
becomes `ERROR`, the error callback is invoked once (there is nothing to invoke when none is
registered), and the block and the count are left as they were. -/
theorem bytes_received_appends_or_fails (w : Run) (chunk : List Byte)
    (h : w.tls.wellFormed) :
    ((on_underlying_io_bytes_received w chunk true).tls.buffered = w.tls.buffered ++ chunk
      ∧ (on_underlying_io_bytes_received w chunk true).tls.socket_io_read_byte_count
          = w.tls.socket_io_read_byte_count + chunk.length
      ∧ (on_underlying_io_bytes_received w chunk true).tls.wellFormed
      ∧ (on_underlying_io_bytes_received w chunk true).tls.tlsio_state = w.tls.tlsio_state
      ∧ (on_underlying_io_bytes_received w chunk true).tls.config = w.tls.config
      ∧ (on_underlying_io_bytes_received w chunk true).trace = w.trace)
    ∧ on_underlying_io_bytes_received w chunk false
        = { tls := { w.tls with tlsio_state := TLSIO_STATE_ERROR }
            trace := w.trace ++
              (if w.tls.on_io_error ≠ 0 then
                [.on_io_error w.tls.on_io_error w.tls.on_io_error_context] else []) } := by
  unfold TLS_IO_INSTANCE.wellFormed at h
  refine ⟨⟨?_, ?_, ?_, ?_, ?_, ?_⟩, ?_⟩
  · simp only [on_underlying_io_bytes_received, TLS_IO_INSTANCE.buffered, realloc,
      memcpy, Option.getD_some]
    simp [List.take_append_eq_append_take, List.take_take, h]
  · simp [on_underlying_io_bytes_received]
  · simp [TLS_IO_INSTANCE.wellFormed, on_underlying_io_bytes_received, realloc, memcpy]
  · simp [on_underlying_io_bytes_received]
  · simp [on_underlying_io_bytes_received, TLS_IO_INSTANCE.config]
  · simp [on_underlying_io_bytes_received]
  · unfold on_underlying_io_bytes_received
    simp only []
    rw [if_pos (by simp), indicate_error_eq]
    simp [Run.setState]

/-- The C24 witness: the sample session holding `[1, 2, 3]` receives the chunk `[4, 5]`. -/
theorem bytes_received_appends_or_fails_witness :
    filledRun.tls.wellFormed
    ∧ (on_underlying_io_bytes_received filledRun [4, 5] true).tls.buffered = [1, 2, 3, 4, 5]
    ∧ on_underlying_io_bytes_received filledRun [4, 5] false
        = { tls := { filledRun.tls with tlsio_state := TLSIO_STATE_ERROR }
            trace := filledRun.trace ++ [.on_io_error 15 16] } :=
  ⟨by unfold TLS_IO_INSTANCE.wellFormed; decide,
    (bytes_received_appends_or_fails filledRun [4, 5]
      (by unfold TLS_IO_INSTANCE.wellFormed; decide)).1.1,
    (bytes_received_appends_or_fails filledRun [4, 5]
      (by unfold TLS_IO_INSTANCE.wellFormed; decide)).2⟩

/-! ## C25: a new open starts with a clean bridge -/

theorem setupOnly_create_wolfssl_instance (w : Run) (o : EngineSetup) :
    SetupOnly w.trace (create_wolfssl_instance w o).2.trace := by
  have h0 := setupOnly_add_certificate_to_store w o.wolfSSL_CTX_load_verify_buffer
  unfold create_wolfssl_instance
  simp only []
  split
  · exact h0
  · have h1 : SetupOnly w.trace
        ((add_certificate_to_store w o.wolfSSL_CTX_load_verify_buffer).2.emit
          (.wolfSSL_new
            (add_certificate_to_store w o.wolfSSL_CTX_load_verify_buffer).2.tls.ssl_context)).trace :=
      h0.emit _ (by rfl)
    split
    · exact h1
    · split
      · split
        · exact setupOnly_destroy _ (setupOnly_add_credentials _ _ _ _ _ h1)
        · exact setupOnly_destroy _ h1
      · split
        · exact setupOnly_add_credentials _ _ _ _ _ h1
        · exact h1

/-- C25: in a `NOT_OPEN` session, whenever the construction of the engine session inside
`tlsio_wolfssl_open` succeeds, the session in which the transport's open is called has an
empty receive buffer (no block, count 0) and no send-completion callback or context,
whatever the earlier cycle left in these fields. -/
theorem open_starts_with_clean_bridge (w : Run) (a b c d e f : Nat) (o : EngineSetup)
    (evs : List TransportEvent) (ret : Int)
    (hs : w.tls.tlsio_state = TLSIO_STATE_NOT_OPEN)
    (hc : (create_wolfssl_instance (open_register w a b c d e f) o).1 = 0) :
    ∃ w1 : Run,
      w1.tls.socket_io_read_bytes = none
      ∧ w1.tls.socket_io_read_byte_count = 0
      ∧ w1.tls.buffered = []
      ∧ w1.tls.on_send_complete = 0
      ∧ w1.tls.on_send_complete_callback_context = 0
      ∧ SetupOnly w.trace w1.trace
      ∧ tlsio_wolfssl_open w a b c d e f o evs ret
          = (transport_events (w1.emit (.xio_open w.tls.socket_io)) evs).map fun w2 =>
              if ret ≠ 0 then (FAILURE 710, w2.setState TLSIO_STATE_NOT_OPEN)
              else if w2.tls.tlsio_state ≠ TLSIO_STATE_OPEN then (FAILURE 718, w2)
              else (0, w2) := by
  refine ⟨(create_wolfssl_instance (open_register w a b c d e f) o).2, ?_⟩
  have ht := (create_wolfssl_instance_ok _ o hc).1
  refine ⟨by rw [ht], by rw [ht], ?_, by rw [ht], by rw [ht], ?_, ?_⟩
  · unfold TLS_IO_INSTANCE.buffered
    rw [ht]
    rfl
  · exact setupOnly_create_wolfssl_instance _ o
  · cases hev : transport_events ((create_wolfssl_instance (open_register w a b c d e f) o).2.emit
        (.xio_open w.tls.socket_io)) evs with
    | none =>
      have hsock : (create_wolfssl_instance (open_register w a b c d e f) o).2.tls.socket_io
          = w.tls.socket_io := by
        rw [ht]; rfl
      unfold tlsio_wolfssl_open
      rw [if_neg (by simp [hs])]
      simp only []
      rw [if_neg (by simp [hc]), hsock, hev]
      rfl
    | some w2 =>
      rw [open_constructed w w2 a b c d e f o evs ret hs hc hev]
      rfl


/-- The C25 witness: the sample session that was closed with bytes and a send-completion
callback left over is opened again. -/
theorem open_starts_with_clean_bridge_witness :
    leftoverRun.tls.tlsio_state = TLSIO_STATE_NOT_OPEN
    ∧ (create_wolfssl_instance (open_register leftoverRun 11 12 13 14 15 16) goodEngine).1 = 0
    ∧ ∃ w1 : Run,
      w1.tls.socket_io_read_bytes = none
      ∧ w1.tls.socket_io_read_byte_count = 0
      ∧ w1.tls.buffered = []
      ∧ w1.tls.on_send_complete = 0
      ∧ w1.tls.on_send_complete_callback_context = 0
      ∧ SetupOnly leftoverRun.trace w1.trace
      ∧ tlsio_wolfssl_open leftoverRun 11 12 13 14 15 16 goodEngine [] 0
          = (transport_events (w1.emit (.xio_open leftoverRun.tls.socket_io)) []).map fun w2 =>
              if (0 : Int) ≠ 0 then (FAILURE 710, w2.setState TLSIO_STATE_NOT_OPEN)
              else if w2.tls.tlsio_state ≠ TLSIO_STATE_OPEN then (FAILURE 718, w2)
              else (0, w2) :=
  ⟨by decide, by decide,
    open_starts_with_clean_bridge leftoverRun 11 12 13 14 15 16 goodEngine [] 0 (by decide)
      (by decide)⟩

/-- The sample session `leftoverRun` is what the calls of its description lead to. -/
theorem calls_leftoverRun :
    (calls filledRun [.send [1] 1 31 32 (.mk [] 1), .close 21 22 [] 0,
      .stimulus (.transport .close_complete)]).map (fun r => r.2) = some leftoverRun := by
  decide

/-! ## C26: setting a credential option is not atomic on failure -/

theorem setoption_credential (w : Run) (k : Credential) (name : String)
    (value : Option String) (malloc_ok : Bool) (ret : Int) (h : name ∈ k.names) :
    tlsio_wolfssl_setoption w (some name) value malloc_ok ret
      = ((process_option (k.field w.tls) value malloc_ok).1,
         { w with tls := k.store w.tls (process_option (k.field w.tls) value malloc_ok).2 }) := by
  cases k with
  | trusted_certificate =>
    simp only [Credential.names, List.mem_singleton] at h
    subst h; rfl
  | client_certificate =>
    simp only [Credential.names, List.mem_cons, List.mem_singleton, List.not_mem_nil,
      or_false] at h
    rcases h with h | h <;> subst h <;> rfl
  | client_private_key =>
    simp only [Credential.names, List.mem_cons, List.mem_singleton, List.not_mem_nil,
      or_false] at h
    rcases h with h | h <;> subst h <;> rfl

/-- C26: `tlsio_wolfssl_setoption` with a name of a credential (either alias) changes
nothing but the field of that credential.  When the copy of the value succeeds it returns 0
and the field holds the copy; when the copy fails, the value being null or the allocation
failing, it returns non-zero and the field is left null, whatever it held before. -/
theorem setoption_credential_not_atomic (w : Run) (k : Credential) (name : String)
    (value : Option String) (malloc_ok : Bool) (ret : Int) (h : name ∈ k.names) :
    (∀ v, value = some v → malloc_ok = true →
      tlsio_wolfssl_setoption w (some name) value malloc_ok ret
        = (0, { w with tls := k.store w.tls (some v) }))
    ∧ (value = none ∨ malloc_ok = false →
      tlsio_wolfssl_setoption w (some name) value malloc_ok ret
        = (FAILURE 846, { w with tls := k.store w.tls none })
      ∧ (tlsio_wolfssl_setoption w (some name) value malloc_ok ret).1 ≠ 0
      ∧ k.field (tlsio_wolfssl_setoption w (some name) value malloc_ok ret).2.tls = none)
    ∧ (∀ k2, k2 ≠ k →
      k2.field (tlsio_wolfssl_setoption w (some name) value malloc_ok ret).2.tls
        = k2.field w.tls)
    ∧ (tlsio_wolfssl_setoption w (some name) value malloc_ok ret).2.tls
        = k.store w.tls
            (k.field (tlsio_wolfssl_setoption w (some name) value malloc_ok ret).2.tls)
    ∧ (tlsio_wolfssl_setoption w (some name) value malloc_ok ret).2.trace = w.trace := by
  rw [setoption_credential w k name value malloc_ok ret h]
  refine ⟨?_, ?_, ?_, ?_, rfl⟩
  · intro v hv hm
    subst hv; subst hm
    simp [process_option, mallocAndStrcpy_s]
  · intro hf
    have e : process_option (k.field w.tls) value malloc_ok = (FAILURE 846, none) := by
      unfold process_option mallocAndStrcpy_s
      rcases hf with hf | hf
      · subst hf
        cases k.field w.tls <;> simp
      · subst hf
        cases value <;> cases k.field w.tls <;> simp
    rw [e]
    refine ⟨rfl, failure_ne_zero _ (by decide), ?_⟩
    cases k <;> rfl
  · intro k2 hk
    cases k <;> cases k2 <;> first | exact absurd rfl hk | rfl
  · cases k <;> rfl


/-- The C26 witness: on a session holding the trusted certificate "pem", setting it again
with an allocation that fails leaves it unset; with one that succeeds the field holds the
new value. -/
theorem setoption_credential_not_atomic_witness :
    OPTION_TRUSTED_CERT ∈ Credential.trusted_certificate.names
    ∧ pendingCertificateRun.tls.certificate = some "pem"
    ∧ tlsio_wolfssl_setoption pendingCertificateRun (some OPTION_TRUSTED_CERT) (some "new")
          false 0
        = (FAILURE 846,
            { pendingCertificateRun with
              tls := Credential.trusted_certificate.store pendingCertificateRun.tls none })
    ∧ tlsio_wolfssl_setoption pendingCertificateRun (some OPTION_TRUSTED_CERT) (some "new")
          true 0
        = (0,
            { pendingCertificateRun with
              tls := Credential.trusted_certificate.store pendingCertificateRun.tls
                (some "new") }) :=
  ⟨by decide, rfl,
    ((setoption_credential_not_atomic pendingCertificateRun .trusted_certificate
      OPTION_TRUSTED_CERT (some "new") false 0 (by decide)).2.1 (Or.inr rfl)).1,
    (setoption_credential_not_atomic pendingCertificateRun .trusted_certificate
      OPTION_TRUSTED_CERT (some "new") true 0 (by decide)).1 "new" rfl rfl⟩

/-! ## C22: the read bridge when there are no bytes -/

theorem recv_result_empty (w : Run) (sz : Int)
    (h0 : w.tls.socket_io_read_byte_count = 0) (hsz : 0 ≤ sz) :
    on_io_recv_result w sz = 0 := by
  unfold on_io_recv_result
  simp only []
  rw [h0, toInt_of_lt 0 (by norm_num)]
  rw [if_neg (by simpa using hsz)]
  rfl

theorem recv_copy_empty (w : Run) (sz : Int) (ok : Bool)
    (h0 : w.tls.socket_io_read_byte_count = 0) (hsz : 0 ≤ sz) :
    on_io_recv_copy w sz ok = ((on_io_recv_code 0 w.tls.tlsio_state, []), w) := by
  unfold on_io_recv_copy
  simp only []
  rw [recv_result_empty w sz h0 hsz]
  rfl

theorem wait_empty_not_in_handshake :
    ∀ (polls : List (List TransportEvent)) (w w1 : Run),
      on_io_recv_wait w polls = some w1 → w1.tls.socket_io_read_byte_count = 0 →
        w1.tls.tlsio_state ≠ TLSIO_STATE_IN_HANDSHAKE
  | [], w, w1, hr, h0 => by
    simp only [on_io_recv_wait] at hr
    split at hr
    · cases hr
    · rename_i hne
      have hr := Option.some.inj hr
      subst hr
      exact absurd h0 hne
  | es :: polls, w, w1, hr, h0 => by
    simp only [on_io_recv_wait] at hr
    split at hr
    · split at hr
      · cases hr
      · rename_i w2 hw2
        split at hr
        · rename_i hst
          have hr := Option.some.inj hr
          subst hr
          exact hst
        · exact wait_empty_not_in_handshake polls w2 w1 hr h0
    · rename_i hne
      have hr := Option.some.inj hr
      subst hr
      exact absurd h0 hne

/-- The C22 counterexample: during the handshake the transport reports an error while the
read bridge waits for bytes.  The wait ends in `ERROR` with the buffer empty, and the bridge
returns 0, the count of the bytes it copied, which is no error code. -/
theorem read_bridge_without_bytes_counterexample :
    (on_io_recv handshakingRun 5 [[.error]] true).map
        (fun r => (r.1, r.2.tls.tlsio_state, r.2.tls.socket_io_read_byte_count))
      = some ((0, []), TLSIO_STATE_ERROR, 0) := by
  decide

/-- C22, amended: a call of `on_io_recv` for `sz ≥ 0` bytes whose wait ends with the receive
buffer empty copies nothing, leaves the session as the wait left it, and returns
`WOLFSSL_CBIO_ERR_WANT_READ` in `OPEN`, `WOLFSSL_CBIO_ERR_CONN_CLOSE` in `CLOSING` and
`NOT_OPEN`, and 0 in `ERROR` and `OPENING_UNDERLYING_IO`; the wait never ends with the
buffer empty in `IN_HANDSHAKE`. -/
theorem read_bridge_without_bytes (w w1 : Run) (sz : Int) (polls : List (List TransportEvent))
    (realloc_ok : Bool)
    (hw : on_io_recv_wait w polls = some w1)
    (h0 : w1.tls.socket_io_read_byte_count = 0) (hsz : 0 ≤ sz) :
    on_io_recv w sz polls realloc_ok
      = some ((match w1.tls.tlsio_state with
                | TLSIO_STATE_OPEN => WOLFSSL_CBIO_ERR_WANT_READ
                | TLSIO_STATE_CLOSING => WOLFSSL_CBIO_ERR_CONN_CLOSE
                | TLSIO_STATE_NOT_OPEN => WOLFSSL_CBIO_ERR_CONN_CLOSE
                | TLSIO_STATE_ERROR => 0
                | TLSIO_STATE_OPENING_UNDERLYING_IO => 0
                | TLSIO_STATE_IN_HANDSHAKE => 0, []), w1)
    ∧ w1.tls.tlsio_state ≠ TLSIO_STATE_IN_HANDSHAKE := by
  refine ⟨?_, wait_empty_not_in_handshake polls w w1 hw h0⟩
  unfold on_io_recv
  rw [hw]
  simp only []
  rw [recv_copy_empty w1 sz realloc_ok h0 hsz]
  unfold on_io_recv_code
  cases w1.tls.tlsio_state <;> simp

/-- The C22 witness: the read bridge on the open sample session, the transport delivering
nothing, returns `WOLFSSL_CBIO_ERR_WANT_READ`. -/
theorem read_bridge_without_bytes_witness :
    on_io_recv_wait openRun [[]] = some (openRun.emit (.xio_dowork 9))
    ∧ (openRun.emit (.xio_dowork 9)).tls.socket_io_read_byte_count = 0
    ∧ (0 : Int) ≤ 64
    ∧ on_io_recv openRun 64 [[]] true
        = some ((WOLFSSL_CBIO_ERR_WANT_READ, []), openRun.emit (.xio_dowork 9)) :=
  ⟨by decide, by decide, by decide,
    (read_bridge_without_bytes openRun (openRun.emit (.xio_dowork 9)) 64 [[]] true
      (by decide) (by decide) (by decide)).1⟩

/-! ## C21: the completion of the handshake -/

theorem notOpen_bytes_received (w : Run) (b : List Byte) (ok : Bool)
    (h : w.tls.tlsio_state ≠ TLSIO_STATE_OPEN) :
    (on_underlying_io_bytes_received w b ok).tls.tlsio_state ≠ TLSIO_STATE_OPEN := by
  unfold on_underlying_io_bytes_received
  cases ok
  · simp [tls_indicate_error, Run.setState]
  · simpa using h

theorem notOpen_error (w : Run) (h : w.tls.tlsio_state ≠ TLSIO_STATE_OPEN) :
    (on_underlying_io_error w).tls.tlsio_state ≠ TLSIO_STATE_OPEN := by
  unfold on_underlying_io_error
  split <;>
    simp_all [tls_indicate_error, tls_indicate_open_complete, Run.setState]

theorem notOpen_close_complete (w : Run) (h : w.tls.tlsio_state ≠ TLSIO_STATE_OPEN) :
    (on_underlying_io_close_complete w).tls.tlsio_state ≠ TLSIO_STATE_OPEN := by
  unfold on_underlying_io_close_complete
  split
  · exact h
  · simp [Run.setState]

theorem state_recv_copy (w : Run) (sz : Int) (ok : Bool) :
    (on_io_recv_copy w sz ok).2.tls.tlsio_state = w.tls.tlsio_state := by
  rw [recv_copy_snd]
  split
  · unfold on_io_recv_take
    simp only []
    split
    · split <;> rfl
    · rfl
  · rfl

theorem notOpen_io_send (w : Run) (buf : List Byte) (sz ret : Int)
    (h : w.tls.tlsio_state ≠ TLSIO_STATE_OPEN) :
    (on_io_send w buf sz ret).2.tls.tlsio_state ≠ TLSIO_STATE_OPEN := by
  unfold on_io_send
  simp only []
  split
  · simp [tls_indicate_error, Run.setState]
  · exact h

mutual
theorem notOpen_open_complete :
    ∀ (c : EngineCall) (w w' : Run) (r : IO_OPEN_RESULT), c.handshakeFree = true →
      w.tls.tlsio_state ≠ TLSIO_STATE_OPEN →
      on_underlying_io_open_complete w r c = some w' →
      w'.tls.tlsio_state ≠ TLSIO_STATE_OPEN
  | .mk cbs res, w, w', r, hf, h, hr => by
    simp only [EngineCall.handshakeFree] at hf
    simp only [on_underlying_io_open_complete] at hr
    split at hr
    · have hr := Option.some.inj hr
      subst hr
      simp [tls_indicate_open_complete, Run.setState]
    · split at hr
      · cases hr
      · rename_i w2 hw2
        have h2 := notOpen_engine_callbacks cbs _ w2 hf
          (by simp [Run.setState, Run.emit]) hw2
        split at hr
        · have hr := Option.some.inj hr
          subst hr
          simp [Run.setState]
        · have hr := Option.some.inj hr
          subst hr
          exact h2
theorem notOpen_transport_event :
    ∀ (e : TransportEvent) (w w' : Run), e.handshakeFree = true →
      w.tls.tlsio_state ≠ TLSIO_STATE_OPEN → transport_event w e = some w' →
      w'.tls.tlsio_state ≠ TLSIO_STATE_OPEN
  | .open_complete r c, w, w', hf, h, hr => by
    simp only [TransportEvent.handshakeFree] at hf
    simp only [TlsioWolfssl.transport_event] at hr
    exact notOpen_open_complete c w w' r hf h hr
  | .bytes_received b ok, w, w', _, h, hr => by
    simp only [TlsioWolfssl.transport_event, Option.some.injEq] at hr
    subst hr; exact notOpen_bytes_received _ b ok h
  | .error, w, w', _, h, hr => by
    simp only [TlsioWolfssl.transport_event, Option.some.injEq] at hr
    subst hr; exact notOpen_error w h
  | .close_complete, w, w', _, h, hr => by
    simp only [TlsioWolfssl.transport_event, Option.some.injEq] at hr
    subst hr; exact notOpen_close_complete w h
theorem notOpen_transport_events :
    ∀ (es : List TransportEvent) (w w' : Run), handshakeFreeEvents es = true →
      w.tls.tlsio_state ≠ TLSIO_STATE_OPEN → transport_events w es = some w' →
      w'.tls.tlsio_state ≠ TLSIO_STATE_OPEN
  | [], w, w', _, h, hr => by
    simp only [TlsioWolfssl.transport_events, Option.some.injEq] at hr
    subst hr; exact h
  | e :: rest, w, w', hf, h, hr => by
    simp only [handshakeFreeEvents, Bool.and_eq_true] at hf
    simp only [TlsioWolfssl.transport_events] at hr
    split at hr
    · cases hr
    · rename_i w1 hw1
      exact notOpen_transport_events rest w1 w' hf.2
        (notOpen_transport_event e w w1 hf.1 h hw1) hr
theorem notOpen_on_io_recv_wait :
    ∀ (polls : List (List TransportEvent)) (w w' : Run), handshakeFreePolls polls = true →
      w.tls.tlsio_state ≠ TLSIO_STATE_OPEN → on_io_recv_wait w polls = some w' →
      w'.tls.tlsio_state ≠ TLSIO_STATE_OPEN
  | [], w, w', _, h, hr => by
    simp only [TlsioWolfssl.on_io_recv_wait] at hr
    split at hr
    · cases hr
    · cases hr; exact h
  | es :: polls, w, w', hf, h, hr => by
    simp only [handshakeFreePolls, Bool.and_eq_true] at hf
    simp only [TlsioWolfssl.on_io_recv_wait] at hr
    split at hr
    · split at hr
      · cases hr
      · rename_i w1 hw1
        have h1 := notOpen_transport_events es _ w1 hf.1 (by simpa [Run.emit] using h) hw1
        split at hr
        · cases hr; exact h1
        · exact notOpen_on_io_recv_wait polls w1 w' hf.2 h1 hr
    · cases hr; exact h
theorem notOpen_engine_callback :
    ∀ (cb : EngineCallback) (w w' : Run), cb.handshakeFree = true →
      w.tls.tlsio_state ≠ TLSIO_STATE_OPEN → engine_callback w cb = some w' →
      w'.tls.tlsio_state ≠ TLSIO_STATE_OPEN
  | .io_recv sz polls ok, w, w', hf, h, hr => by
    simp only [EngineCallback.handshakeFree] at hf
    simp only [TlsioWolfssl.engine_callback] at hr
    split at hr
    · cases hr
    · rename_i w1 hw1
      have hr := Option.some.inj hr
      subst hr
      have h1 := notOpen_on_io_recv_wait polls w w1 hf h hw1
      show (on_io_recv_copy w1 sz ok).2.tls.tlsio_state ≠ TLSIO_STATE_OPEN
      rw [state_recv_copy]
      exact h1
  | .io_send buf sz ret, w, w', _, h, hr => by
    simp only [TlsioWolfssl.engine_callback, Option.some.injEq] at hr
    subst hr; exact notOpen_io_send w buf sz ret h
  | .handshake_done, w, w', hf, h, hr => by
    simp [EngineCallback.handshakeFree] at hf
theorem notOpen_engine_callbacks :
    ∀ (cbs : List EngineCallback) (w w' : Run), handshakeFreeCallbacks cbs = true →
      w.tls.tlsio_state ≠ TLSIO_STATE_OPEN → engine_callbacks w cbs = some w' →
      w'.tls.tlsio_state ≠ TLSIO_STATE_OPEN
  | [], w, w', _, h, hr => by
    simp only [TlsioWolfssl.engine_callbacks, Option.some.injEq] at hr
    subst hr; exact h
  | cb :: rest, w, w', hf, h, hr => by
    simp only [handshakeFreeCallbacks, Bool.and_eq_true] at hf
    simp only [TlsioWolfssl.engine_callbacks] at hr
    split at hr
    · cases hr
    · rename_i w1 hw1
      exact notOpen_engine_callbacks rest w1 w' hf.2
        (notOpen_engine_callback cb w w1 hf.1 h hw1) hr
end

theorem notOpen_decode : ∀ (reads : List (EngineCall × List Byte)) (w : Run) (r : Int × Run),
    handshakeFreeReads reads = true → w.tls.tlsio_state ≠ TLSIO_STATE_OPEN →
    decode_ssl_received_bytes w reads = some r → r.2.tls.tlsio_state ≠ TLSIO_STATE_OPEN
  | [], w, r, _, _, hr => by simp [decode_ssl_received_bytes] at hr
  | (.mk cbs rcv, buffer) :: reads, w, r, hf, h, hr => by
    simp only [handshakeFreeReads, Bool.and_eq_true, EngineCall.handshakeFree] at hf
    simp only [decode_ssl_received_bytes] at hr
    split at hr
    · cases hr
    · rename_i w1 hw1
      have h1 := notOpen_engine_callbacks cbs _ w1 hf.1 (by simpa [Run.emit] using h) hw1
      split at hr
      · refine notOpen_decode reads _ r hf.2 ?_ hr
        split
        · simpa [Run.emit] using h1
        · exact h1
      · have hr := Option.some.inj hr
        subst hr; exact h1

theorem notOpen_call (w : Run) (c : Call) (r : Option Int × Run)
    (hf : c.handshakeFree = true) (h : w.tls.tlsio_state ≠ TLSIO_STATE_OPEN)
    (hr : call w c = some r) : r.2.tls.tlsio_state ≠ TLSIO_STATE_OPEN := by
  cases c with
  | «open» a b c d e f o evs ret =>
    simp only [Call.handshakeFree] at hf
    simp only [call, Option.map_eq_some'] at hr
    obtain ⟨x, hx, rfl⟩ := hr
    unfold tlsio_wolfssl_open at hx
    split at hx
    · have hx := Option.some.inj hx
      subst hx; exact h
    · simp only [] at hx
      split at hx
      · have hx := Option.some.inj hx
        subst hx
        simp [Run.setState]
      · rename_i hc
        have hc : (create_wolfssl_instance (open_register w a b c d e f) o).1 = 0 := by
          simpa using hc
        have ht := (create_wolfssl_instance_ok _ o hc).1
        split at hx
        · cases hx
        · rename_i w2 hw2
          have h2 := notOpen_transport_events evs _ w2 hf
            (by simp only [Run.emit]; rw [ht]; simp) hw2
          split at hx
          · have hx := Option.some.inj hx
            subst hx
            simp [Run.setState]
          · have hx := Option.some.inj hx
            subst hx
            exact h2
  | close cb ctx evs ret =>
    simp only [Call.handshakeFree] at hf
    simp only [call, Option.map_eq_some'] at hr
    obtain ⟨x, hx, rfl⟩ := hr
    unfold tlsio_wolfssl_close at hx
    split at hx
    · have hx := Option.some.inj hx
      subst hx; exact h
    · simp only [] at hx
      split at hx
      · cases hx
      · rename_i w2 hw2
        have h2 := notOpen_transport_events evs _ w2 hf
          (by simp [Run.emit, close_register]) hw2
        split at hx
        · have hx := Option.some.inj hx
          subst hx; exact h2
        · have hx := Option.some.inj hx
          subst hx; exact h2
  | send buffer size cb ctx write =>
    simp only [call, Option.map_eq_some'] at hr
    obtain ⟨x, hx, rfl⟩ := hr
    cases write with
    | mk cbs res =>
      simp only [tlsio_wolfssl_send] at hx
      rw [if_pos h] at hx
      have hx := Option.some.inj hx
      subst hx; exact h
  | dowork reads poll =>
    simp only [Call.handshakeFree, Bool.and_eq_true] at hf
    simp only [call, Option.map_eq_some'] at hr
    obtain ⟨x, hx, rfl⟩ := hr
    unfold tlsio_wolfssl_dowork at hx
    split at hx
    · split at hx
      · cases hx
      · rename_i r1 hr1
        have h1 := notOpen_decode reads w r1 hf.1 h hr1
        exact notOpen_transport_events poll _ x hf.2 (by simpa [Run.emit] using h1) hx
    · have hx := Option.some.inj hx
      subst hx; exact h
  | setoption optionName value malloc_ok ret =>
    simp only [call] at hr
    have hr := Option.some.inj hr
    subst hr
    show (tlsio_wolfssl_setoption w optionName value malloc_ok ret).2.tls.tlsio_state
      ≠ TLSIO_STATE_OPEN
    unfold tlsio_wolfssl_setoption
    split
    · exact h
    · split_ifs <;> exact h
  | stimulus s =>
    simp only [call, Option.map_eq_some'] at hr
    obtain ⟨x, hx, rfl⟩ := hr
    cases s with
    | transport e =>
      simp only [Call.handshakeFree] at hf
      exact notOpen_transport_event e w x hf h hx
    | engine cb =>
      simp only [Call.handshakeFree] at hf
      exact notOpen_engine_callback cb w x hf h hx

/-- C21: the handshake callback `on_handshake_done` returns 0 in every state.  In
`IN_HANDSHAKE` it sets the state to `OPEN` and invokes the open-complete callback once with
`IO_OPEN_OK` (there is nothing to invoke when none is registered); in every other state it
changes nothing and invokes no callback.  No call during which the engine does not make the
handshake callback takes a session that is not in `OPEN` to `OPEN`: the state `OPEN` is
entered by this handler only, and by it from `IN_HANDSHAKE` only. -/
theorem handshake_done_is_the_only_way_to_open (w : Run) :
    (on_handshake_done w).1 = 0
    ∧ (w.tls.tlsio_state = TLSIO_STATE_IN_HANDSHAKE →
        (on_handshake_done w).2
          = { tls := { w.tls with tlsio_state := TLSIO_STATE_OPEN }
              trace := w.trace ++
                (if w.tls.on_io_open_complete ≠ 0 then
                  [.on_io_open_complete w.tls.on_io_open_complete
                    w.tls.on_io_open_complete_context IO_OPEN_OK] else []) })
    ∧ (w.tls.tlsio_state ≠ TLSIO_STATE_IN_HANDSHAKE → (on_handshake_done w).2 = w)
    ∧ (∀ (c : Call) (r : Option Int × Run), c.handshakeFree = true →
        w.tls.tlsio_state ≠ TLSIO_STATE_OPEN → call w c = some r →
        r.2.tls.tlsio_state ≠ TLSIO_STATE_OPEN) := by
  refine ⟨?_, ?_, ?_, fun c r hf h hr => notOpen_call w c r hf h hr⟩
  · unfold on_handshake_done
    split <;> rfl
  · intro h
    unfold on_handshake_done
    rw [if_neg (by simp [h]), indicate_open_complete_eq]
    simp [Run.setState]
  · intro h
    unfold on_handshake_done
    rw [if_pos h]

/-- The C21 witness: the handshake callback on the sample session in `IN_HANDSHAKE` opens it
and reports the open; a transport error on the same session does not open it. -/
theorem handshake_done_is_the_only_way_to_open_witness :
    handshakingRun.tls.tlsio_state = TLSIO_STATE_IN_HANDSHAKE
    ∧ (on_handshake_done handshakingRun).2
        = { tls := { handshakingRun.tls with tlsio_state := TLSIO_STATE_OPEN }
            trace := handshakingRun.trace ++ [.on_io_open_complete 11 12 IO_OPEN_OK] }
    ∧ (Call.stimulus (.transport .error)).handshakeFree = true
    ∧ call handshakingRun (.stimulus (.transport .error))
        = some (none, on_underlying_io_error handshakingRun)
    ∧ (on_underlying_io_error handshakingRun).tls.tlsio_state ≠ TLSIO_STATE_OPEN :=
  ⟨rfl, (handshake_done_is_the_only_way_to_open handshakingRun).2.1 rfl, rfl, rfl,
    (handshake_done_is_the_only_way_to_open handshakingRun).2.2.2 (.stimulus (.transport .error))
      (none, on_underlying_io_error handshakingRun) rfl (by decide) rfl⟩

/-! ## C27: client credentials are loaded only as a pair -/

theorem setClient_indicate_error (w : Run) (x y : Option String) :
    indicate_error (w.setClient x y) = (indicate_error w).setClient x y := by
  unfold indicate_error
  split
  · rename_i h
    have h1 : w.tls.on_io_error ≠ 0 := h
    rw [if_pos h1]; rfl
  · rename_i h
    have h1 : ¬ w.tls.on_io_error ≠ 0 := h
    rw [if_neg h1]

theorem setClient_indicate_open_complete (w : Run) (x y : Option String) (r : IO_OPEN_RESULT) :
    indicate_open_complete (w.setClient x y) r = (indicate_open_complete w r).setClient x y := by
  unfold indicate_open_complete
  split
  · rename_i h
    have h1 : w.tls.on_io_open_complete ≠ 0 := h
    rw [if_pos h1]; rfl
  · rename_i h
    have h1 : ¬ w.tls.on_io_open_complete ≠ 0 := h
    rw [if_neg h1]

theorem setClient_bytes_received (w : Run) (x y : Option String) (b : List Byte) (ok : Bool) :
    on_underlying_io_bytes_received (w.setClient x y) b ok
      = (on_underlying_io_bytes_received w b ok).setClient x y := by
  unfold on_underlying_io_bytes_received
  cases ok
  · simp only []
    rw [if_pos (by simp), if_pos (by simp)]
    exact setClient_indicate_error (w.setState TLSIO_STATE_ERROR) x y
  · rfl

theorem setClient_error (w : Run) (x y : Option String) :
    on_underlying_io_error (w.setClient x y) = (on_underlying_io_error w).setClient x y := by
  unfold on_underlying_io_error
  have hs : (w.setClient x y).tls.tlsio_state = w.tls.tlsio_state := rfl
  rw [hs]
  cases w.tls.tlsio_state
  · rfl
  · exact setClient_indicate_open_complete (w.setState TLSIO_STATE_ERROR) x y _
  · exact setClient_indicate_open_complete (w.setState TLSIO_STATE_ERROR) x y _
  · exact setClient_indicate_error (w.setState TLSIO_STATE_ERROR) x y
  · rfl
  · rfl

theorem setClient_close_complete (w : Run) (x y : Option String) :
    on_underlying_io_close_complete (w.setClient x y)
      = (on_underlying_io_close_complete w).setClient x y := by
  unfold on_underlying_io_close_complete
  have hs : (w.setClient x y).tls.tlsio_state = w.tls.tlsio_state := rfl
  have hc : (w.setClient x y).tls.on_io_close_complete = w.tls.on_io_close_complete := rfl
  rw [hs, hc]
  split
  · rfl
  · split <;> rfl

theorem setClient_io_send (w : Run) (x y : Option String) (buf : List Byte) (sz ret : Int) :
    on_io_send (w.setClient x y) buf sz ret
      = ((on_io_send w buf sz ret).1, (on_io_send w buf sz ret).2.setClient x y) := by
  unfold on_io_send
  simp only []
  split
  · congr 1
    exact setClient_indicate_error ((w.emit (.xio_send w.tls.socket_io buf sz
      w.tls.on_send_complete w.tls.on_send_complete_callback_context)).setState
        TLSIO_STATE_ERROR) x y
  · rfl

theorem setClient_handshake_done (w : Run) (x y : Option String) :
    (on_handshake_done (w.setClient x y)).2 = (on_handshake_done w).2.setClient x y := by
  unfold on_handshake_done
  have hs : (w.setClient x y).tls.tlsio_state = w.tls.tlsio_state := rfl
  rw [hs]
  split
  · rfl
  · exact setClient_indicate_open_complete (w.setState TLSIO_STATE_OPEN) x y _

theorem setClient_recv_take (w : Run) (x y : Option String) (n : Nat) (ok : Bool) :
    on_io_recv_take (w.setClient x y) n ok
      = ((on_io_recv_take w n ok).1, (on_io_recv_take w n ok).2.setClient x y) := by
  unfold on_io_recv_take
  have hc : (w.setClient x y).tls.socket_io_read_byte_count = w.tls.socket_io_read_byte_count :=
    rfl
  simp only [hc]
  split
  · split <;> rfl
  · rfl

theorem setClient_recv_copy (w : Run) (x y : Option String) (sz : Int) (ok : Bool) :
    on_io_recv_copy (w.setClient x y) sz ok
      = ((on_io_recv_copy w sz ok).1, (on_io_recv_copy w sz ok).2.setClient x y) := by
  have hr : on_io_recv_result (w.setClient x y) sz = on_io_recv_result w sz := rfl
  unfold on_io_recv_copy
  simp only [hr]
  split
  · rw [setClient_recv_take]
    rfl
  · rfl

mutual
theorem setClient_open_complete (x y : Option String) :
    ∀ (c : EngineCall) (w : Run) (r : IO_OPEN_RESULT),
      on_underlying_io_open_complete (w.setClient x y) r c
        = (on_underlying_io_open_complete w r c).map fun w' => w'.setClient x y
  | .mk cbs res, w, r => by
    simp only [on_underlying_io_open_complete]
    split
    · exact congrArg some
        (setClient_indicate_open_complete (w.setState TLSIO_STATE_ERROR) x y IO_OPEN_ERROR)
    · have e1 : engine_callbacks
          (((w.setClient x y).setState TLSIO_STATE_IN_HANDSHAKE).emit
            (.wolfSSL_connect (w.setClient x y).tls.ssl)) cbs
          = (engine_callbacks
              ((w.setState TLSIO_STATE_IN_HANDSHAKE).emit (.wolfSSL_connect w.tls.ssl)) cbs).map
              fun w' => w'.setClient x y :=
        setClient_engine_callbacks x y cbs
          ((w.setState TLSIO_STATE_IN_HANDSHAKE).emit (.wolfSSL_connect w.tls.ssl))
      rw [e1]
      cases engine_callbacks
          ((w.setState TLSIO_STATE_IN_HANDSHAKE).emit (.wolfSSL_connect w.tls.ssl)) cbs with
      | none => rfl
      | some w2 =>
        simp only [Option.map_some']
        split
        · exact congrArg some (congrArg (fun v : Run => v.setState TLSIO_STATE_ERROR)
            (setClient_indicate_open_complete w2 x y IO_OPEN_ERROR))
        · rfl
theorem setClient_transport_event (x y : Option String) :
    ∀ (e : TransportEvent) (w : Run),
      transport_event (w.setClient x y) e
        = (transport_event w e).map fun w' => w'.setClient x y
  | .open_complete r c, w => by
    simp only [TlsioWolfssl.transport_event]
    exact setClient_open_complete x y c w r
  | .bytes_received b ok, w => by
    simp only [TlsioWolfssl.transport_event, Option.map_some']
    exact congrArg some (setClient_bytes_received (w.emit (.delivered b ok)) x y b ok)
  | .error, w => by
    simp only [TlsioWolfssl.transport_event, Option.map_some']
    exact congrArg some (setClient_error w x y)
  | .close_complete, w => by
    simp only [TlsioWolfssl.transport_event, Option.map_some']
    exact congrArg some (setClient_close_complete w x y)
theorem setClient_transport_events (x y : Option String) :
    ∀ (es : List TransportEvent) (w : Run),
      transport_events (w.setClient x y) es
        = (transport_events w es).map fun w' => w'.setClient x y
  | [], w => by
    simp only [TlsioWolfssl.transport_events, Option.map_some']
  | e :: rest, w => by
    simp only [TlsioWolfssl.transport_events]
    rw [setClient_transport_event x y e w]
    cases transport_event w e with
    | none => rfl
    | some w1 =>
      simp only [Option.map_some']
      exact setClient_transport_events x y rest w1
theorem setClient_on_io_recv_wait (x y : Option String) :
    ∀ (polls : List (List TransportEvent)) (w : Run),
      on_io_recv_wait (w.setClient x y) polls
        = (on_io_recv_wait w polls).map fun w' => w'.setClient x y
  | [], w => by
    simp only [TlsioWolfssl.on_io_recv_wait]
    have hc : (w.setClient x y).tls.socket_io_read_byte_count
        = w.tls.socket_io_read_byte_count := rfl
    rw [hc]
    split <;> rfl
  | es :: polls, w => by
    simp only [TlsioWolfssl.on_io_recv_wait]
    have hc : (w.setClient x y).tls.socket_io_read_byte_count
        = w.tls.socket_io_read_byte_count := rfl
    rw [hc]
    split
    · have e1 : transport_events
          ((w.setClient x y).emit (.xio_dowork (w.setClient x y).tls.socket_io)) es
          = (transport_events (w.emit (.xio_dowork w.tls.socket_io)) es).map
              fun w' => w'.setClient x y :=
        setClient_transport_events x y es (w.emit (.xio_dowork w.tls.socket_io))
      rw [e1]
      cases transport_events (w.emit (.xio_dowork w.tls.socket_io)) es with
      | none => rfl
      | some w1 =>
        simp only [Option.map_some']
        have hs : (w1.setClient x y).tls.tlsio_state = w1.tls.tlsio_state := rfl
        rw [hs]
        split
        · rfl
        · exact setClient_on_io_recv_wait x y polls w1
    · rfl
theorem setClient_engine_callback (x y : Option String) :
    ∀ (cb : EngineCallback) (w : Run),
      engine_callback (w.setClient x y) cb
        = (engine_callback w cb).map fun w' => w'.setClient x y
  | .io_recv sz polls ok, w => by
    simp only [TlsioWolfssl.engine_callback]
    rw [setClient_on_io_recv_wait x y polls w]
    cases on_io_recv_wait w polls with
    | none => rfl
    | some w1 =>
      simp only [Option.map_some']
      rw [setClient_recv_copy]
      rfl
  | .io_send buf sz ret, w => by
    simp only [TlsioWolfssl.engine_callback, Option.map_some']
    rw [setClient_io_send]
  | .handshake_done, w => by
    simp only [TlsioWolfssl.engine_callback, Option.map_some']
    rw [setClient_handshake_done]
theorem setClient_engine_callbacks (x y : Option String) :
    ∀ (cbs : List EngineCallback) (w : Run),
      engine_callbacks (w.setClient x y) cbs
        = (engine_callbacks w cbs).map fun w' => w'.setClient x y
  | [], w => by
    simp only [TlsioWolfssl.engine_callbacks, Option.map_some']
  | cb :: rest, w => by
    simp only [TlsioWolfssl.engine_callbacks]
    rw [setClient_engine_callback x y cb w]
    cases engine_callback w cb with
    | none => rfl
    | some w1 =>
      simp only [Option.map_some']
      exact setClient_engine_callbacks x y rest w1
end

theorem create_wolfssl_instance_unpaired (w : Run) (o : EngineSetup)
    (h : w.tls.x509certificate = none ∨ w.tls.x509privatekey = none) :
    create_wolfssl_instance w o
      = ((create_wolfssl_instance (w.setClient none none) o).1,
         (create_wolfssl_instance (w.setClient none none) o).2.setClient
           w.tls.x509certificate w.tls.x509privatekey) := by
  obtain ⟨⟨a1, a2, a3, a4, a5, a6, a7, a8, a9, a10, a11, a12, a13, a14, a15, a16, cert, xc, xk⟩,
    tr⟩ := w
  cases cert <;> cases xc <;> cases xk <;>
    first
    | (simp at h; done)
    | (simp only [create_wolfssl_instance, add_certificate_to_store, Run.setClient, Run.emit]
       split_ifs <;> rfl)

theorem create_wolfssl_instance_unpaired_loads (w : Run) (o : EngineSetup)
    (h : w.tls.x509certificate = none ∨ w.tls.x509privatekey = none) :
    (create_wolfssl_instance w o).2.trace.filter Effect.isClientLoad
      = w.trace.filter Effect.isClientLoad := by
  obtain ⟨⟨a1, a2, a3, a4, a5, a6, a7, a8, a9, a10, a11, a12, a13, a14, a15, a16, cert, xc, xk⟩,
    tr⟩ := w
  cases cert <;> cases xc <;> cases xk <;>
    first
    | (simp at h; done)
    | (simp only [create_wolfssl_instance, add_certificate_to_store, Run.emit]
       split_ifs <;>
        first
        | contradiction
        | simp [List.filter_append, Effect.isClientLoad])

theorem create_wolfssl_instance_paired_loads (w : Run) (o : EngineSetup) (c k : String)
    (hc : w.tls.x509certificate = some c) (hk : w.tls.x509privatekey = some k)
    (hs : (add_certificate_to_store w o.wolfSSL_CTX_load_verify_buffer).1 = 0)
    (hn : o.wolfSSL_new ≠ 0) :
    (create_wolfssl_instance w o).2.trace.filter Effect.isClientLoad
      = w.trace.filter Effect.isClientLoad
        ++ (Effect.wolfSSL_use_certificate_chain_buffer o.wolfSSL_new c
          :: (if o.wolfSSL_use_certificate_chain_buffer = SSL_SUCCESS then
              [Effect.wolfSSL_use_PrivateKey_buffer o.wolfSSL_new k] else [])) := by
  obtain ⟨⟨a1, a2, a3, a4, a5, a6, a7, a8, a9, a10, a11, a12, a13, a14, a15, a16, cert, xc, xk⟩,
    tr⟩ := w
  simp only [] at hc hk
  subst hc; subst hk
  cases cert <;>
    simp only [create_wolfssl_instance, add_certificate_to_store, x509_wolfssl_add_credentials,
      destroy_wolfssl_instance, Run.emit] at hs ⊢ <;>
    split_ifs at hs ⊢ <;>
    first
    | exact absurd hs (failure_ne_zero _ (by decide))
    | simp_all [List.filter_append, Effect.isClientLoad]

theorem open_unpaired (w : Run) (a b c d e f : Nat) (o : EngineSetup)
    (evs : List TransportEvent) (ret : Int)
    (h : w.tls.x509certificate = none ∨ w.tls.x509privatekey = none) :
    tlsio_wolfssl_open w a b c d e f o evs ret
      = (tlsio_wolfssl_open (w.setClient none none) a b c d e f o evs ret).map fun r =>
          (r.1, r.2.setClient w.tls.x509certificate w.tls.x509privatekey) := by
  have hw : (w.setClient none none).setClient w.tls.x509certificate w.tls.x509privatekey = w :=
    rfl
  have hreg : open_register (w.setClient none none) a b c d e f
      = (open_register w a b c d e f).setClient none none := rfl
  have hcr := create_wolfssl_instance_unpaired (open_register w a b c d e f) o h
  have hx : (open_register w a b c d e f).tls.x509certificate = w.tls.x509certificate := rfl
  have hy : (open_register w a b c d e f).tls.x509privatekey = w.tls.x509privatekey := rfl
  rw [hx, hy] at hcr
  unfold tlsio_wolfssl_open
  have hs : (w.setClient none none).tls.tlsio_state = w.tls.tlsio_state := rfl
  rw [hs, hreg]
  split
  · simp only [Option.map_some']
    rw [hw]
  · simp only []
    rw [hcr]
    simp only []
    split
    · rfl
    · have e1 : transport_events
          (((create_wolfssl_instance ((open_register w a b c d e f).setClient none none) o).2.setClient
              w.tls.x509certificate w.tls.x509privatekey).emit
            (.xio_open
              ((create_wolfssl_instance ((open_register w a b c d e f).setClient none none)
                o).2.setClient w.tls.x509certificate w.tls.x509privatekey).tls.socket_io)) evs
          = (transport_events
              ((create_wolfssl_instance ((open_register w a b c d e f).setClient none none) o).2.emit
                (.xio_open
                  (create_wolfssl_instance ((open_register w a b c d e f).setClient none none)
                    o).2.tls.socket_io)) evs).map
              fun w' => w'.setClient w.tls.x509certificate w.tls.x509privatekey :=
        setClient_transport_events w.tls.x509certificate w.tls.x509privatekey evs
          ((create_wolfssl_instance ((open_register w a b c d e f).setClient none none) o).2.emit
            (.xio_open
              (create_wolfssl_instance ((open_register w a b c d e f).setClient none none)
                o).2.tls.socket_io))
      rw [e1]
      cases transport_events
          ((create_wolfssl_instance ((open_register w a b c d e f).setClient none none) o).2.emit
            (.xio_open
              (create_wolfssl_instance ((open_register w a b c d e f).setClient none none)
                o).2.tls.socket_io)) evs with
      | none => rfl
      | some w2 =>
        simp only [Option.map_some']
        have hs2 : (w2.setClient w.tls.x509certificate w.tls.x509privatekey).tls.tlsio_state
            = w2.tls.tlsio_state := rfl
        rw [hs2]
        split_ifs <;> rfl

theorem create_wolfssl_instance_unpaired_result (w : Run) (o : EngineSetup)
    (h : w.tls.x509certificate = none ∨ w.tls.x509privatekey = none) :
    (create_wolfssl_instance w o).1 ≠ FAILURE 500 := by
  obtain ⟨⟨a1, a2, a3, a4, a5, a6, a7, a8, a9, a10, a11, a12, a13, a14, a15, a16, cert, xc, xk⟩,
    tr⟩ := w
  cases cert <;> cases xc <;> cases xk <;>
    first
    | (simp at h; done)
    | (simp only [create_wolfssl_instance, add_certificate_to_store, Run.emit]
       split_ifs <;>
        first
        | contradiction
        | simp [FAILURE])

/-- C27: during the construction of the engine session the client certificate and the
private key are loaded exactly when both options are set: with both set, a construction
that gets as far as the credentials loads the certificate and, if the engine accepts it, the
key; with at most one set, no load is attempted, the construction does not fail on
credentials, and the construction and the whole open proceed as in the session without
client credentials, which differs from the result only in the stored options. -/
theorem client_credentials_loaded_only_as_a_pair (w : Run) (o : EngineSetup) :
    (∀ c k : String, w.tls.x509certificate = some c → w.tls.x509privatekey = some k →
      (add_certificate_to_store w o.wolfSSL_CTX_load_verify_buffer).1 = 0 →
      o.wolfSSL_new ≠ 0 →
      (create_wolfssl_instance w o).2.trace.filter Effect.isClientLoad
        = w.trace.filter Effect.isClientLoad
          ++ (Effect.wolfSSL_use_certificate_chain_buffer o.wolfSSL_new c
            :: (if o.wolfSSL_use_certificate_chain_buffer = SSL_SUCCESS then
                [Effect.wolfSSL_use_PrivateKey_buffer o.wolfSSL_new k] else [])))
    ∧ (w.tls.x509certificate = none ∨ w.tls.x509privatekey = none →
      (create_wolfssl_instance w o).2.trace.filter Effect.isClientLoad
          = w.trace.filter Effect.isClientLoad
      ∧ (create_wolfssl_instance w o).1 ≠ FAILURE 500
      ∧ create_wolfssl_instance w o
          = ((create_wolfssl_instance (w.setClient none none) o).1,
             (create_wolfssl_instance (w.setClient none none) o).2.setClient
               w.tls.x509certificate w.tls.x509privatekey)
      ∧ ∀ (a b c d e f : Nat) (evs : List TransportEvent) (ret : Int),
          tlsio_wolfssl_open w a b c d e f o evs ret
            = (tlsio_wolfssl_open (w.setClient none none) a b c d e f o evs ret).map fun r =>
                (r.1, r.2.setClient w.tls.x509certificate w.tls.x509privatekey)) :=
  ⟨fun c k hc hk hs hn => create_wolfssl_instance_paired_loads w o c k hc hk hs hn,
    fun h => ⟨create_wolfssl_instance_unpaired_loads w o h,
      create_wolfssl_instance_unpaired_result w o h,
      create_wolfssl_instance_unpaired w o h,
      fun a b c d e f evs ret => open_unpaired w a b c d e f o evs ret h⟩⟩

/-- The C27 witness: with the certificate and the key set both are loaded; with the
certificate alone the open is the open of the session without client credentials. -/
theorem client_credentials_loaded_only_as_a_pair_witness :
    (create_wolfssl_instance (createdRun.setClient (some "cert") (some "key"))
        goodEngine).2.trace.filter Effect.isClientLoad
      = (createdRun.setClient (some "cert") (some "key")).trace.filter Effect.isClientLoad
        ++ (Effect.wolfSSL_use_certificate_chain_buffer goodEngine.wolfSSL_new "cert"
          :: (if goodEngine.wolfSSL_use_certificate_chain_buffer = SSL_SUCCESS then
              [Effect.wolfSSL_use_PrivateKey_buffer goodEngine.wolfSSL_new "key"] else []))
    ∧ (createdRun.setClient (some "cert") none).tls.x509privatekey = none
    ∧ tlsio_wolfssl_open (createdRun.setClient (some "cert") none) 11 12 13 14 15 16 goodEngine
          syncOpenEvents 0
        = (tlsio_wolfssl_open ((createdRun.setClient (some "cert") none).setClient none none)
            11 12 13 14 15 16 goodEngine syncOpenEvents 0).map fun r =>
              (r.1, r.2.setClient (createdRun.setClient (some "cert") none).tls.x509certificate
                (createdRun.setClient (some "cert") none).tls.x509privatekey) :=
  ⟨(client_credentials_loaded_only_as_a_pair (createdRun.setClient (some "cert") (some "key"))
      goodEngine).1 "cert" "key" rfl rfl (by decide) (by decide),
    rfl,
    ((client_credentials_loaded_only_as_a_pair (createdRun.setClient (some "cert") none)
      goodEngine).2 (Or.inr rfl)).2.2.2 11 12 13 14 15 16 syncOpenEvents 0⟩

/-- The open of the sample session with the client certificate alone succeeds as the open
without client credentials does. -/
theorem open_certificate_only :
    tlsio_wolfssl_open (createdRun.setClient (some "cert") none) 11 12 13 14 15 16 goodEngine
          syncOpenEvents 0 = some (0, openRun.setClient (some "cert") none) := by
  decide

end TlsioWolfssl
